import Mathlib

/-! UnrealCLR: host bootstrap and lifecycle hooks.

A shallow embedding of `Source/Native/Source/UnrealCLR/Private/UnrealCLR.cpp`:
`StartupModule` (host discovery, handshake with the managed runtime, function
table exchange) and the two world hooks `OnPreWorldInitialization` and
`OnWorldCleanup`.

The module state is the set of process-wide variables the functions assign.
Every function returns the new state together with the ordered list of
externally visible effects it performed (calls into the engine, the host
library and the managed runtime, log lines, stores into the shared arrays and
into `Status` / `Engine::World`).  Pointers are natural numbers, `0` is
`nullptr`.  Answers of the outside world are arguments: `Host` for the calls
made by `StartupModule`, `Objects` for the engine objects the hooks read.
-/

namespace UnrealCLR

/-- Pointers are addresses; `0` is `nullptr`. -/
abbrev Ptr := Nat

/-- Modelled from the spec: the `StatusType` enumeration is declared in
`UnrealCLR.h`, which is absent; the spec gives `{Stopped, Idle, Running}`. -/
inductive StatusType where
  | Stopped
  | Idle
  | Running
  deriving DecidableEq, Repr

/-- Verbosity argument of `UE_LOG`. -/
inductive Verbosity where
  | Display
  | Warning
  | Error
  deriving DecidableEq, Repr

/-- Externally visible actions, in the vocabulary of the source. -/
inductive Effect where
  /-- Source: `UE_LOG(LogUnrealCLR, verbosity, TEXT(format), ...)` -/
  | Log (verbosity : Verbosity) (format : String)
  /-- Source: `FWorldDelegates::<delegate>.AddRaw(this, ...)` -/
  | AddRaw (delegate : String)
  /-- Source: `FWorldDelegates::<delegate>.Remove(handle)` -/
  | Remove (delegate : String)
  /-- Source: `FPlatformProcess::GetDllHandle(*hostfxrPath)` -/
  | GetDllHandle
  /-- Source: `FPlatformProcess::FreeDllHandle(HostfxrLibrary)` -/
  | FreeDllHandle (library : Ptr)
  /-- Source: `FPlatformProcess::GetDllExport(HostfxrLibrary, TEXT(name))` -/
  | GetDllExport (name : String)
  /-- Source: `HostfxrSetErrorWriter(HostError)` -/
  | HostfxrSetErrorWriter
  /-- Source: `HostfxrInitializeForRuntimeConfig(*runtimeConfigPath, nullptr, &HostfxrContext)` -/
  | HostfxrInitializeForRuntimeConfig
  /-- Source: `HostfxrGetRuntimeDelegate(HostfxrContext, hdt_load_assembly_and_get_function_pointer, ...)` -/
  | HostfxrGetRuntimeDelegate (context : Ptr)
  /-- Source: `HostfxrClose(HostfxrContext)` -/
  | HostfxrClose (context : Ptr)
  /-- Source: `HostfxrLoadAssemblyAndGetFunctionPointer(*runtimeAssemblyPath, ...)` -/
  | HostfxrLoadAssemblyAndGetFunctionPointer
  /-- Source: `Shared::Functions[position] = Shared::<array>` -/
  | StoreFunctions (position : Nat) (array : String)
  /-- Source: `Shared::<array>[head] = &<function>` -/
  | StoreGroup (array : String) (head : Nat) (function : String)
  /-- Source: `Shared::ManagedFunctions[index] = &<function>` -/
  | StoreManagedFunctions (index : Nat) (function : String)
  /-- Source: `Initialize(first, second, third)`, the arguments named by their arrays -/
  | Initialize (first second third : String)
  /-- Source: `platformFile.DirectoryExists(*UnrealCLR::UserAssembliesPath)` -/
  | DirectoryExists
  /-- Source: `platformFile.CreateDirectory(*UnrealCLR::UserAssembliesPath)` -/
  | CreateDirectory
  /-- Source: `UnrealCLR::Status = status` -/
  | StoreStatus (status : StatusType)
  /-- Source: `UnrealCLR::Engine::World = world` -/
  | StoreWorld (world : Ptr)
  /-- Source: `UnrealCLR::UnloadAssemblies()`, a call through the stored pointer -/
  | UnloadAssemblies (callee : Ptr)
  /-- Source: `FSlateNotificationManager::Get().AddNotification(notificationInfo)` -/
  | AddNotification (text : String)
  /-- Source: `GEngine->AddOnScreenDebugMessage(key, timeToDisplay, color, message)`;
  the time is in seconds, the source passes the literals `(uint64)-1` and `10.0f` -/
  | AddOnScreenDebugMessage (key : Nat) (timeToDisplay : Nat) (color : String) (message : String)
  /-- Source: `UE_LOG(LogUnrealCLR, verbosity, TEXT(format), ..., *FString(message))`,
  a log line that prints a message handed in by the caller -/
  | LogMessage (verbosity : Verbosity) (format : String) (message : String)
  /-- Source: `ManagedFunction()`, a call through the pointer handed to `Invoke` -/
  | ManagedFunction (callee : Ptr)
  deriving DecidableEq, Repr

/-- Modelled from the spec: `UnrealCLR::LogLevel` is declared in `UnrealCLR.h`,
which is absent; the spec gives the levels Display, Warning, Error, Fatal, the
same four as `UnrealCLRFramework::LogLevel` in `UnrealCLRFramework.h`. -/
inductive LogLevel where
  | Display
  | Warning
  | Error
  | Fatal
  deriving DecidableEq, Repr

/-- Modelled from the spec: the process-wide variables of namespace `UnrealCLR`
are declared in `UnrealCLR.h`, which is absent.  `World` is
`UnrealCLR::Engine::World` (a non-owning reference, `0` when no world is
tracked); the three managed handles are the pointers read back from
`Shared::NativeFunctions`; `HostfxrLibrary` is the member of `Module`. -/
structure State where
  Status : StatusType
  World : Ptr
  ExecuteAssemblyFunction : Ptr
  LoadAssemblyFunction : Ptr
  UnloadAssemblies : Ptr
  HostfxrLibrary : Ptr
  deriving DecidableEq, Repr

/-- Answers of the outside world to the calls `StartupModule` makes.  An
out-parameter is given by the value the variable holds after the call (the
variable is `nullptr` before it). -/
structure Host where
  /-- result of `FPlatformProcess::GetDllHandle` -/
  GetDllHandle : Ptr
  /-- result of `FPlatformProcess::GetDllExport` for an entry point name -/
  GetDllExport : String → Ptr
  /-- return code of `hostfxr_initialize_for_runtime_config` -/
  InitializeForRuntimeConfig : Int
  /-- Source: `HostfxrContext` after that call -/
  HostfxrContext : Ptr
  /-- return code of `hostfxr_get_runtime_delegate` -/
  GetRuntimeDelegate : Int
  /-- Source: `hostfxrLoadAssemblyAndGetFunctionPointer` after that call -/
  LoadAssemblyAndGetFunctionPointerDelegate : Ptr
  /-- return code of the load-assembly-and-get-function-pointer delegate -/
  LoadAssemblyAndGetFunctionPointer : Int
  /-- the local `Initialize` pointer after that call -/
  InitializePointer : Ptr
  /-- value returned by the managed `Initialize` -/
  InitializeResult : Int
  /-- contents of `Shared::NativeFunctions` after `Initialize` returned -/
  NativeFunctions : Nat → Ptr
  /-- first `DirectoryExists(UserAssembliesPath)` -/
  DirectoryExists : Bool
  /-- Source: `DirectoryExists(UserAssembliesPath)` after `CreateDirectory` -/
  DirectoryExistsAfterCreate : Bool

/-- One block of the framework table: the inner array registered in
`Shared::Functions` and the functions stored into it, in statement order. -/
structure FunctionGroup where
  array : String
  entries : List String
  deriving DecidableEq, Repr

/-- The blocks between `// Framework pointers` and `// Runtime pointers`
of `StartupModule`, in source order. -/
def frameworkGroups : List FunctionGroup := [
  ⟨"AssertFunctions", [
      "UnrealCLRFramework::Assert::OutputMessage"
    ]⟩,
  ⟨"CommandLineFunctions", [
      "UnrealCLRFramework::CommandLine::Get",
      "UnrealCLRFramework::CommandLine::Set",
      "UnrealCLRFramework::CommandLine::Append"
    ]⟩,
  ⟨"DebugFunctions", [
      "UnrealCLRFramework::Debug::Log",
      "UnrealCLRFramework::Debug::HandleException",
      "UnrealCLRFramework::Debug::AddOnScreenMessage",
      "UnrealCLRFramework::Debug::ClearOnScreenMessages",
      "UnrealCLRFramework::Debug::DrawBox",
      "UnrealCLRFramework::Debug::DrawCapsule",
      "UnrealCLRFramework::Debug::DrawCone",
      "UnrealCLRFramework::Debug::DrawCylinder",
      "UnrealCLRFramework::Debug::DrawSphere",
      "UnrealCLRFramework::Debug::DrawLine",
      "UnrealCLRFramework::Debug::DrawPoint",
      "UnrealCLRFramework::Debug::FlushPersistentLines"
    ]⟩,
  ⟨"ObjectFunctions", [
      "UnrealCLRFramework::Object::IsPendingKill",
      "UnrealCLRFramework::Object::IsValid",
      "UnrealCLRFramework::Object::Load",
      "UnrealCLRFramework::Object::Rename",
      "UnrealCLRFramework::Object::GetName"
    ]⟩,
  ⟨"ApplicationFunctions", [
      "UnrealCLRFramework::Application::IsCanEverRender",
      "UnrealCLRFramework::Application::IsPackagedForDistribution",
      "UnrealCLRFramework::Application::IsPackagedForShipping",
      "UnrealCLRFramework::Application::GetProjectDirectory",
      "UnrealCLRFramework::Application::GetDefaultLanguage",
      "UnrealCLRFramework::Application::GetProjectName",
      "UnrealCLRFramework::Application::GetVolumeMultiplier",
      "UnrealCLRFramework::Application::SetProjectName",
      "UnrealCLRFramework::Application::SetVolumeMultiplier"
    ]⟩,
  ⟨"ConsoleManagerFunctions", [
      "UnrealCLRFramework::ConsoleManager::IsRegisteredVariable",
      "UnrealCLRFramework::ConsoleManager::FindVariable",
      "UnrealCLRFramework::ConsoleManager::RegisterVariableBool",
      "UnrealCLRFramework::ConsoleManager::RegisterVariableInt",
      "UnrealCLRFramework::ConsoleManager::RegisterVariableFloat",
      "UnrealCLRFramework::ConsoleManager::RegisterVariableString",
      "UnrealCLRFramework::ConsoleManager::RegisterCommand",
      "UnrealCLRFramework::ConsoleManager::UnregisterObject"
    ]⟩,
  ⟨"EngineFunctions", [
      "UnrealCLRFramework::Engine::IsSplitScreen",
      "UnrealCLRFramework::Engine::IsEditor",
      "UnrealCLRFramework::Engine::IsForegroundWindow",
      "UnrealCLRFramework::Engine::IsExitRequested",
      "UnrealCLRFramework::Engine::GetNetMode",
      "UnrealCLRFramework::Engine::GetFrameNumber",
      "UnrealCLRFramework::Engine::GetViewportSize",
      "UnrealCLRFramework::Engine::GetScreenResolution",
      "UnrealCLRFramework::Engine::GetWindowMode",
      "UnrealCLRFramework::Engine::GetVersion",
      "UnrealCLRFramework::Engine::GetMaxFPS",
      "UnrealCLRFramework::Engine::SetMaxFPS",
      "UnrealCLRFramework::Engine::SetTitle",
      "UnrealCLRFramework::Engine::AddActionMapping",
      "UnrealCLRFramework::Engine::AddAxisMapping",
      "UnrealCLRFramework::Engine::ForceGarbageCollection",
      "UnrealCLRFramework::Engine::DelayGarbageCollection",
      "UnrealCLRFramework::Engine::RequestExit"
    ]⟩,
  ⟨"HeadMountedDisplayFunctions", [
      "UnrealCLRFramework::HeadMountedDisplay::IsEnabled",
      "UnrealCLRFramework::HeadMountedDisplay::GetDeviceName"
    ]⟩,
  ⟨"WorldFunctions", [
      "UnrealCLRFramework::World::GetSimulatePhysics",
      "UnrealCLRFramework::World::GetActorCount",
      "UnrealCLRFramework::World::GetDeltaSeconds",
      "UnrealCLRFramework::World::GetRealTimeSeconds",
      "UnrealCLRFramework::World::GetTimeSeconds",
      "UnrealCLRFramework::World::GetWorldOrigin",
      "UnrealCLRFramework::World::GetActor",
      "UnrealCLRFramework::World::GetActorByTag",
      "UnrealCLRFramework::World::GetFirstPlayerController",
      "UnrealCLRFramework::World::SetSimulatePhysics",
      "UnrealCLRFramework::World::SetGravity",
      "UnrealCLRFramework::World::SetWorldOrigin"
    ]⟩,
  ⟨"ConsoleObjectFunctions", [
      "UnrealCLRFramework::ConsoleObject::IsBool",
      "UnrealCLRFramework::ConsoleObject::IsInt",
      "UnrealCLRFramework::ConsoleObject::IsFloat",
      "UnrealCLRFramework::ConsoleObject::IsString"
    ]⟩,
  ⟨"ConsoleVariableFunctions", [
      "UnrealCLRFramework::ConsoleVariable::GetBool",
      "UnrealCLRFramework::ConsoleVariable::GetInt",
      "UnrealCLRFramework::ConsoleVariable::GetFloat",
      "UnrealCLRFramework::ConsoleVariable::GetString",
      "UnrealCLRFramework::ConsoleVariable::SetBool",
      "UnrealCLRFramework::ConsoleVariable::SetInt",
      "UnrealCLRFramework::ConsoleVariable::SetFloat",
      "UnrealCLRFramework::ConsoleVariable::SetString",
      "UnrealCLRFramework::ConsoleVariable::SetOnChangedCallback",
      "UnrealCLRFramework::ConsoleVariable::ClearOnChangedCallback"
    ]⟩,
  ⟨"ActorFunctions", [
      "UnrealCLRFramework::Actor::IsPendingKill",
      "UnrealCLRFramework::Actor::IsRootComponentMovable",
      "UnrealCLRFramework::Actor::IsOverlappingActor",
      "UnrealCLRFramework::Actor::Spawn",
      "UnrealCLRFramework::Actor::Destroy",
      "UnrealCLRFramework::Actor::Rename",
      "UnrealCLRFramework::Actor::Hide",
      "UnrealCLRFramework::Actor::AttachToActor",
      "UnrealCLRFramework::Actor::TeleportTo",
      "UnrealCLRFramework::Actor::GetComponent",
      "UnrealCLRFramework::Actor::GetRootComponent",
      "UnrealCLRFramework::Actor::GetInputComponent",
      "UnrealCLRFramework::Actor::GetBlockInput",
      "UnrealCLRFramework::Actor::GetDistanceTo",
      "UnrealCLRFramework::Actor::GetBounds",
      "UnrealCLRFramework::Actor::SetRootComponent",
      "UnrealCLRFramework::Actor::SetInputComponent",
      "UnrealCLRFramework::Actor::SetBlockInput",
      "UnrealCLRFramework::Actor::SetLifeSpan",
      "UnrealCLRFramework::Actor::SetEnableCollision",
      "UnrealCLRFramework::Actor::AddTag",
      "UnrealCLRFramework::Actor::RemoveTag",
      "UnrealCLRFramework::Actor::HasTag"
    ]⟩,
  ⟨"PawnFunctions", [
      "UnrealCLRFramework::Pawn::AddControllerYawInput",
      "UnrealCLRFramework::Pawn::AddControllerPitchInput",
      "UnrealCLRFramework::Pawn::AddControllerRollInput",
      "UnrealCLRFramework::Pawn::AddMovementInput",
      "UnrealCLRFramework::Pawn::GetGravityDirection"
    ]⟩,
  ⟨"ControllerFunctions", [
      "UnrealCLRFramework::Controller::IsLookInputIgnored",
      "UnrealCLRFramework::Controller::IsMoveInputIgnored",
      "UnrealCLRFramework::Controller::IsPlayerController",
      "UnrealCLRFramework::Controller::GetPawn",
      "UnrealCLRFramework::Controller::LineOfSightTo",
      "UnrealCLRFramework::Controller::SetInitialLocationAndRotation",
      "UnrealCLRFramework::Controller::SetIgnoreLookInput",
      "UnrealCLRFramework::Controller::SetIgnoreMoveInput",
      "UnrealCLRFramework::Controller::ResetIgnoreLookInput",
      "UnrealCLRFramework::Controller::ResetIgnoreMoveInput"
    ]⟩,
  ⟨"AIControllerFunctions", [
      "UnrealCLRFramework::AIController::ClearFocus",
      "UnrealCLRFramework::AIController::GetFocalPoint",
      "UnrealCLRFramework::AIController::SetFocalPoint",
      "UnrealCLRFramework::AIController::GetFocusActor",
      "UnrealCLRFramework::AIController::GetAllowStrafe",
      "UnrealCLRFramework::AIController::SetAllowStrafe",
      "UnrealCLRFramework::AIController::SetFocus"
    ]⟩,
  ⟨"PlayerControllerFunctions", [
      "UnrealCLRFramework::PlayerController::IsPaused",
      "UnrealCLRFramework::PlayerController::GetShowMouseCursor",
      "UnrealCLRFramework::PlayerController::GetMousePosition",
      "UnrealCLRFramework::PlayerController::GetPlayerViewPoint",
      "UnrealCLRFramework::PlayerController::GetPlayerInput",
      "UnrealCLRFramework::PlayerController::SetShowMouseCursor",
      "UnrealCLRFramework::PlayerController::SetMousePosition",
      "UnrealCLRFramework::PlayerController::ConsoleCommand",
      "UnrealCLRFramework::PlayerController::SetPause",
      "UnrealCLRFramework::PlayerController::SetViewTarget",
      "UnrealCLRFramework::PlayerController::SetViewTargetWithBlend",
      "UnrealCLRFramework::PlayerController::AddYawInput",
      "UnrealCLRFramework::PlayerController::AddPitchInput",
      "UnrealCLRFramework::PlayerController::AddRollInput"
    ]⟩,
  ⟨"VolumeFunctions", [
      "UnrealCLRFramework::Volume::EncompassesPoint"
    ]⟩,
  ⟨"SoundBaseFunctions", [
      "UnrealCLRFramework::SoundBase::GetDuration"
    ]⟩,
  ⟨"SoundWaveFunctions", [
      "UnrealCLRFramework::SoundWave::GetLoop",
      "UnrealCLRFramework::SoundWave::SetLoop"
    ]⟩,
  ⟨"AnimationInstanceFunctions", [
      "UnrealCLRFramework::AnimationInstance::GetCurrentActiveMontage",
      "UnrealCLRFramework::AnimationInstance::MontagePlay",
      "UnrealCLRFramework::AnimationInstance::MontagePause",
      "UnrealCLRFramework::AnimationInstance::MontageResume"
    ]⟩,
  ⟨"PlayerInputFunctions", [
      "UnrealCLRFramework::PlayerInput::IsKeyPressed",
      "UnrealCLRFramework::PlayerInput::GetTimeKeyPressed",
      "UnrealCLRFramework::PlayerInput::GetMouseSensitivity",
      "UnrealCLRFramework::PlayerInput::SetMouseSensitivity"
    ]⟩,
  ⟨"Texture2DFunctions", [
      "UnrealCLRFramework::Texture2D::GetSize"
    ]⟩,
  ⟨"ActorComponentFunctions", [
      "UnrealCLRFramework::ActorComponent::IsOwnerSelected",
      "UnrealCLRFramework::ActorComponent::GetOwner",
      "UnrealCLRFramework::ActorComponent::Destroy",
      "UnrealCLRFramework::ActorComponent::AddTag",
      "UnrealCLRFramework::ActorComponent::RemoveTag",
      "UnrealCLRFramework::ActorComponent::HasTag"
    ]⟩,
  ⟨"InputComponentFunctions", [
      "UnrealCLRFramework::InputComponent::HasBindings",
      "UnrealCLRFramework::InputComponent::GetActionBindingsNumber",
      "UnrealCLRFramework::InputComponent::ClearActionBindings",
      "UnrealCLRFramework::InputComponent::BindAction",
      "UnrealCLRFramework::InputComponent::BindAxis",
      "UnrealCLRFramework::InputComponent::RemoveActionBinding",
      "UnrealCLRFramework::InputComponent::GetBlockInput",
      "UnrealCLRFramework::InputComponent::SetBlockInput",
      "UnrealCLRFramework::InputComponent::GetPriority",
      "UnrealCLRFramework::InputComponent::SetPriority"
    ]⟩,
  ⟨"SceneComponentFunctions", [
      "UnrealCLRFramework::SceneComponent::IsAttachedToComponent",
      "UnrealCLRFramework::SceneComponent::IsAttachedToActor",
      "UnrealCLRFramework::SceneComponent::Create",
      "UnrealCLRFramework::SceneComponent::AttachToComponent",
      "UnrealCLRFramework::SceneComponent::UpdateToWorld",
      "UnrealCLRFramework::SceneComponent::AddLocalOffset",
      "UnrealCLRFramework::SceneComponent::AddLocalRotation",
      "UnrealCLRFramework::SceneComponent::AddRelativeLocation",
      "UnrealCLRFramework::SceneComponent::AddRelativeRotation",
      "UnrealCLRFramework::SceneComponent::AddLocalTransform",
      "UnrealCLRFramework::SceneComponent::AddWorldOffset",
      "UnrealCLRFramework::SceneComponent::AddWorldRotation",
      "UnrealCLRFramework::SceneComponent::AddWorldTransform",
      "UnrealCLRFramework::SceneComponent::GetComponentVelocity",
      "UnrealCLRFramework::SceneComponent::GetComponentLocation",
      "UnrealCLRFramework::SceneComponent::GetComponentRotation",
      "UnrealCLRFramework::SceneComponent::GetComponentScale",
      "UnrealCLRFramework::SceneComponent::GetComponentTransform",
      "UnrealCLRFramework::SceneComponent::GetForwardVector",
      "UnrealCLRFramework::SceneComponent::GetRightVector",
      "UnrealCLRFramework::SceneComponent::GetUpVector",
      "UnrealCLRFramework::SceneComponent::SetMobility",
      "UnrealCLRFramework::SceneComponent::SetRelativeLocation",
      "UnrealCLRFramework::SceneComponent::SetRelativeRotation",
      "UnrealCLRFramework::SceneComponent::SetRelativeTransform",
      "UnrealCLRFramework::SceneComponent::SetWorldLocation",
      "UnrealCLRFramework::SceneComponent::SetWorldRotation",
      "UnrealCLRFramework::SceneComponent::SetWorldTransform"
    ]⟩,
  ⟨"AudioComponentFunctions", [
      "UnrealCLRFramework::AudioComponent::GetPaused",
      "UnrealCLRFramework::AudioComponent::SetSound",
      "UnrealCLRFramework::AudioComponent::SetPaused",
      "UnrealCLRFramework::AudioComponent::Play",
      "UnrealCLRFramework::AudioComponent::Stop"
    ]⟩,
  ⟨"CameraComponentFunctions", [
      "UnrealCLRFramework::CameraComponent::GetConstrainAspectRatio",
      "UnrealCLRFramework::CameraComponent::GetAspectRatio",
      "UnrealCLRFramework::CameraComponent::GetFieldOfView",
      "UnrealCLRFramework::CameraComponent::GetOrthoFarClipPlane",
      "UnrealCLRFramework::CameraComponent::GetOrthoNearClipPlane",
      "UnrealCLRFramework::CameraComponent::GetOrthoWidth",
      "UnrealCLRFramework::CameraComponent::GetLockToHeadMountedDisplay",
      "UnrealCLRFramework::CameraComponent::SetProjectionMode",
      "UnrealCLRFramework::CameraComponent::SetConstrainAspectRatio",
      "UnrealCLRFramework::CameraComponent::SetAspectRatio",
      "UnrealCLRFramework::CameraComponent::SetFieldOfView",
      "UnrealCLRFramework::CameraComponent::SetOrthoFarClipPlane",
      "UnrealCLRFramework::CameraComponent::SetOrthoNearClipPlane",
      "UnrealCLRFramework::CameraComponent::SetOrthoWidth",
      "UnrealCLRFramework::CameraComponent::SetLockToHeadMountedDisplay"
    ]⟩,
  ⟨"PrimitiveComponentFunctions", [
      "UnrealCLRFramework::PrimitiveComponent::IsGravityEnabled",
      "UnrealCLRFramework::PrimitiveComponent::AddAngularImpulseInDegrees",
      "UnrealCLRFramework::PrimitiveComponent::AddAngularImpulseInRadians",
      "UnrealCLRFramework::PrimitiveComponent::AddForce",
      "UnrealCLRFramework::PrimitiveComponent::AddForceAtLocation",
      "UnrealCLRFramework::PrimitiveComponent::AddImpulse",
      "UnrealCLRFramework::PrimitiveComponent::AddImpulseAtLocation",
      "UnrealCLRFramework::PrimitiveComponent::AddRadialForce",
      "UnrealCLRFramework::PrimitiveComponent::AddRadialImpulse",
      "UnrealCLRFramework::PrimitiveComponent::AddTorqueInDegrees",
      "UnrealCLRFramework::PrimitiveComponent::AddTorqueInRadians",
      "UnrealCLRFramework::PrimitiveComponent::GetMass",
      "UnrealCLRFramework::PrimitiveComponent::GetCastShadow",
      "UnrealCLRFramework::PrimitiveComponent::GetOnlyOwnerSee",
      "UnrealCLRFramework::PrimitiveComponent::GetOwnerNoSee",
      "UnrealCLRFramework::PrimitiveComponent::GetMaterial",
      "UnrealCLRFramework::PrimitiveComponent::GetMaterialsNumber",
      "UnrealCLRFramework::PrimitiveComponent::GetDistanceToCollision",
      "UnrealCLRFramework::PrimitiveComponent::GetSquaredDistanceToCollision",
      "UnrealCLRFramework::PrimitiveComponent::GetAngularDamping",
      "UnrealCLRFramework::PrimitiveComponent::GetLinearDamping",
      "UnrealCLRFramework::PrimitiveComponent::SetMass",
      "UnrealCLRFramework::PrimitiveComponent::SetCastShadow",
      "UnrealCLRFramework::PrimitiveComponent::SetOnlyOwnerSee",
      "UnrealCLRFramework::PrimitiveComponent::SetOwnerNoSee",
      "UnrealCLRFramework::PrimitiveComponent::SetMaterial",
      "UnrealCLRFramework::PrimitiveComponent::SetSimulatePhysics",
      "UnrealCLRFramework::PrimitiveComponent::SetAngularDamping",
      "UnrealCLRFramework::PrimitiveComponent::SetLinearDamping",
      "UnrealCLRFramework::PrimitiveComponent::SetEnableGravity",
      "UnrealCLRFramework::PrimitiveComponent::CreateAndSetMaterialInstanceDynamic"
    ]⟩,
  ⟨"ShapeComponentFunctions", [
      "UnrealCLRFramework::ShapeComponent::GetDynamicObstacle",
      "UnrealCLRFramework::ShapeComponent::GetShapeColor",
      "UnrealCLRFramework::ShapeComponent::SetDynamicObstacle",
      "UnrealCLRFramework::ShapeComponent::SetShapeColor"
    ]⟩,
  ⟨"BoxComponentFunctions", [
      "UnrealCLRFramework::BoxComponent::GetScaledBoxExtent",
      "UnrealCLRFramework::BoxComponent::GetUnscaledBoxExtent",
      "UnrealCLRFramework::BoxComponent::SetBoxExtent",
      "UnrealCLRFramework::BoxComponent::InitBoxExtent"
    ]⟩,
  ⟨"SphereComponentFunctions", [
      "UnrealCLRFramework::SphereComponent::GetScaledSphereRadius",
      "UnrealCLRFramework::SphereComponent::GetUnscaledSphereRadius",
      "UnrealCLRFramework::SphereComponent::GetShapeScale",
      "UnrealCLRFramework::SphereComponent::SetSphereRadius",
      "UnrealCLRFramework::SphereComponent::InitSphereRadius"
    ]⟩,
  ⟨"CapsuleComponentFunctions", [
      "UnrealCLRFramework::CapsuleComponent::GetScaledCapsuleRadius",
      "UnrealCLRFramework::CapsuleComponent::GetUnscaledCapsuleRadius",
      "UnrealCLRFramework::CapsuleComponent::GetShapeScale",
      "UnrealCLRFramework::CapsuleComponent::GetScaledCapsuleSize",
      "UnrealCLRFramework::CapsuleComponent::GetUnscaledCapsuleSize",
      "UnrealCLRFramework::CapsuleComponent::SetCapsuleRadius",
      "UnrealCLRFramework::CapsuleComponent::SetCapsuleSize",
      "UnrealCLRFramework::CapsuleComponent::InitCapsuleSize"
    ]⟩,
  ⟨"MeshComponentFunctions", [
      "UnrealCLRFramework::MeshComponent::GetMaterialIndex"
    ]⟩,
  ⟨"MotionControllerComponentFunctions", [
      "UnrealCLRFramework::MotionControllerComponent::IsTracked"
    ]⟩,
  ⟨"StaticMeshComponentFunctions", [
      "UnrealCLRFramework::StaticMeshComponent::GetLocalBounds",
      "UnrealCLRFramework::StaticMeshComponent::GetStaticMesh",
      "UnrealCLRFramework::StaticMeshComponent::SetStaticMesh"
    ]⟩,
  ⟨"InstancedStaticMeshComponentFunctions", [
      "UnrealCLRFramework::InstancedStaticMeshComponent::GetInstanceCount",
      "UnrealCLRFramework::InstancedStaticMeshComponent::AddInstance",
      "UnrealCLRFramework::InstancedStaticMeshComponent::UpdateInstanceTransform",
      "UnrealCLRFramework::InstancedStaticMeshComponent::ClearInstances"
    ]⟩,
  ⟨"SkinnedMeshComponentFunctions", [
      "UnrealCLRFramework::SkinnedMeshComponent::SetSkeletalMesh"
    ]⟩,
  ⟨"SkeletalMeshComponentFunctions", [
      "UnrealCLRFramework::SkeletalMeshComponent::GetAnimationInstance",
      "UnrealCLRFramework::SkeletalMeshComponent::SetAnimation",
      "UnrealCLRFramework::SkeletalMeshComponent::SetAnimationMode",
      "UnrealCLRFramework::SkeletalMeshComponent::SetAnimationBlueprint",
      "UnrealCLRFramework::SkeletalMeshComponent::Play",
      "UnrealCLRFramework::SkeletalMeshComponent::PlayAnimation",
      "UnrealCLRFramework::SkeletalMeshComponent::Stop"
    ]⟩,
  ⟨"MaterialInterfaceFunctions", [
      "UnrealCLRFramework::MaterialInterface::IsTwoSided"
    ]⟩,
  ⟨"MaterialFunctions", [
      "UnrealCLRFramework::Material::IsDefaultMaterial"
    ]⟩,
  ⟨"MaterialInstanceFunctions", [
      "UnrealCLRFramework::MaterialInstance::IsChildOf"
    ]⟩,
  ⟨"MaterialInstanceDynamicFunctions", [
      "UnrealCLRFramework::MaterialInstanceDynamic::ClearParameterValues",
      "UnrealCLRFramework::MaterialInstanceDynamic::SetTextureParameterValue",
      "UnrealCLRFramework::MaterialInstanceDynamic::SetVectorParameterValue",
      "UnrealCLRFramework::MaterialInstanceDynamic::SetScalarParameterValue"
    ]⟩
]

/-- Stores `Shared::<array>[head++] = &f` for the functions of one block. -/
def storeEntries (array : String) : Nat → List String → List Effect
  | _, [] => []
  | head, f :: fs => Effect.StoreGroup array head f :: storeEntries array (head + 1) fs

/-- The framework blocks: `Shared::Functions[position++] = Shared::<array>`
followed by the stores into that array with a fresh `head = 0`. -/
def storeGroups : Nat → List FunctionGroup → List Effect
  | _, [] => []
  | position, g :: gs =>
    Effect.StoreFunctions position g.array ::
      (storeEntries g.array 0 g.entries ++ storeGroups (position + 1) gs)

/-- The three stores after `// Runtime pointers`. -/
def storeManagedFunctions : List Effect :=
  [Effect.StoreManagedFunctions 0 "UnrealCLR::Module::Invoke",
   Effect.StoreManagedFunctions 1 "UnrealCLR::Module::Exception",
   Effect.StoreManagedFunctions 2 "UnrealCLR::Module::Log"]

/-- Lines 714-721 of `StartupModule`: the user assemblies folder is created
when it does not exist, and an error is logged when it still does not. -/
def ensureUserAssembliesPath (host : Host) : List Effect :=
  Effect.DirectoryExists ::
    (if !host.DirectoryExists then
      [Effect.CreateDirectory, Effect.DirectoryExists] ++
        (if !host.DirectoryExistsAfterCreate then
          [Effect.Log Verbosity.Error "%s: Unable to create a folder for managed assemblies at %s."]
        else [])
    else [])

/-- Lines 143-730 of `StartupModule`: the branch on the `Initialize` pointer.
`s` and `t` are the state and the effects so far. -/
def exchangeFunctionTables (host : Host) (s : State) (t : List Effect) : State × List Effect :=
  if host.InitializePointer ≠ 0 then
    let t := t ++ storeGroups 0 frameworkGroups ++ storeManagedFunctions ++
      [Effect.Initialize "Shared::ManagedFunctions" "Shared::NativeFunctions" "Shared::Functions"]
    if host.InitializeResult = 0xF then
      let s := { s with
        ExecuteAssemblyFunction := host.NativeFunctions 0
        LoadAssemblyFunction := host.NativeFunctions 1
        UnloadAssemblies := host.NativeFunctions 2 }
      let t := t ++ [Effect.Log Verbosity.Display "%s: Host runtime assembly initialized succesfuly!"]
      let t := t ++ ensureUserAssembliesPath host
      ({ s with Status := StatusType.Idle },
        t ++ [Effect.StoreStatus StatusType.Idle,
              Effect.Log Verbosity.Display "%s: Host loaded succesfuly!"])
    else
      (s, t ++ [Effect.Log Verbosity.Error "%s: Host runtime assembly initialization failed!"])
  else
    (s, t ++ [Effect.Log Verbosity.Error
      "%s: Host runtime assembly unable to load the initialization function!"])

/-- Lines 105-141 of `StartupModule`: the host context, the delegate and the
runtime assembly, once the four entry points are resolved. -/
def initializeHost (host : Host) (s : State) (t : List Effect) : State × List Effect :=
  let t := t ++ [Effect.HostfxrSetErrorWriter, Effect.HostfxrInitializeForRuntimeConfig]
  if host.InitializeForRuntimeConfig ≠ 0 ∨ host.HostfxrContext = 0 then
    (s, t ++ [Effect.Log Verbosity.Error
                "%s: Unable to initialize the host! Please, try to restart the engine.",
              Effect.HostfxrClose host.HostfxrContext])
  else
    let t := t ++ [Effect.HostfxrGetRuntimeDelegate host.HostfxrContext]
    -- the second operand tests the entry point `HostfxrGetRuntimeDelegate`
    if host.GetRuntimeDelegate ≠ 0 ∨ host.GetDllExport "hostfxr_get_runtime_delegate" = 0 then
      (s, t ++ [Effect.Log Verbosity.Error
                  "%s: Unable to get hdt_load_assembly_and_get_function_pointer runtime delegate!",
                Effect.HostfxrClose host.HostfxrContext])
    else
      let t := t ++ [Effect.HostfxrClose host.HostfxrContext,
                     Effect.Log Verbosity.Display "%s: Host functions loaded successfuly!"]
      if host.LoadAssemblyAndGetFunctionPointerDelegate ≠ 0 then
        let t := t ++ [Effect.HostfxrLoadAssemblyAndGetFunctionPointer]
        if host.LoadAssemblyAndGetFunctionPointer = 0 then
          exchangeFunctionTables host s
            (t ++ [Effect.Log Verbosity.Display "%s: Host runtime assembly loaded succesfuly!"])
        else
          (s, t ++ [Effect.Log Verbosity.Error "%s: Host runtime assembly loading failed!"])
      else
        (s, t ++ [Effect.Log Verbosity.Error "%s: Host runtime assembly loading failed!"])

/-- Lines 73-103 of `StartupModule`: the four entry points are looked up one
after the other, each lookup followed by its null test. -/
def resolveEntryPoints (host : Host) (s : State) (t : List Effect) : State × List Effect :=
  let t := t ++ [Effect.GetDllExport "hostfxr_set_error_writer"]
  if host.GetDllExport "hostfxr_set_error_writer" = 0 then
    (s, t ++ [Effect.Log Verbosity.Error
      "%s: Unable to locate hostfxr_set_error_writer entry point!"])
  else
    let t := t ++ [Effect.GetDllExport "hostfxr_initialize_for_runtime_config"]
    if host.GetDllExport "hostfxr_initialize_for_runtime_config" = 0 then
      (s, t ++ [Effect.Log Verbosity.Error
        "%s: Unable to locate hostfxr_initialize_for_runtime_config entry point!"])
    else
      let t := t ++ [Effect.GetDllExport "hostfxr_get_runtime_delegate"]
      if host.GetDllExport "hostfxr_get_runtime_delegate" = 0 then
        (s, t ++ [Effect.Log Verbosity.Error
          "%s: Unable to locate hostfxr_get_runtime_delegate entry point!"])
      else
        let t := t ++ [Effect.GetDllExport "hostfxr_close"]
        if host.GetDllExport "hostfxr_close" = 0 then
          (s, t ++ [Effect.Log Verbosity.Error
            "%s: Unable to locate hostfxr_close entry point!"])
        else
          initializeHost host s t

/-- Embedding of `UnrealCLR::Module::StartupModule`.  The path strings it
builds are not part of the state; a `return` ends with the effects so far. -/
def Module.StartupModule (host : Host) (s : State) : State × List Effect :=
  let s := { s with Status := StatusType.Stopped }
  let t := [Effect.StoreStatus StatusType.Stopped,
            Effect.AddRaw "OnPreWorldInitialization",
            Effect.AddRaw "OnWorldCleanup",
            Effect.Log Verbosity.Display "%s: Host path set to \"%s\"",
            Effect.GetDllHandle]
  let s := { s with HostfxrLibrary := host.GetDllHandle }
  if host.GetDllHandle ≠ 0 then
    resolveEntryPoints host s
      (t ++ [Effect.Log Verbosity.Display "%s: Host library loaded successfuly!"])
  else
    (s, t ++ [Effect.Log Verbosity.Error "%s: Host loading failed!"])

/-- What the hooks read from the engine objects: `World->IsGameWorld()` and
`World->GetFullName()` for the object at an address. -/
structure Objects where
  IsGameWorld : Ptr → Bool
  GetFullName : Ptr → String

/-- Faults of the hooks: a member call through a null `UWorld*`, and a call
through a null function pointer. -/
inductive Fault where
  | NullDereference
  | NullCall
  deriving DecidableEq, Repr

/-- Embedding of `UnrealCLR::Module::OnPreWorldInitialization`.
`WITH_EDITOR` is the build macro guarding the notification. -/
def Module.OnPreWorldInitialization (WITH_EDITOR : Bool) (objects : Objects) (World : Ptr)
    (s : State) : Except Fault (State × List Effect) :=
  if World = 0 then Except.error Fault.NullDereference
  else if objects.IsGameWorld World && s.World == 0 then
    let s := { s with World := World }
    if s.Status ≠ StatusType.Stopped then
      Except.ok ({ s with Status := StatusType.Running },
        [Effect.StoreWorld World, Effect.StoreStatus StatusType.Running])
    else
      Except.ok (s, Effect.StoreWorld World ::
        (if WITH_EDITOR then
          [Effect.AddNotification
            "UnrealCLR host is not initialized! Please, check logs and try to restart the engine."]
        else []))
  else Except.ok (s, [])

/-- Embedding of `UnrealCLR::Module::OnWorldCleanup`.  The right operand of
`&&` is evaluated only for a game world and reads the full name through
`UnrealCLR::Engine::World`.  The call `UnrealCLR::UnloadAssemblies()` at line
766 goes through the stored pointer without a test: with a null pointer it is
a fault, reached after `Engine::World` was cleared and before `Status` is
stored. -/
def Module.OnWorldCleanup (objects : Objects) (World : Ptr)
    (s : State) : Except Fault (State × List Effect) :=
  if World = 0 then Except.error Fault.NullDereference
  else if objects.IsGameWorld World then
    if s.World = 0 then Except.error Fault.NullDereference
    else if objects.GetFullName World = objects.GetFullName s.World then
      let s := { s with World := 0 }
      if s.Status ≠ StatusType.Stopped then
        if s.UnloadAssemblies = 0 then Except.error Fault.NullCall
        else
          Except.ok ({ s with Status := StatusType.Idle },
            [Effect.StoreWorld 0, Effect.UnloadAssemblies s.UnloadAssemblies,
             Effect.StoreStatus StatusType.Idle])
      else Except.ok (s, [Effect.StoreWorld 0])
    else Except.ok (s, [])
  else Except.ok (s, [])

/-- The calls the engine and the module manager deliver to the module. -/
inductive Event where
  | StartupModule (host : Host)
  | OnPreWorldInitialization (objects : Objects) (World : Ptr)
  | OnWorldCleanup (objects : Objects) (World : Ptr)

/-- One delivered call. -/
def step (WITH_EDITOR : Bool) : Event → State → Except Fault (State × List Effect)
  | Event.StartupModule host, s => Except.ok (Module.StartupModule host s)
  | Event.OnPreWorldInitialization objects World, s =>
    Module.OnPreWorldInitialization WITH_EDITOR objects World s
  | Event.OnWorldCleanup objects World, s => Module.OnWorldCleanup objects World s

/-- A sequence of calls, one after the other on the same thread: the final
state and all effects in order, or the first fault. -/
def run (WITH_EDITOR : Bool) : List Event → State → Except Fault (State × List Effect)
  | [], s => Except.ok (s, [])
  | ev :: evs, s =>
    match step WITH_EDITOR ev s with
    | Except.error f => Except.error f
    | Except.ok (s1, t1) =>
      match run WITH_EDITOR evs s1 with
      | Except.error f => Except.error f
      | Except.ok (s2, t2) => Except.ok (s2, t1 ++ t2)

/-- The state after each call of a sequence, up to the first fault. -/
def states (WITH_EDITOR : Bool) : List Event → State → List State
  | [], _ => []
  | ev :: evs, s =>
    match step WITH_EDITOR ev s with
    | Except.error _ => []
    | Except.ok (s1, _) => s1 :: states WITH_EDITOR evs s1

/-- The two world hooks, as opposed to `StartupModule`. -/
def Event.isHook : Event → Bool
  | Event.StartupModule _ => false
  | Event.OnPreWorldInitialization _ _ => true
  | Event.OnWorldCleanup _ _ => true

/-- What the engine guarantees about one call in state `s`: the world passed
to a hook is an object, and the cleanup of a game world arrives while a world
is tracked. -/
def Event.Expected : Event → State → Prop
  | Event.StartupModule _, _ => True
  | Event.OnPreWorldInitialization _ World, _ => World ≠ 0
  | Event.OnWorldCleanup objects World, s =>
    World ≠ 0 ∧ (objects.IsGameWorld World = true → s.World ≠ 0)

/-- Every call of the sequence is `Expected` in the state it arrives in. -/
def Delivered (WITH_EDITOR : Bool) : State → List Event → Prop
  | _, [] => True
  | s, ev :: evs =>
    ev.Expected s ∧ ∀ s1 t1, step WITH_EDITOR ev s = Except.ok (s1, t1) → Delivered WITH_EDITOR s1 evs

/-- The names `StartupModule` passes to `GetDllExport`, in lookup order. -/
def requiredEntryPoints : List String :=
  ["hostfxr_set_error_writer", "hostfxr_initialize_for_runtime_config",
   "hostfxr_get_runtime_delegate", "hostfxr_close"]

/-- Every step of the handshake answered with success. -/
def Host.Succeeds (host : Host) : Prop :=
  host.GetDllHandle ≠ 0 ∧
  host.GetDllExport "hostfxr_set_error_writer" ≠ 0 ∧
  host.GetDllExport "hostfxr_initialize_for_runtime_config" ≠ 0 ∧
  host.GetDllExport "hostfxr_get_runtime_delegate" ≠ 0 ∧
  host.GetDllExport "hostfxr_close" ≠ 0 ∧
  (host.InitializeForRuntimeConfig = 0 ∧ host.HostfxrContext ≠ 0) ∧
  (host.GetRuntimeDelegate = 0 ∧ host.LoadAssemblyAndGetFunctionPointerDelegate ≠ 0) ∧
  (host.LoadAssemblyAndGetFunctionPointer = 0 ∧ host.InitializePointer ≠ 0) ∧
  host.InitializeResult = 15

/-- Effects of the steps that follow the resolution of the entry points:
calls through the resolved entry points and the delegate, stores into the
shared arrays, the managed `Initialize`, the folder check, `Status = Idle`. -/
def Effect.afterEntryPoints : Effect → Bool
  | Effect.HostfxrSetErrorWriter => true
  | Effect.HostfxrInitializeForRuntimeConfig => true
  | Effect.HostfxrGetRuntimeDelegate _ => true
  | Effect.HostfxrClose _ => true
  | Effect.HostfxrLoadAssemblyAndGetFunctionPointer => true
  | Effect.StoreFunctions _ _ => true
  | Effect.StoreGroup _ _ _ => true
  | Effect.StoreManagedFunctions _ _ => true
  | Effect.Initialize _ _ _ => true
  | Effect.DirectoryExists => true
  | Effect.CreateDirectory => true
  | Effect.StoreStatus StatusType.Idle => true
  | _ => false

/-- Calls of the context closer. -/
def Effect.isHostfxrClose : Effect → Bool
  | Effect.HostfxrClose _ => true
  | _ => false

/-- User-visible notifications. -/
def Effect.isAddNotification : Effect → Bool
  | Effect.AddNotification _ => true
  | _ => false

/-- Embedding of `UnrealCLR::Module::ShutdownModule`. -/
def Module.ShutdownModule (s : State) : State × List Effect :=
  (s, [Effect.Remove "OnPreWorldInitialization", Effect.Remove "OnWorldCleanup",
       Effect.FreeDllHandle s.HostfxrLibrary])

/-- Embedding of `UnrealCLR::Module::HostError`. -/
def Module.HostError (Message : String) (s : State) : State × List Effect :=
  (s, [Effect.LogMessage Verbosity.Error "%s: %s" Message])

/-- Embedding of `UnrealCLR::Module::Invoke`: the body is the one call
`ManagedFunction()`; what the callee does is outside the module. -/
def Module.Invoke (ManagedFunction : Ptr) (s : State) : State × List Effect :=
  (s, [Effect.ManagedFunction ManagedFunction])

/-- The key `(uint64)-1` of the on-screen messages. -/
def onScreenKey : Nat := 2 ^ 64 - 1

/-- Embedding of `UnrealCLR::Module::Exception`; `GEngine` is the running
engine. -/
def Module.Exception (Message : String) (s : State) : State × List Effect :=
  (s, [Effect.LogMessage Verbosity.Error "%s: %s" Message,
       Effect.AddOnScreenDebugMessage onScreenKey 10 "FColor::Red" Message])

/-- Embedding of `UnrealCLR::Module::Log`: an `if` / `else if` chain over
three levels, without a final `else`. -/
def Module.Log (Level : LogLevel) (Message : String) (s : State) : State × List Effect :=
  if Level = LogLevel.Display then
    (s, [Effect.LogMessage Verbosity.Display "%s: %s" Message])
  else if Level = LogLevel.Warning then
    (s, [Effect.LogMessage Verbosity.Warning "%s: %s" Message,
         Effect.AddOnScreenDebugMessage onScreenKey 10 "FColor::Yellow" Message])
  else if Level = LogLevel.Error then
    (s, [Effect.LogMessage Verbosity.Error "%s: %s" Message,
         Effect.AddOnScreenDebugMessage onScreenKey 10 "FColor::Red" Message])
  else (s, [])

/-- The verbosity a log level stands for, where `UE_LOG` has one in this
module. -/
def LogLevel.verbosity : LogLevel → Option Verbosity
  | LogLevel.Display => some Verbosity.Display
  | LogLevel.Warning => some Verbosity.Warning
  | LogLevel.Error => some Verbosity.Error
  | LogLevel.Fatal => none

/-- The handshake up to the managed call: every answer that `StartupModule`
tests before it calls `Initialize` is a success. -/
def Host.ReachesInitialize (host : Host) : Prop :=
  host.GetDllHandle ≠ 0 ∧
  host.GetDllExport "hostfxr_set_error_writer" ≠ 0 ∧
  host.GetDllExport "hostfxr_initialize_for_runtime_config" ≠ 0 ∧
  host.GetDllExport "hostfxr_get_runtime_delegate" ≠ 0 ∧
  host.GetDllExport "hostfxr_close" ≠ 0 ∧
  (host.InitializeForRuntimeConfig = 0 ∧ host.HostfxrContext ≠ 0) ∧
  (host.GetRuntimeDelegate = 0 ∧ host.LoadAssemblyAndGetFunctionPointerDelegate ≠ 0) ∧
  (host.LoadAssemblyAndGetFunctionPointer = 0 ∧ host.InitializePointer ≠ 0)

/-- The effects of `StartupModule` before the first table store, on the path
that reaches `Initialize`. -/
def beforeTables (host : Host) : List Effect :=
  [Effect.StoreStatus StatusType.Stopped,
   Effect.AddRaw "OnPreWorldInitialization",
   Effect.AddRaw "OnWorldCleanup",
   Effect.Log Verbosity.Display "%s: Host path set to \"%s\"",
   Effect.GetDllHandle,
   Effect.Log Verbosity.Display "%s: Host library loaded successfuly!",
   Effect.GetDllExport "hostfxr_set_error_writer",
   Effect.GetDllExport "hostfxr_initialize_for_runtime_config",
   Effect.GetDllExport "hostfxr_get_runtime_delegate",
   Effect.GetDllExport "hostfxr_close",
   Effect.HostfxrSetErrorWriter,
   Effect.HostfxrInitializeForRuntimeConfig,
   Effect.HostfxrGetRuntimeDelegate host.HostfxrContext,
   Effect.HostfxrClose host.HostfxrContext,
   Effect.Log Verbosity.Display "%s: Host functions loaded successfuly!",
   Effect.HostfxrLoadAssemblyAndGetFunctionPointer,
   Effect.Log Verbosity.Display "%s: Host runtime assembly loaded succesfuly!"]

/-- The call of the managed initializer as `StartupModule` writes it. -/
def initializeCall : Effect :=
  Effect.Initialize "Shared::ManagedFunctions" "Shared::NativeFunctions" "Shared::Functions"

/-- The effects of `StartupModule` after `Initialize` returned. -/
def afterInitialize (host : Host) : List Effect :=
  if host.InitializeResult = 0xF then
    Effect.Log Verbosity.Display "%s: Host runtime assembly initialized succesfuly!" ::
      (ensureUserAssembliesPath host ++
        [Effect.StoreStatus StatusType.Idle,
         Effect.Log Verbosity.Display "%s: Host loaded succesfuly!"])
  else [Effect.Log Verbosity.Error "%s: Host runtime assembly initialization failed!"]

/-- Stores into `Shared::Functions`, an inner group array or
`Shared::ManagedFunctions`. -/
def Effect.isTableStore : Effect → Bool
  | Effect.StoreFunctions _ _ => true
  | Effect.StoreGroup _ _ _ => true
  | Effect.StoreManagedFunctions _ _ => true
  | _ => false

/-- Stores into `Shared::ManagedFunctions`. -/
def Effect.isStoreManagedFunctions : Effect → Bool
  | Effect.StoreManagedFunctions _ _ => true
  | _ => false

/-- Calls of the managed `Initialize`. -/
def Effect.isInitialize : Effect → Bool
  | Effect.Initialize _ _ _ => true
  | _ => false

/-- Calls through the four entry points, the delegate and `Initialize`. -/
def Effect.isHandshakeCall : Effect → Bool
  | Effect.HostfxrSetErrorWriter => true
  | Effect.HostfxrInitializeForRuntimeConfig => true
  | Effect.HostfxrGetRuntimeDelegate _ => true
  | Effect.HostfxrClose _ => true
  | Effect.HostfxrLoadAssemblyAndGetFunctionPointer => true
  | Effect.Initialize _ _ _ => true
  | _ => false

/-- Calls of `FPlatformProcess::FreeDllHandle`. -/
def Effect.isFreeDllHandle : Effect → Bool
  | Effect.FreeDllHandle _ => true
  | _ => false

/-- Calls of `CreateDirectory`. -/
def Effect.isCreateDirectory : Effect → Bool
  | Effect.CreateDirectory => true
  | _ => false

/-- On-screen debug messages. -/
def Effect.isAddOnScreenDebugMessage : Effect → Bool
  | Effect.AddOnScreenDebugMessage _ _ _ _ => true
  | _ => false

/-- The kinds of effect `StartupModule` can perform. -/
def Effect.isStartupEffect : Effect → Bool
  | Effect.Log _ _ => true
  | Effect.AddRaw _ => true
  | Effect.GetDllHandle => true
  | Effect.GetDllExport _ => true
  | Effect.HostfxrSetErrorWriter => true
  | Effect.HostfxrInitializeForRuntimeConfig => true
  | Effect.HostfxrGetRuntimeDelegate _ => true
  | Effect.HostfxrClose _ => true
  | Effect.HostfxrLoadAssemblyAndGetFunctionPointer => true
  | Effect.StoreFunctions _ _ => true
  | Effect.StoreGroup _ _ _ => true
  | Effect.StoreManagedFunctions _ _ => true
  | Effect.Initialize _ _ _ => true
  | Effect.DirectoryExists => true
  | Effect.CreateDirectory => true
  | Effect.StoreStatus _ => true
  | _ => false

/-- The index and the group of a store into `Shared::Functions`. -/
def Effect.outerStore : Effect → Option (Nat × String)
  | Effect.StoreFunctions position array => some (position, array)
  | _ => none

/-- The index and the function of a store into the inner array `array`. -/
def Effect.innerStore (array : String) : Effect → Option (Nat × String)
  | Effect.StoreGroup a head function => if a = array then some (head, function) else none
  | _ => none

/-- The hosts of the `StartupModule` calls of a sequence, in order. -/
def hostsOf : List Event → List Host
  | [] => []
  | Event.StartupModule host :: evs => host :: hostsOf evs
  | Event.OnPreWorldInitialization _ _ :: evs => hostsOf evs
  | Event.OnWorldCleanup _ _ :: evs => hostsOf evs

/-- The three managed handles of `st` are the values that a `StartupModule`
run on one of `hosts`, with `Initialize` returning `0xF`, read from slots 0, 1
and 2 of the output array. -/
def AssignedBy (hosts : List Host) (st : State) : Prop :=
  ∃ h ∈ hosts, h.Succeeds ∧ st.ExecuteAssemblyFunction = h.NativeFunctions 0 ∧
    st.LoadAssemblyFunction = h.NativeFunctions 1 ∧
    st.UnloadAssemblies = h.NativeFunctions 2

/-! ## Marshalling structs of `UnrealCLRFramework.h`

The scalar type `F` stands for `float`; the structs only copy such
values.  A `uint8` is a `Fin 256`.  The engine types are given by their
fields and by the argument order of the constructors the header calls. -/

/-- Engine type `FColor`, built as `FColor(R, G, B, A)`. -/
structure FColor where
  R : Fin 256
  G : Fin 256
  B : Fin 256
  A : Fin 256
  deriving DecidableEq, Repr

/-- Engine type `FVector2D`, built as `FVector2D(X, Y)`. -/
structure FVector2D (F : Type) where
  X : F
  Y : F

/-- Engine type `FVector`, built as `FVector(X, Y, Z)`. -/
structure FVector (F : Type) where
  X : F
  Y : F
  Z : F

/-- Engine type `FQuat`, built as `FQuat(X, Y, Z, W)`. -/
structure FQuat (F : Type) where
  X : F
  Y : F
  Z : F
  W : F

/-- Engine type `FLinearColor`, built as `FLinearColor(R, G, B, A)`. -/
structure FLinearColor (F : Type) where
  R : F
  G : F
  B : F
  A : F

/-- Engine type `FTransform`, built as `FTransform(Rotation, Translation,
Scale3D)` and read with `GetRotation`, `GetTranslation`, `GetScale3D`. -/
structure FTransform (F : Type) where
  GetRotation : FQuat F
  GetTranslation : FVector F
  GetScale3D : FVector F

/-- Struct `Color`: the fields in declaration order `B, G, R, A`. -/
structure Color where
  B : Fin 256
  G : Fin 256
  R : Fin 256
  A : Fin 256
  deriving DecidableEq, Repr

/-- Constructor `Color(FColor Value)`. -/
def Color.fromFColor (Value : FColor) : Color :=
  { R := Value.R, G := Value.G, B := Value.B, A := Value.A }

/-- Conversion `operator FColor()`: `FColor(R, G, B, A)`. -/
def Color.toFColor (c : Color) : FColor :=
  FColor.mk c.R c.G c.B c.A

/-- Struct `Vector2`. -/
structure Vector2 (F : Type) where
  X : F
  Y : F

/-- Constructor `Vector2(FVector2D Value)`. -/
def Vector2.fromFVector2D {F : Type} (Value : FVector2D F) : Vector2 F :=
  { X := Value.X, Y := Value.Y }

/-- Conversion `operator FVector2D()`: `FVector2D(X, Y)`. -/
def Vector2.toFVector2D {F : Type} (v : Vector2 F) : FVector2D F :=
  FVector2D.mk v.X v.Y

/-- Struct `Vector3`. -/
structure Vector3 (F : Type) where
  X : F
  Y : F
  Z : F

/-- Constructor `Vector3(FVector Value)`. -/
def Vector3.fromFVector {F : Type} (Value : FVector F) : Vector3 F :=
  { X := Value.X, Y := Value.Y, Z := Value.Z }

/-- Conversion `operator FVector()`: `FVector(X, Y, Z)`. -/
def Vector3.toFVector {F : Type} (v : Vector3 F) : FVector F :=
  FVector.mk v.X v.Y v.Z

/-- Struct `Quaternion`. -/
structure Quaternion (F : Type) where
  X : F
  Y : F
  Z : F
  W : F

/-- Constructor `Quaternion(FQuat Value)`. -/
def Quaternion.fromFQuat {F : Type} (Value : FQuat F) : Quaternion F :=
  { X := Value.X, Y := Value.Y, Z := Value.Z, W := Value.W }

/-- Conversion `operator FQuat()`: `FQuat(X, Y, Z, W)`. -/
def Quaternion.toFQuat {F : Type} (q : Quaternion F) : FQuat F :=
  FQuat.mk q.X q.Y q.Z q.W

/-- Struct `LinearColor`. -/
structure LinearColor (F : Type) where
  R : F
  G : F
  B : F
  A : F

/-- Constructor `LinearColor(FLinearColor Value)`. -/
def LinearColor.fromFLinearColor {F : Type} (Value : FLinearColor F) : LinearColor F :=
  { R := Value.R, G := Value.G, B := Value.B, A := Value.A }

/-- Conversion `operator FLinearColor()`: `FLinearColor(R, G, B, A)`. -/
def LinearColor.toFLinearColor {F : Type} (c : LinearColor F) : FLinearColor F :=
  FLinearColor.mk c.R c.G c.B c.A

/-- Struct `Transform`. -/
structure Transform (F : Type) where
  Rotation : Quaternion F
  Location : Vector3 F
  Scale : Vector3 F

/-- Constructor `Transform(const FTransform& Value)`: the members are built
from `GetRotation()`, `GetTranslation()` and `GetScale3D()`. -/
def Transform.fromFTransform {F : Type} (Value : FTransform F) : Transform F :=
  { Rotation := Quaternion.fromFQuat Value.GetRotation,
    Location := Vector3.fromFVector Value.GetTranslation,
    Scale := Vector3.fromFVector Value.GetScale3D }

/-- Conversion `operator FTransform()`: `FTransform(Rotation, Location,
Scale)`, each member converted by its own operator. -/
def Transform.toFTransform {F : Type} (t : Transform F) : FTransform F :=
  FTransform.mk t.Rotation.toFQuat t.Location.toFVector t.Scale.toFVector

/-! ## String helpers of `UnrealCLR::Utility`

Memory is a sequence of bytes.  The source is the list of the bytes from
`Source` up to the end of its object; a read past that end is a fault.  The
destination is never read, so `Strcpy` yields the stores it makes, as pairs of
an offset from `Destination` and a byte, in order.  `size_t` values are
natural numbers: `length` is only decremented, and only when it is not
zero. -/

/-- Faults of the string helpers. -/
inductive MemoryFault where
  | ReadPastEnd
  deriving DecidableEq, Repr

/-- The local variables of `Strcpy` after the `do ... while` loop:
`destination` and `source` as offsets from `Destination` and `Source`, `rest`
the source bytes from `source` on, and the stores made so far. -/
structure StrcpyLocals where
  length : Nat
  destination : Nat
  source : Nat
  rest : List Nat
  stores : List (Nat × Nat)
  deriving DecidableEq, Repr

/-- The loop `do { if ((*destination++ = *source++) == 0) break; } while
(--length != 0);` of `Strcpy`, entered with `length = more + 1`. -/
def Utility.copyLoop : Nat → Nat → Nat → List Nat → List (Nat × Nat) →
    Except MemoryFault StrcpyLocals
  | _, _, _, [], _ => Except.error MemoryFault.ReadPastEnd
  | 0, destination, source, c :: rest, stores =>
    if c = 0 then
      Except.ok { length := 1, destination := destination + 1, source := source + 1,
                  rest := rest, stores := stores ++ [(destination, c)] }
    else
      Except.ok { length := 0, destination := destination + 1, source := source + 1,
                  rest := rest, stores := stores ++ [(destination, c)] }
  | more + 1, destination, source, c :: rest, stores =>
    if c = 0 then
      Except.ok { length := more + 2, destination := destination + 1, source := source + 1,
                  rest := rest, stores := stores ++ [(destination, c)] }
    else
      Utility.copyLoop more (destination + 1) (source + 1) rest (stores ++ [(destination, c)])

/-- The loop `while (*source++);` of `Strcpy`: the value of `source` after
it. -/
def Utility.scanLoop : List Nat → Nat → Except MemoryFault Nat
  | [], _ => Except.error MemoryFault.ReadPastEnd
  | c :: rest, source =>
    if c = 0 then Except.ok (source + 1) else Utility.scanLoop rest (source + 1)

/-- Embedding of `UnrealCLR::Utility::Strcpy`: the returned value
`source - Source - 1` and the stores into the destination. -/
def Utility.Strcpy (Source : List Nat) (Length : Nat) :
    Except MemoryFault (Nat × List (Nat × Nat)) :=
  let afterCopy : Except MemoryFault StrcpyLocals :=
    match Length with
    | 0 => Except.ok { length := 0, destination := 0, source := 0, rest := Source, stores := [] }
    | 1 => Except.ok { length := 0, destination := 0, source := 0, rest := Source, stores := [] }
    | more + 2 => Utility.copyLoop more 0 0 Source []
  match afterCopy with
  | Except.error f => Except.error f
  | Except.ok v =>
    if v.length = 0 then
      let stores := if Length ≠ 0 then v.stores ++ [(v.destination, 0)] else v.stores
      match Utility.scanLoop v.rest v.source with
      | Except.error f => Except.error f
      | Except.ok source => Except.ok (source - 1, stores)
    else Except.ok (v.source - 1, v.stores)

/-- The destination memory after a list of stores. -/
def stored (Destination : Nat → Nat) (stores : List (Nat × Nat)) : Nat → Nat :=
  stores.foldl (fun memory w => Function.update memory w.1 w.2) Destination

/-- The function `strlen` of the C library: the number of bytes before the
first NUL. -/
def strlen : List Nat → Except MemoryFault Nat
  | [] => Except.error MemoryFault.ReadPastEnd
  | c :: rest =>
    if c = 0 then Except.ok 0
    else
      match strlen rest with
      | Except.error f => Except.error f
      | Except.ok n => Except.ok (n + 1)

/-- Embedding of `UnrealCLR::Utility::Strlen`: `strlen(Source) + 1`. -/
def Utility.Strlen (Source : List Nat) : Except MemoryFault Nat :=
  match strlen Source with
  | Except.error f => Except.error f
  | Except.ok n => Except.ok (n + 1)

/-- One namespace of `UnrealCLRFramework.h`: its name and the names of the
static functions declared in it, in declaration order. -/
structure FrameworkNamespace where
  name : String
  functions : List String
  deriving DecidableEq, Repr

/-- The namespaces declared inside `namespace UnrealCLRFramework` of
`UnrealCLRFramework.h` (lines 256-886), in source order. -/
def frameworkDeclarations : List FrameworkNamespace := [
  ⟨"Assert", [
      "OutputMessage"
    ]⟩,
  ⟨"CommandLine", [
      "Get", "Set", "Append"
    ]⟩,
  ⟨"Debug", [
      "Log", "HandleException", "AddOnScreenMessage", "ClearOnScreenMessages", "DrawBox",
      "DrawCapsule", "DrawCone", "DrawCylinder", "DrawSphere", "DrawLine", "DrawPoint",
      "FlushPersistentLines"
    ]⟩,
  ⟨"Object", [
      "IsPendingKill", "IsValid", "Load", "Rename", "GetID", "GetName", "GetBool", "GetByte",
      "GetShort", "GetInt", "GetLong", "GetUShort", "GetUInt", "GetULong", "GetFloat",
      "GetDouble", "GetText", "SetBool", "SetByte", "SetShort", "SetInt", "SetLong", "SetUShort",
      "SetUInt", "SetULong", "SetFloat", "SetDouble", "SetText"
    ]⟩,
  ⟨"Application", [
      "IsCanEverRender", "IsPackagedForDistribution", "IsPackagedForShipping",
      "GetProjectDirectory", "GetDefaultLanguage", "GetProjectName", "GetVolumeMultiplier",
      "SetProjectName", "SetVolumeMultiplier", "RequestExit"
    ]⟩,
  ⟨"ConsoleManager", [
      "IsRegisteredVariable", "FindVariable", "RegisterVariableBool", "RegisterVariableInt",
      "RegisterVariableFloat", "RegisterVariableString", "RegisterCommand", "UnregisterObject"
    ]⟩,
  ⟨"Engine", [
      "IsSplitScreen", "IsEditor", "IsForegroundWindow", "IsExitRequested", "GetNetMode",
      "GetFrameNumber", "GetViewportSize", "GetScreenResolution", "GetWindowMode", "GetVersion",
      "GetMaxFPS", "SetMaxFPS", "SetTitle", "AddActionMapping", "AddAxisMapping",
      "ForceGarbageCollection", "DelayGarbageCollection"
    ]⟩,
  ⟨"HeadMountedDisplay", [
      "IsConnected", "GetEnabled", "GetLowPersistenceMode", "GetDeviceName", "SetEnable",
      "SetLowPersistenceMode"
    ]⟩,
  ⟨"World", [
      "GetSimulatePhysics", "GetActorCount", "GetDeltaSeconds", "GetRealTimeSeconds",
      "GetTimeSeconds", "GetWorldOrigin", "GetActor", "GetActorByTag", "GetActorByID",
      "GetFirstPlayerController", "SetSimulatePhysics", "SetGravity", "SetWorldOrigin",
      "LineTraceTestByChannel", "LineTraceTestByProfile", "LineTraceSingleByChannel",
      "LineTraceSingleByProfile", "SweepTestByChannel", "SweepTestByProfile",
      "SweepSingleByChannel", "SweepSingleByProfile", "OverlapAnyTestByChannel",
      "OverlapAnyTestByProfile", "OverlapBlockingTestByChannel", "OverlapBlockingTestByProfile"
    ]⟩,
  ⟨"Blueprint", [
      "IsValidActorClass", "IsValidComponentClass"
    ]⟩,
  ⟨"ConsoleObject", [
      "IsBool", "IsInt", "IsFloat", "IsString"
    ]⟩,
  ⟨"ConsoleVariable", [
      "GetBool", "GetInt", "GetFloat", "GetString", "SetBool", "SetInt", "SetFloat", "SetString",
      "SetOnChangedCallback", "ClearOnChangedCallback"
    ]⟩,
  ⟨"Actor", [
      "IsPendingKill", "IsRootComponentMovable", "IsOverlappingActor", "Spawn", "Destroy",
      "Rename", "Hide", "TeleportTo", "GetComponent", "GetComponentByTag", "GetComponentByID",
      "GetRootComponent", "GetInputComponent", "GetBlockInput", "GetDistanceTo", "GetBounds",
      "SetRootComponent", "SetInputComponent", "SetBlockInput", "SetLifeSpan",
      "SetEnableCollision", "AddTag", "RemoveTag", "HasTag"
    ]⟩,
  ⟨"TriggerBase", [
    ]⟩,
  ⟨"TriggerBox", [
    ]⟩,
  ⟨"TriggerCapsule", [
    ]⟩,
  ⟨"TriggerSphere", [
    ]⟩,
  ⟨"Pawn", [
      "AddControllerYawInput", "AddControllerPitchInput", "AddControllerRollInput",
      "AddMovementInput", "GetGravityDirection"
    ]⟩,
  ⟨"Character", [
    ]⟩,
  ⟨"Controller", [
      "IsLookInputIgnored", "IsMoveInputIgnored", "IsPlayerController", "GetPawn",
      "LineOfSightTo", "SetInitialLocationAndRotation", "SetIgnoreLookInput",
      "SetIgnoreMoveInput", "ResetIgnoreLookInput", "ResetIgnoreMoveInput"
    ]⟩,
  ⟨"AIController", [
      "ClearFocus", "GetFocalPoint", "SetFocalPoint", "GetFocusActor", "GetAllowStrafe",
      "SetAllowStrafe", "SetFocus"
    ]⟩,
  ⟨"PlayerController", [
      "IsPaused", "GetShowMouseCursor", "GetMousePosition", "GetPlayerViewPoint",
      "GetPlayerInput", "SetShowMouseCursor", "SetMousePosition", "ConsoleCommand", "SetPause",
      "SetViewTarget", "SetViewTargetWithBlend", "AddYawInput", "AddPitchInput", "AddRollInput"
    ]⟩,
  ⟨"Volume", [
      "EncompassesPoint"
    ]⟩,
  ⟨"TriggerVolume", [
    ]⟩,
  ⟨"PostProcessVolume", [
      "GetEnabled", "GetBlendRadius", "GetBlendWeight", "GetUnbound", "GetPriority",
      "SetEnabled", "SetBlendRadius", "SetBlendWeight", "SetUnbound", "SetPriority"
    ]⟩,
  ⟨"AmbientSound", [
    ]⟩,
  ⟨"Light", [
    ]⟩,
  ⟨"DirectionalLight", [
    ]⟩,
  ⟨"PointLight", [
    ]⟩,
  ⟨"RectLight", [
    ]⟩,
  ⟨"SpotLight", [
    ]⟩,
  ⟨"SoundBase", [
      "GetDuration"
    ]⟩,
  ⟨"SoundWave", [
      "GetLoop", "SetLoop"
    ]⟩,
  ⟨"AnimationAsset", [
    ]⟩,
  ⟨"AnimationSequenceBase", [
    ]⟩,
  ⟨"AnimationSequence", [
    ]⟩,
  ⟨"AnimationCompositeBase", [
    ]⟩,
  ⟨"AnimationMontage", [
    ]⟩,
  ⟨"AnimationInstance", [
      "GetCurrentActiveMontage", "IsPlaying", "GetPlayRate", "GetPosition", "GetBlendTime",
      "GetCurrentSection", "SetPlayRate", "SetPosition", "SetNextSection", "PlayMontage",
      "PauseMontage", "ResumeMontage", "StopMontage", "JumpToSection", "JumpToSectionsEnd"
    ]⟩,
  ⟨"Player", [
    ]⟩,
  ⟨"PlayerInput", [
      "IsKeyPressed", "GetTimeKeyPressed", "GetMouseSensitivity", "SetMouseSensitivity"
    ]⟩,
  ⟨"StreamableRenderAsset", [
    ]⟩,
  ⟨"StaticMesh", [
    ]⟩,
  ⟨"SkeletalMesh", [
    ]⟩,
  ⟨"Texture", [
    ]⟩,
  ⟨"Texture2D", [
      "GetSize"
    ]⟩,
  ⟨"ActorComponent", [
      "IsOwnerSelected", "GetOwner", "Destroy", "AddTag", "RemoveTag", "HasTag"
    ]⟩,
  ⟨"InputComponent", [
      "HasBindings", "GetActionBindingsNumber", "ClearActionBindings", "BindAction", "BindAxis",
      "RemoveActionBinding", "GetBlockInput", "SetBlockInput", "GetPriority", "SetPriority"
    ]⟩,
  ⟨"SceneComponent", [
      "IsAttachedToComponent", "IsAttachedToActor", "IsSocketExists", "HasAnySockets", "Create",
      "AttachToComponent", "DetachFromComponent", "Activate", "Deactivate", "UpdateToWorld",
      "AddLocalOffset", "AddLocalRotation", "AddRelativeLocation", "AddRelativeRotation",
      "AddLocalTransform", "AddWorldOffset", "AddWorldRotation", "AddWorldTransform",
      "GetAttachedSocketName", "GetSocketLocation", "GetSocketRotation", "GetComponentVelocity",
      "GetComponentLocation", "GetComponentRotation", "GetComponentScale",
      "GetComponentTransform", "GetForwardVector", "GetRightVector", "GetUpVector",
      "SetMobility", "SetRelativeLocation", "SetRelativeRotation", "SetRelativeTransform",
      "SetWorldLocation", "SetWorldRotation", "SetWorldScale", "SetWorldTransform"
    ]⟩,
  ⟨"AudioComponent", [
      "IsPlaying", "GetPaused", "SetSound", "SetPaused", "Play", "Stop", "FadeIn", "FadeOut"
    ]⟩,
  ⟨"CameraComponent", [
      "GetConstrainAspectRatio", "GetAspectRatio", "GetFieldOfView", "GetOrthoFarClipPlane",
      "GetOrthoNearClipPlane", "GetOrthoWidth", "GetLockToHeadMountedDisplay",
      "SetProjectionMode", "SetConstrainAspectRatio", "SetAspectRatio", "SetFieldOfView",
      "SetOrthoFarClipPlane", "SetOrthoNearClipPlane", "SetOrthoWidth",
      "SetLockToHeadMountedDisplay"
    ]⟩,
  ⟨"ChildActorComponent", [
      "SetChildActor"
    ]⟩,
  ⟨"PrimitiveComponent", [
      "IsGravityEnabled", "AddAngularImpulseInDegrees", "AddAngularImpulseInRadians", "AddForce",
      "AddForceAtLocation", "AddImpulse", "AddImpulseAtLocation", "AddRadialForce",
      "AddRadialImpulse", "AddTorqueInDegrees", "AddTorqueInRadians", "GetMass", "GetCastShadow",
      "GetOnlyOwnerSee", "GetOwnerNoSee", "GetMaterial", "GetMaterialsNumber",
      "GetDistanceToCollision", "GetSquaredDistanceToCollision", "GetAngularDamping",
      "GetLinearDamping", "SetMass", "SetCenterOfMass", "SetPhysicsLinearVelocity",
      "SetPhysicsAngularVelocityInDegrees", "SetPhysicsAngularVelocityInRadians",
      "SetPhysicsMaxAngularVelocityInDegrees", "SetPhysicsMaxAngularVelocityInRadians",
      "SetCastShadow", "SetOnlyOwnerSee", "SetOwnerNoSee", "SetMaterial", "SetSimulatePhysics",
      "SetAngularDamping", "SetLinearDamping", "SetEnableGravity", "SetCollisionMode",
      "SetCollisionChannel", "SetCollisionProfileName", "SetCollisionResponseToChannel",
      "SetCollisionResponseToAllChannels", "SetIgnoreActorWhenMoving",
      "SetIgnoreComponentWhenMoving", "ClearMoveIgnoreActors", "ClearMoveIgnoreComponents",
      "CreateAndSetMaterialInstanceDynamic"
    ]⟩,
  ⟨"ShapeComponent", [
      "GetDynamicObstacle", "GetShapeColor", "SetDynamicObstacle", "SetShapeColor"
    ]⟩,
  ⟨"BoxComponent", [
      "GetScaledBoxExtent", "GetUnscaledBoxExtent", "SetBoxExtent", "InitBoxExtent"
    ]⟩,
  ⟨"SphereComponent", [
      "GetScaledSphereRadius", "GetUnscaledSphereRadius", "GetShapeScale", "SetSphereRadius",
      "InitSphereRadius"
    ]⟩,
  ⟨"CapsuleComponent", [
      "GetScaledCapsuleRadius", "GetUnscaledCapsuleRadius", "GetShapeScale",
      "GetScaledCapsuleSize", "GetUnscaledCapsuleSize", "SetCapsuleRadius", "SetCapsuleSize",
      "InitCapsuleSize"
    ]⟩,
  ⟨"MeshComponent", [
      "IsValidMaterialSlotName", "GetMaterialIndex"
    ]⟩,
  ⟨"LightComponentBase", [
      "GetIntensity", "GetCastShadows", "SetCastShadows"
    ]⟩,
  ⟨"LightComponent", [
      "SetIntensity", "SetLightColor"
    ]⟩,
  ⟨"DirectionalLightComponent", [
    ]⟩,
  ⟨"MotionControllerComponent", [
      "IsTracked", "GetDisableLowLatencyUpdate", "GetTrackingSource",
      "SetDisableLowLatencyUpdate", "SetTrackingSource", "SetTrackingMotionSource"
    ]⟩,
  ⟨"StaticMeshComponent", [
      "GetLocalBounds", "GetStaticMesh", "SetStaticMesh"
    ]⟩,
  ⟨"InstancedStaticMeshComponent", [
      "GetInstanceCount", "GetInstanceTransform", "AddInstance", "UpdateInstanceTransform",
      "RemoveInstance", "ClearInstances"
    ]⟩,
  ⟨"SkinnedMeshComponent", [
      "SetSkeletalMesh"
    ]⟩,
  ⟨"SkeletalMeshComponent", [
      "IsPlaying", "GetAnimationInstance", "SetAnimation", "SetAnimationMode",
      "SetAnimationBlueprint", "Play", "PlayAnimation", "Stop"
    ]⟩,
  ⟨"RadialForceComponent", [
      "GetIgnoreOwningActor", "GetImpulseVelocityChange", "GetLinearFalloff", "GetForceStrength",
      "GetImpulseStrength", "GetRadius", "SetIgnoreOwningActor", "SetImpulseVelocityChange",
      "SetLinearFalloff", "SetForceStrength", "SetImpulseStrength", "SetRadius",
      "AddCollisionChannelToAffect", "FireImpulse"
    ]⟩,
  ⟨"MaterialInterface", [
      "IsTwoSided"
    ]⟩,
  ⟨"Material", [
      "IsDefaultMaterial"
    ]⟩,
  ⟨"MaterialInstance", [
      "IsChildOf"
    ]⟩,
  ⟨"MaterialInstanceDynamic", [
      "ClearParameterValues", "SetTextureParameterValue", "SetVectorParameterValue",
      "SetScalarParameterValue"
    ]⟩
]

/-- The namespace a group array is named after: the array
`Shared::<name>Functions` belongs to `namespace <name>`. -/
def namespaceOf (array : String) : Option FrameworkNamespace :=
  frameworkDeclarations.find? (fun d => d.name ++ "Functions" == array)

/-- The characters of a table entry after the qualification
`UnrealCLRFramework::<name>::`; an entry without it is left whole. -/
def FrameworkNamespace.unqualified (d : FrameworkNamespace) (entry : String) : List Char :=
  let qualification := ("UnrealCLRFramework::" ++ d.name ++ "::").data
  if qualification.isPrefixOf entry.data then entry.data.drop qualification.length
  else entry.data

/-- The namespace declares the function a table entry names. -/
def FrameworkNamespace.declares (d : FrameworkNamespace) (entry : String) : Bool :=
  d.functions.any (fun f => f.data == d.unqualified entry)

/-- The entries of a group that the namespace of the group does not
declare. -/
def FunctionGroup.undeclared (g : FunctionGroup) : List String :=
  match namespaceOf g.array with
  | some d => g.entries.filter (fun entry => !d.declares entry)
  | none => g.entries

/-- The entries of a group that the namespace of the group declares are a
subsequence of its declarations. -/
def FunctionGroup.declaredInOrder (g : FunctionGroup) : Bool :=
  match namespaceOf g.array with
  | some d =>
    ((g.entries.filter (fun entry => d.declares entry)).map d.unqualified).isSublist
      (d.functions.map String.data)
  | none => true

/-! ## Concrete inputs -/

/-- A state before startup: nothing tracked, no handle assigned. -/
def freshState : State :=
  { Status := StatusType.Stopped, World := 0, ExecuteAssemblyFunction := 0,
    LoadAssemblyFunction := 0, UnloadAssemblies := 0, HostfxrLibrary := 0 }

/-- A host on which every step of the handshake succeeds. -/
def goodHost : Host :=
  { GetDllHandle := 1, GetDllExport := fun _ => 2, InitializeForRuntimeConfig := 0,
    HostfxrContext := 3, GetRuntimeDelegate := 0, LoadAssemblyAndGetFunctionPointerDelegate := 4,
    LoadAssemblyAndGetFunctionPointer := 0, InitializePointer := 5, InitializeResult := 15,
    NativeFunctions := fun i => 10 + i, DirectoryExists := true,
    DirectoryExistsAfterCreate := true }

/-- A host library that lacks the export `hostfxr_close`. -/
def hostWithoutClose : Host :=
  { goodHost with GetDllExport := fun name => if name = "hostfxr_close" then 0 else 2 }

/-- The state after a successful startup on `goodHost` and the initialization
of the game world at address 1. -/
def runningState : State :=
  { Status := StatusType.Running, World := 1, ExecuteAssemblyFunction := 10,
    LoadAssemblyFunction := 11, UnloadAssemblies := 12, HostfxrLibrary := 1 }

/-- A host whose managed `Initialize` answers `0xF` and leaves the output
array empty. -/
def hostWithEmptyOutput : Host :=
  { goodHost with NativeFunctions := fun _ => 0 }

/-- A host whose delegate getter returns 0 and yields no delegate. -/
def hostWithNullDelegate : Host :=
  { goodHost with LoadAssemblyAndGetFunctionPointerDelegate := 0 }

/-- A host where the folder of user assemblies is absent and cannot be
created. -/
def hostWithoutFolder : Host :=
  { goodHost with DirectoryExists := false, DirectoryExistsAfterCreate := false }

/-- Two game worlds at addresses 1 and 2 that carry the same full name, a
game world at 3 with another name; every other address is not a game world. -/
def twoHandles : Objects :=
  { IsGameWorld := fun p => decide (p = 1 ∨ p = 2 ∨ p = 3),
    GetFullName := fun p => if p = 3 then "World /Game/Maps/Menu.Menu"
      else "World /Game/Maps/Arena.Arena" }

/-! ## Lemmas on the framework table -/

theorem storeEntries_filter (p : Effect → Bool)
    (hp : ∀ a h f, p (Effect.StoreGroup a h f) = false) (array : String) (fs : List String) :
    ∀ head, (storeEntries array head fs).filter p = [] := by
  induction fs with
  | nil => intro head; rfl
  | cons f fs ih => intro head; simp [storeEntries, hp, ih]

theorem storeGroups_filter (p : Effect → Bool)
    (hf : ∀ i a, p (Effect.StoreFunctions i a) = false)
    (hp : ∀ a h f, p (Effect.StoreGroup a h f) = false) (gs : List FunctionGroup) :
    ∀ position, (storeGroups position gs).filter p = [] := by
  induction gs with
  | nil => intro position; rfl
  | cons g gs ih =>
    intro position
    simp [storeGroups, hf, ih, storeEntries_filter p hp]

theorem mem_storeEntries (e : Effect) (array : String) (fs : List String) :
    ∀ head, e ∈ storeEntries array head fs → ∃ h f, e = Effect.StoreGroup array h f := by
  induction fs with
  | nil => intro head h; simp [storeEntries] at h
  | cons f fs ih =>
    intro head h
    simp only [storeEntries, List.mem_cons] at h
    rcases h with h | h
    · exact ⟨head, f, h⟩
    · exact ih _ h

theorem mem_storeGroups (e : Effect) (gs : List FunctionGroup) :
    ∀ position, e ∈ storeGroups position gs →
      (∃ i a, e = Effect.StoreFunctions i a) ∨ (∃ a h f, e = Effect.StoreGroup a h f) := by
  induction gs with
  | nil => intro position h; simp [storeGroups] at h
  | cons g gs ih =>
    intro position h
    simp only [storeGroups, List.mem_cons, List.mem_append] at h
    rcases h with h | h | h
    · exact Or.inl ⟨position, g.array, h⟩
    · obtain ⟨hd, f, hf⟩ := mem_storeEntries e g.array g.entries 0 h
      exact Or.inr ⟨g.array, hd, f, hf⟩
    · exact ih _ h

/-! ## StartupModule -/

theorem exchangeFunctionTables_status (host : Host) (s : State) (t : List Effect)
    (hs : s.Status = StatusType.Stopped) :
    ((exchangeFunctionTables host s t).1.Status = StatusType.Idle ↔
        host.InitializePointer ≠ 0 ∧ host.InitializeResult = 15) ∧
      ((exchangeFunctionTables host s t).1.Status = StatusType.Idle ∨
        (exchangeFunctionTables host s t).1.Status = StatusType.Stopped) := by
  unfold exchangeFunctionTables
  by_cases h1 : host.InitializePointer = 0 <;> by_cases h2 : host.InitializeResult = 15 <;>
    simp [h1, h2, hs]

theorem initializeHost_status (host : Host) (s : State) (t : List Effect)
    (hs : s.Status = StatusType.Stopped)
    (hd : host.GetDllExport "hostfxr_get_runtime_delegate" ≠ 0) :
    ((initializeHost host s t).1.Status = StatusType.Idle ↔
        (host.InitializeForRuntimeConfig = 0 ∧ host.HostfxrContext ≠ 0) ∧
        (host.GetRuntimeDelegate = 0 ∧ host.LoadAssemblyAndGetFunctionPointerDelegate ≠ 0) ∧
        (host.LoadAssemblyAndGetFunctionPointer = 0 ∧ host.InitializePointer ≠ 0) ∧
        host.InitializeResult = 15) ∧
      ((initializeHost host s t).1.Status = StatusType.Idle ∨
        (initializeHost host s t).1.Status = StatusType.Stopped) := by
  unfold initializeHost
  by_cases h1 : host.InitializeForRuntimeConfig = 0 <;>
  by_cases h2 : host.HostfxrContext = 0 <;>
  by_cases h3 : host.GetRuntimeDelegate = 0 <;>
  by_cases h4 : host.LoadAssemblyAndGetFunctionPointerDelegate = 0 <;>
  by_cases h5 : host.LoadAssemblyAndGetFunctionPointer = 0 <;>
    simp [h1, h2, h3, h4, h5, hs, hd]
  · exact exchangeFunctionTables_status host s _ hs

theorem startupModule_status_cases (host : Host) (s : State) :
    ((Module.StartupModule host s).1.Status = StatusType.Idle ↔ host.Succeeds) ∧
      ((Module.StartupModule host s).1.Status = StatusType.Idle ∨
        (Module.StartupModule host s).1.Status = StatusType.Stopped) := by
  unfold Module.StartupModule resolveEntryPoints Host.Succeeds
  by_cases h0 : host.GetDllHandle = 0
  · simp [h0]
  by_cases h1 : host.GetDllExport "hostfxr_set_error_writer" = 0
  · simp [h0, h1]
  by_cases h2 : host.GetDllExport "hostfxr_initialize_for_runtime_config" = 0
  · simp [h0, h1, h2]
  by_cases h3 : host.GetDllExport "hostfxr_get_runtime_delegate" = 0
  · simp [h0, h1, h2, h3]
  by_cases h4 : host.GetDllExport "hostfxr_close" = 0
  · simp [h0, h1, h2, h3, h4]
  simp only [h0, h1, h2, h3, h4, ne_eq, not_false_eq_true, if_true, if_false, true_and]
  exact initializeHost_status host _ _ rfl h3

/-- C1: after `StartupModule`, `Status` is `Idle` exactly when the host library
loaded, the four entry points resolved, the context initializer returned 0
with a non-null handle, the delegate getter returned 0 with a non-null
delegate, the assembly load returned 0 with a non-null `Initialize` pointer
and `Initialize` returned `0xF`; in every other case `Status` is `Stopped`. -/
theorem startupModule_status (host : Host) (s : State) :
    ((Module.StartupModule host s).1.Status = StatusType.Idle ↔ host.Succeeds) ∧
      ((Module.StartupModule host s).1.Status = StatusType.Idle ∨
        (Module.StartupModule host s).1.Status = StatusType.Stopped) :=
  startupModule_status_cases host s

/-- C2: when the library loaded and one of the four required entry points
does not resolve, `StartupModule` leaves `Status` at `Stopped`, performs none
of the later steps (no error writer registration, no call of the context
initializer, delegate getter or context closer, no store into the shared
tables, no `Initialize`), and returns right after the failed lookup and its
error log. -/
theorem startupModule_unresolved_entry_point (host : Host) (s : State) (name : String)
    (hname : name ∈ requiredEntryPoints) (hlib : host.GetDllHandle ≠ 0)
    (hnull : host.GetDllExport name = 0) :
    (Module.StartupModule host s).1.Status = StatusType.Stopped ∧
      (∀ e ∈ (Module.StartupModule host s).2, e.afterEntryPoints = false) ∧
      ∃ front n msg, host.GetDllExport n = 0 ∧
        (Module.StartupModule host s).2 =
          front ++ [Effect.GetDllExport n, Effect.Log Verbosity.Error msg] := by
  unfold Module.StartupModule resolveEntryPoints
  by_cases h1 : host.GetDllExport "hostfxr_set_error_writer" = 0
  · refine ⟨by simp [hlib, h1], ?_, ?_⟩
    · simp [hlib, h1, Effect.afterEntryPoints]
    · exact ⟨[Effect.StoreStatus StatusType.Stopped, Effect.AddRaw "OnPreWorldInitialization",
        Effect.AddRaw "OnWorldCleanup", Effect.Log Verbosity.Display "%s: Host path set to \"%s\"",
        Effect.GetDllHandle, Effect.Log Verbosity.Display "%s: Host library loaded successfuly!"],
        "hostfxr_set_error_writer", _, h1, by simp [hlib, h1]; rfl⟩
  by_cases h2 : host.GetDllExport "hostfxr_initialize_for_runtime_config" = 0
  · refine ⟨by simp [hlib, h1, h2], ?_, ?_⟩
    · simp [hlib, h1, h2, Effect.afterEntryPoints]
    · exact ⟨[Effect.StoreStatus StatusType.Stopped, Effect.AddRaw "OnPreWorldInitialization",
        Effect.AddRaw "OnWorldCleanup", Effect.Log Verbosity.Display "%s: Host path set to \"%s\"",
        Effect.GetDllHandle, Effect.Log Verbosity.Display "%s: Host library loaded successfuly!",
        Effect.GetDllExport "hostfxr_set_error_writer"],
        "hostfxr_initialize_for_runtime_config", _, h2, by simp [hlib, h1, h2]; rfl⟩
  by_cases h3 : host.GetDllExport "hostfxr_get_runtime_delegate" = 0
  · refine ⟨by simp [hlib, h1, h2, h3], ?_, ?_⟩
    · simp [hlib, h1, h2, h3, Effect.afterEntryPoints]
    · exact ⟨[Effect.StoreStatus StatusType.Stopped, Effect.AddRaw "OnPreWorldInitialization",
        Effect.AddRaw "OnWorldCleanup", Effect.Log Verbosity.Display "%s: Host path set to \"%s\"",
        Effect.GetDllHandle, Effect.Log Verbosity.Display "%s: Host library loaded successfuly!",
        Effect.GetDllExport "hostfxr_set_error_writer",
        Effect.GetDllExport "hostfxr_initialize_for_runtime_config"],
        "hostfxr_get_runtime_delegate", _, h3, by simp [hlib, h1, h2, h3]; rfl⟩
  by_cases h4 : host.GetDllExport "hostfxr_close" = 0
  · refine ⟨by simp [hlib, h1, h2, h3, h4], ?_, ?_⟩
    · simp [hlib, h1, h2, h3, h4, Effect.afterEntryPoints]
    · exact ⟨[Effect.StoreStatus StatusType.Stopped, Effect.AddRaw "OnPreWorldInitialization",
        Effect.AddRaw "OnWorldCleanup", Effect.Log Verbosity.Display "%s: Host path set to \"%s\"",
        Effect.GetDllHandle, Effect.Log Verbosity.Display "%s: Host library loaded successfuly!",
        Effect.GetDllExport "hostfxr_set_error_writer",
        Effect.GetDllExport "hostfxr_initialize_for_runtime_config",
        Effect.GetDllExport "hostfxr_get_runtime_delegate"],
        "hostfxr_close", _, h4, by simp [hlib, h1, h2, h3, h4]; rfl⟩
  · exfalso
    simp only [requiredEntryPoints, List.mem_cons, List.mem_singleton, List.not_mem_nil,
      or_false] at hname
    rcases hname with h | h | h | h <;> subst h <;> contradiction

theorem exchangeFunctionTables_effects (host : Host) (s : State) (t : List Effect) :
    ∃ rest, (exchangeFunctionTables host s t).2 = t ++ rest ∧
      rest.filter Effect.isHostfxrClose = [] := by
  have hg : (storeGroups 0 frameworkGroups).filter Effect.isHostfxrClose = [] :=
    storeGroups_filter _ (fun _ _ => rfl) (fun _ _ _ => rfl) _ _
  have hu : (ensureUserAssembliesPath host).filter Effect.isHostfxrClose = [] := by
    unfold ensureUserAssembliesPath
    cases host.DirectoryExists <;> cases host.DirectoryExistsAfterCreate <;> rfl
  unfold exchangeFunctionTables
  by_cases h1 : host.InitializePointer = 0
  · exact ⟨[Effect.Log Verbosity.Error
      "%s: Host runtime assembly unable to load the initialization function!"],
      by simp [h1], rfl⟩
  by_cases h2 : host.InitializeResult = 15
  · refine ⟨storeGroups 0 frameworkGroups ++ storeManagedFunctions ++
      [Effect.Initialize "Shared::ManagedFunctions" "Shared::NativeFunctions" "Shared::Functions"] ++
      [Effect.Log Verbosity.Display "%s: Host runtime assembly initialized succesfuly!"] ++
      ensureUserAssembliesPath host ++
      [Effect.StoreStatus StatusType.Idle,
        Effect.Log Verbosity.Display "%s: Host loaded succesfuly!"], by simp [h1, h2], ?_⟩
    simp [List.filter_append, hg, hu, storeManagedFunctions, Effect.isHostfxrClose]
  · refine ⟨storeGroups 0 frameworkGroups ++ storeManagedFunctions ++
      [Effect.Initialize "Shared::ManagedFunctions" "Shared::NativeFunctions" "Shared::Functions"] ++
      [Effect.Log Verbosity.Error "%s: Host runtime assembly initialization failed!"],
      by simp [h1, h2], ?_⟩
    simp [List.filter_append, hg, storeManagedFunctions, Effect.isHostfxrClose]

theorem initializeHost_closes_once (host : Host) (s : State) (t : List Effect) :
    (initializeHost host s t).2.filter Effect.isHostfxrClose =
        t.filter Effect.isHostfxrClose ++ [Effect.HostfxrClose host.HostfxrContext] ∧
      Effect.HostfxrInitializeForRuntimeConfig ∈ (initializeHost host s t).2 := by
  unfold initializeHost
  by_cases h1 : host.InitializeForRuntimeConfig ≠ 0 ∨ host.HostfxrContext = 0
  · simp [h1, List.filter_append, Effect.isHostfxrClose]
  by_cases h2 : host.GetRuntimeDelegate ≠ 0 ∨ host.GetDllExport "hostfxr_get_runtime_delegate" = 0
  · simp [h1, h2, List.filter_append, Effect.isHostfxrClose]
  by_cases h3 : host.LoadAssemblyAndGetFunctionPointerDelegate = 0
  · simp [h1, h2, h3, List.filter_append, Effect.isHostfxrClose]
  by_cases h4 : host.LoadAssemblyAndGetFunctionPointer = 0
  · simp only [h1, h2, h3, h4, ne_eq, not_false_eq_true, if_true, if_false]
    obtain ⟨rest, hr, hf⟩ := exchangeFunctionTables_effects host s
      (t ++ [Effect.HostfxrSetErrorWriter, Effect.HostfxrInitializeForRuntimeConfig] ++
          [Effect.HostfxrGetRuntimeDelegate host.HostfxrContext] ++
          [Effect.HostfxrClose host.HostfxrContext,
            Effect.Log Verbosity.Display "%s: Host functions loaded successfuly!"] ++
          [Effect.HostfxrLoadAssemblyAndGetFunctionPointer] ++
          [Effect.Log Verbosity.Display "%s: Host runtime assembly loaded succesfuly!"])
    rw [hr]
    simp [List.filter_append, hf, Effect.isHostfxrClose]
  · simp [h1, h2, h3, h4, List.filter_append, Effect.isHostfxrClose]

/-- C3: `StartupModule` calls the context initializer exactly on the paths
where the library loaded and the four entry points resolved; on each of them
(initialization failed, delegate acquisition failed, both succeeded) the
context closer is called exactly once, with the handle the initializer left
in `HostfxrContext` (possibly null); on all other paths it is never called. -/
theorem startupModule_closes_context_once (host : Host) (s : State) :
    (Effect.HostfxrInitializeForRuntimeConfig ∈ (Module.StartupModule host s).2 ↔
        host.GetDllHandle ≠ 0 ∧ ∀ name ∈ requiredEntryPoints, host.GetDllExport name ≠ 0) ∧
      (Module.StartupModule host s).2.filter Effect.isHostfxrClose =
        if Effect.HostfxrInitializeForRuntimeConfig ∈ (Module.StartupModule host s).2 then
          [Effect.HostfxrClose host.HostfxrContext]
        else [] := by
  unfold Module.StartupModule resolveEntryPoints requiredEntryPoints
  by_cases h0 : host.GetDllHandle = 0
  · simp [h0, Effect.isHostfxrClose]
  by_cases h1 : host.GetDllExport "hostfxr_set_error_writer" = 0
  · simp [h0, h1, Effect.isHostfxrClose]
  by_cases h2 : host.GetDllExport "hostfxr_initialize_for_runtime_config" = 0
  · simp [h0, h1, h2, Effect.isHostfxrClose]
  by_cases h3 : host.GetDllExport "hostfxr_get_runtime_delegate" = 0
  · simp [h0, h1, h2, h3, Effect.isHostfxrClose]
  by_cases h4 : host.GetDllExport "hostfxr_close" = 0
  · simp [h0, h1, h2, h3, h4, Effect.isHostfxrClose]
  simp only [h0, h1, h2, h3, h4, ne_eq, not_false_eq_true, if_true, if_false]
  have h := initializeHost_closes_once host
    { s with Status := StatusType.Stopped, HostfxrLibrary := host.GetDllHandle }
    ([Effect.StoreStatus StatusType.Stopped, Effect.AddRaw "OnPreWorldInitialization",
        Effect.AddRaw "OnWorldCleanup", Effect.Log Verbosity.Display "%s: Host path set to \"%s\"",
        Effect.GetDllHandle] ++
      [Effect.Log Verbosity.Display "%s: Host library loaded successfuly!"] ++
      [Effect.GetDllExport "hostfxr_set_error_writer"] ++
      [Effect.GetDllExport "hostfxr_initialize_for_runtime_config"] ++
      [Effect.GetDllExport "hostfxr_get_runtime_delegate"] ++
      [Effect.GetDllExport "hostfxr_close"])
  refine ⟨⟨fun _ => ⟨trivial, ?_⟩, fun _ => h.2⟩, ?_⟩
  · simp [h1, h2, h3, h4]
  · rw [if_pos h.2, h.1]
    simp [Effect.isHostfxrClose]

theorem startupModule_unresolved_entry_point_witness :
    (Module.StartupModule hostWithoutClose freshState).1.Status = StatusType.Stopped ∧
      (∀ e ∈ (Module.StartupModule hostWithoutClose freshState).2, e.afterEntryPoints = false) ∧
      ∃ front n msg, hostWithoutClose.GetDllExport n = 0 ∧
        (Module.StartupModule hostWithoutClose freshState).2 =
          front ++ [Effect.GetDllExport n, Effect.Log Verbosity.Error msg] :=
  startupModule_unresolved_entry_point hostWithoutClose freshState "hostfxr_close"
    (by simp [requiredEntryPoints]) (by decide) (by simp [hostWithoutClose])

/-! ## Lifecycle hooks -/

theorem hook_keeps_stopped (we : Bool) (ev : Event) (s s1 : State) (t1 : List Effect)
    (hh : ev.isHook = true) (hs : s.Status = StatusType.Stopped)
    (h : step we ev s = Except.ok (s1, t1)) : s1.Status = StatusType.Stopped := by
  cases ev with
  | StartupModule host => simp [Event.isHook] at hh
  | OnPreWorldInitialization o W =>
    simp only [step, Module.OnPreWorldInitialization] at h
    split_ifs at h <;> simp at h <;> (obtain ⟨rfl, _⟩ := h) <;> simp_all
  | OnWorldCleanup o W =>
    simp only [step, Module.OnWorldCleanup] at h
    split_ifs at h <;> simp at h <;> (obtain ⟨rfl, _⟩ := h) <;> simp_all

theorem hook_expected_ok (we : Bool) (ev : Event) (s : State)
    (hh : ev.isHook = true) (he : ev.Expected s)
    (hU : s.Status ≠ StatusType.Stopped → s.UnloadAssemblies ≠ 0) :
    ∃ s1 t1, step we ev s = Except.ok (s1, t1) := by
  cases ev with
  | StartupModule host => simp [Event.isHook] at hh
  | OnPreWorldInitialization o W =>
    simp only [Event.Expected] at he
    simp only [step, Module.OnPreWorldInitialization, he, if_false]
    split_ifs <;> exact ⟨_, _, rfl⟩
  | OnWorldCleanup o W =>
    obtain ⟨hW, hT⟩ := he
    simp only [step, Module.OnWorldCleanup, hW, if_false]
    by_cases hg : o.IsGameWorld W = true
    · simp only [hg, if_true, hT hg, if_false]
      by_cases hs : s.Status = StatusType.Stopped
      · simp only [hs, ne_eq, not_true_eq_false, if_false]
        split_ifs <;> exact ⟨_, _, rfl⟩
      · have hu := hU hs
        simp only [hs, hu, ne_eq, not_false_eq_true, if_true, if_false]
        split_ifs <;> exact ⟨_, _, rfl⟩
    · simp only [hg]
      exact ⟨_, _, rfl⟩

/-- C4: `Stopped` is absorbing for the hooks.  From a state with
`Status = Stopped`, every finite sequence of `OnPreWorldInitialization` and
`OnWorldCleanup` calls (any worlds, game or not; the cleanup of a game world
arriving while a world is tracked) runs to the end and ends with
`Status = Stopped`. -/
theorem stopped_is_absorbing (we : Bool) (evs : List Event) (s : State)
    (hooks : ∀ ev ∈ evs, ev.isHook = true) (hs : s.Status = StatusType.Stopped)
    (hd : Delivered we s evs) :
    ∃ s1 t1, run we evs s = Except.ok (s1, t1) ∧ s1.Status = StatusType.Stopped := by
  induction evs generalizing s with
  | nil => exact ⟨s, [], rfl, hs⟩
  | cons ev evs ih =>
    have hh : ev.isHook = true := hooks ev (List.mem_cons_self _ _)
    obtain ⟨he, hrest⟩ := hd
    obtain ⟨s1, t1, h1⟩ := hook_expected_ok we ev s hh he (fun hne => absurd hs hne)
    have hs1 := hook_keeps_stopped we ev s s1 t1 hh hs h1
    obtain ⟨s2, t2, h2, hs2⟩ :=
      ih s1 (fun e he => hooks e (List.mem_cons_of_mem _ he)) hs1 (hrest s1 t1 h1)
    exact ⟨s2, t1 ++ t2, by simp [run, h1, h2], hs2⟩

theorem stopped_is_absorbing_witness :
    ∃ s1 t1,
      run true [Event.OnPreWorldInitialization twoHandles 1,
        Event.OnPreWorldInitialization twoHandles 3,
        Event.OnWorldCleanup twoHandles 2,
        Event.OnWorldCleanup twoHandles 7] freshState = Except.ok (s1, t1) ∧
      s1.Status = StatusType.Stopped :=
  stopped_is_absorbing true _ freshState (by decide) rfl
    (by simp [Delivered, Event.Expected, step, Module.OnPreWorldInitialization,
      Module.OnWorldCleanup, twoHandles, freshState])

theorem step_from_stopped (we : Bool) (ev : Event) (s s1 : State) (t1 : List Effect)
    (hs : s.Status = StatusType.Stopped) (h : step we ev s = Except.ok (s1, t1)) :
    s1.Status = StatusType.Idle ∨ s1.Status = StatusType.Stopped := by
  cases ev with
  | StartupModule host =>
    simp only [step, Except.ok.injEq] at h
    have e : s1 = (Module.StartupModule host s).1 := by rw [h]
    rw [e]
    exact (startupModule_status_cases host s).2
  | OnPreWorldInitialization o W =>
    exact Or.inr (hook_keeps_stopped we (Event.OnPreWorldInitialization o W) s s1 t1 rfl hs h)
  | OnWorldCleanup o W =>
    exact Or.inr (hook_keeps_stopped we (Event.OnWorldCleanup o W) s s1 t1 rfl hs h)

theorem step_sets_running (we : Bool) (ev : Event) (s s1 : State) (t1 : List Effect)
    (h : step we ev s = Except.ok (s1, t1)) (hr : s1.Status = StatusType.Running)
    (hn : s.Status ≠ StatusType.Running) :
    (∃ o W, ev = Event.OnPreWorldInitialization o W) ∧ s.Status ≠ StatusType.Stopped := by
  cases ev with
  | StartupModule host =>
    simp only [step, Except.ok.injEq] at h
    have e : s1 = (Module.StartupModule host s).1 := by rw [h]
    rw [e] at hr
    rcases (startupModule_status_cases host s).2 with h2 | h2 <;> rw [h2] at hr <;> cases hr
  | OnPreWorldInitialization o W =>
    refine ⟨⟨o, W, rfl⟩, fun hs => ?_⟩
    have := hook_keeps_stopped we (Event.OnPreWorldInitialization o W) s s1 t1 rfl hs h
    rw [this] at hr
    cases hr
  | OnWorldCleanup o W =>
    exfalso
    simp only [step, Module.OnWorldCleanup] at h
    split_ifs at h <;> simp at h <;> (obtain ⟨rfl, _⟩ := h) <;> simp_all

theorem states_running_from_stopped (we : Bool) (evs : List Event) :
    ∀ (s : State) (i : Nat) (st : State), s.Status = StatusType.Stopped →
      (states we evs s)[i]? = some st → st.Status = StatusType.Running →
      ∃ (j : Nat) (st1 : State), j < i ∧ (states we evs s)[j]? = some st1 ∧ st1.Status = StatusType.Idle := by
  induction evs with
  | nil => intro s i st _ h; simp [states] at h
  | cons ev evs ih =>
    intro s i st hs h hr
    unfold states at h ⊢
    cases hstep : step we ev s with
    | error f => simp [hstep] at h
    | ok r =>
      obtain ⟨s1, t1⟩ := r
      simp only [hstep] at h ⊢
      have h1 := step_from_stopped we ev s s1 t1 hs hstep
      cases i with
      | zero =>
        simp only [List.getElem?_cons_zero, Option.some.injEq] at h
        subst h
        rcases h1 with h1 | h1 <;> rw [h1] at hr <;> cases hr
      | succ k =>
        simp only [List.getElem?_cons_succ] at h
        rcases h1 with h1 | h1
        · exact ⟨0, s1, Nat.succ_pos k, List.getElem?_cons_zero, h1⟩
        · obtain ⟨j, st1, hj, hget, hidle⟩ := ih s1 k st h1 h hr
          exact ⟨j + 1, st1, Nat.succ_lt_succ hj, by simpa using hget, hidle⟩

/-- C5: `Status` never becomes `Running` without passing through `Idle`.  A
call that changes `Status` to `Running` is an `OnPreWorldInitialization` call
made while `Status` was not `Stopped`; and in the sequence of states after
each call of any call sequence that starts with `StartupModule`, every state
with `Status = Running` comes after a state with `Status = Idle`. -/
theorem running_only_after_idle (we : Bool) (host : Host) (evs : List Event) (s0 : State) :
    (∀ ev s s1 t1, step we ev s = Except.ok (s1, t1) → s1.Status = StatusType.Running →
        s.Status ≠ StatusType.Running →
        (∃ o W, ev = Event.OnPreWorldInitialization o W) ∧ s.Status ≠ StatusType.Stopped) ∧
      ∀ (i : Nat) (st : State),
        (states we (Event.StartupModule host :: evs) s0)[i]? = some st →
        st.Status = StatusType.Running →
        ∃ (j : Nat) (st1 : State), j < i ∧ (states we (Event.StartupModule host :: evs) s0)[j]? = some st1 ∧
          st1.Status = StatusType.Idle := by
  refine ⟨fun ev s s1 t1 => step_sets_running we ev s s1 t1, ?_⟩
  intro i st h hr
  simp only [states, step] at h ⊢
  have h1 := (startupModule_status_cases host s0).2
  cases i with
  | zero =>
    simp only [List.getElem?_cons_zero, Option.some.injEq] at h
    subst h
    rcases h1 with h1 | h1 <;> rw [h1] at hr <;> cases hr
  | succ k =>
    simp only [List.getElem?_cons_succ] at h
    rcases h1 with h1 | h1
    · exact ⟨0, _, Nat.succ_pos k, List.getElem?_cons_zero, h1⟩
    · obtain ⟨j, st1, hj, hget, hidle⟩ := states_running_from_stopped we evs _ k st h1 h hr
      exact ⟨j + 1, st1, Nat.succ_lt_succ hj, by simpa using hget, hidle⟩

theorem running_only_after_idle_witness :
    ∃ (j : Nat) (st1 : State), j < 1 ∧
      (states true [Event.StartupModule goodHost, Event.OnPreWorldInitialization twoHandles 1]
        freshState)[j]? = some st1 ∧ st1.Status = StatusType.Idle :=
  (running_only_after_idle true goodHost [Event.OnPreWorldInitialization twoHandles 1]
    freshState).2 1
    { Status := StatusType.Running, World := 1, ExecuteAssemblyFunction := 10,
      LoadAssemblyFunction := 11, UnloadAssemblies := 12, HostfxrLibrary := 1 }
    (by decide) rfl

/-- C6: world initialization is idempotent.  From `Status = Idle` with no
tracked world, the first `OnPreWorldInitialization` for a game world `W` sets
the tracked world to `W` and `Status` to `Running`; every further
`OnPreWorldInitialization` for `W` leaves the whole state unchanged and has no
effect; so any run of `n ≥ 1` such calls stores `Running` exactly once. -/
theorem preWorldInitialization_idempotent (we : Bool) (o : Objects) (os : List Objects)
    (W : Ptr) (s : State) (hs : s.Status = StatusType.Idle) (hw : s.World = 0) (hW : W ≠ 0)
    (hg : o.IsGameWorld W = true) :
    Module.OnPreWorldInitialization we o W s =
        Except.ok ({ s with World := W, Status := StatusType.Running },
          [Effect.StoreWorld W, Effect.StoreStatus StatusType.Running]) ∧
      (∀ o1, Module.OnPreWorldInitialization we o1 W
          { s with World := W, Status := StatusType.Running } =
        Except.ok ({ s with World := W, Status := StatusType.Running }, [])) ∧
      run we (Event.OnPreWorldInitialization o W ::
          os.map (fun o1 => Event.OnPreWorldInitialization o1 W)) s =
        Except.ok ({ s with World := W, Status := StatusType.Running },
          [Effect.StoreWorld W, Effect.StoreStatus StatusType.Running]) := by
  have first : Module.OnPreWorldInitialization we o W s =
        Except.ok ({ s with World := W, Status := StatusType.Running },
          [Effect.StoreWorld W, Effect.StoreStatus StatusType.Running]) := by
    simp [Module.OnPreWorldInitialization, hW, hg, hw, hs]
  have again : ∀ o1, Module.OnPreWorldInitialization we o1 W
          { s with World := W, Status := StatusType.Running } =
        Except.ok ({ s with World := W, Status := StatusType.Running }, []) := by
    intro o1
    simp [Module.OnPreWorldInitialization, hW]
  have rest : ∀ l : List Objects,
      run we (l.map (fun o1 => Event.OnPreWorldInitialization o1 W))
          { s with World := W, Status := StatusType.Running } =
        Except.ok ({ s with World := W, Status := StatusType.Running }, []) := by
    intro l
    induction l with
    | nil => rfl
    | cons o1 l ih => simp only [List.map_cons, run, step, again o1, ih, List.append_nil]
  exact ⟨first, again, by simp only [run, step, first, rest os, List.append_nil]⟩

theorem preWorldInitialization_idempotent_witness :
    run true (Event.OnPreWorldInitialization twoHandles 1 ::
        [twoHandles, twoHandles].map (fun o1 => Event.OnPreWorldInitialization o1 1))
        { freshState with Status := StatusType.Idle } =
      Except.ok ({ freshState with World := 1, Status := StatusType.Running },
        [Effect.StoreWorld 1, Effect.StoreStatus StatusType.Running]) :=
  (preWorldInitialization_idempotent true twoHandles [twoHandles, twoHandles] 1
    { freshState with Status := StatusType.Idle } rfl rfl (by decide) (by decide)).2.2

/-- C7: in a state with a tracked world `T`, `OnWorldCleanup` for a world `W`
whose full name differs from the full name of `T` returns the state unchanged
(tracked world and `Status` included) and has no effect, so it does not call
`UnloadAssemblies`. -/
theorem worldCleanup_other_world (o : Objects) (W : Ptr) (s : State)
    (hT : s.World ≠ 0) (hW : W ≠ 0) (hne : o.GetFullName W ≠ o.GetFullName s.World) :
    Module.OnWorldCleanup o W s = Except.ok (s, []) := by
  simp [Module.OnWorldCleanup, hT, hW, hne]

theorem worldCleanup_other_world_witness :
    Module.OnWorldCleanup twoHandles 3
        { freshState with World := 1, Status := StatusType.Running } =
      Except.ok ({ freshState with World := 1, Status := StatusType.Running }, []) :=
  worldCleanup_other_world twoHandles 3
    { freshState with World := 1, Status := StatusType.Running }
    (by decide) (by decide) (by decide)

/-- C8 fails as stated: in a build without `WITH_EDITOR` the call made at
`Status = Stopped` tracks the world and adds no notification at all. -/
theorem preWorldInitialization_stopped_no_notification :
    Module.OnPreWorldInitialization false twoHandles 1 freshState =
        Except.ok ({ freshState with World := 1 }, [Effect.StoreWorld 1]) ∧
      ([Effect.StoreWorld 1].filter Effect.isAddNotification).length ≠ 1 :=
  ⟨rfl, by decide⟩

/-- C8 (amended): from `Status = Stopped` with no tracked world,
`OnPreWorldInitialization` for a game world does not fault, leaves `Status`
at `Stopped`, and adds exactly one notification in a `WITH_EDITOR` build and
none in any other build. -/
theorem preWorldInitialization_stopped (we : Bool) (o : Objects) (W : Ptr) (s : State)
    (hs : s.Status = StatusType.Stopped) (hw : s.World = 0) (hW : W ≠ 0)
    (hg : o.IsGameWorld W = true) :
    ∃ s1 t1, Module.OnPreWorldInitialization we o W s = Except.ok (s1, t1) ∧
      s1.Status = StatusType.Stopped ∧
      (t1.filter Effect.isAddNotification).length = if we = true then 1 else 0 := by
  have hs1 : ({ s with World := W } : State).Status = StatusType.Stopped := hs
  cases we
  · exact ⟨{ s with World := W }, [Effect.StoreWorld W],
      by simp [Module.OnPreWorldInitialization, hs, hw, hW, hg], hs1, rfl⟩
  · exact ⟨{ s with World := W },
      [Effect.StoreWorld W, Effect.AddNotification
        "UnrealCLR host is not initialized! Please, check logs and try to restart the engine."],
      by simp [Module.OnPreWorldInitialization, hs, hw, hW, hg], hs1, rfl⟩

theorem preWorldInitialization_stopped_witness :
    ∃ s1 t1, Module.OnPreWorldInitialization true twoHandles 1 freshState = Except.ok (s1, t1) ∧
      s1.Status = StatusType.Stopped ∧
      (t1.filter Effect.isAddNotification).length = if true = true then 1 else 0 :=
  preWorldInitialization_stopped true twoHandles 1 freshState rfl rfl (by decide) (by decide)

theorem startupModule_reaches (host : Host) (s : State) (h : host.ReachesInitialize) :
    (Module.StartupModule host s).2 =
      beforeTables host ++ (storeGroups 0 frameworkGroups ++ storeManagedFunctions) ++
        initializeCall :: afterInitialize host := by
  obtain ⟨h0, h1, h2, h3, h4, ⟨c1, c2⟩, ⟨c3, c4⟩, c5, c6⟩ := h
  unfold Module.StartupModule resolveEntryPoints initializeHost exchangeFunctionTables
    afterInitialize beforeTables initializeCall
  by_cases c7 : host.InitializeResult = 15 <;>
    simp [h0, h1, h2, h3, h4, c1, c2, c3, c4, c5, c6, c7]

theorem startupModule_not_reaches (host : Host) (s : State) (h : ¬ host.ReachesInitialize) :
    ∀ e ∈ (Module.StartupModule host s).2,
      e.isTableStore = false ∧ e.isInitialize = false ∧ e.isCreateDirectory = false := by
  unfold Host.ReachesInitialize at h
  unfold Module.StartupModule resolveEntryPoints initializeHost exchangeFunctionTables
  by_cases h0 : host.GetDllHandle = 0
  · simp [h0, Effect.isTableStore, Effect.isInitialize, Effect.isCreateDirectory]
  by_cases h1 : host.GetDllExport "hostfxr_set_error_writer" = 0
  · simp [h0, h1, Effect.isTableStore, Effect.isInitialize, Effect.isCreateDirectory]
  by_cases h2 : host.GetDllExport "hostfxr_initialize_for_runtime_config" = 0
  · simp [h0, h1, h2, Effect.isTableStore, Effect.isInitialize, Effect.isCreateDirectory]
  by_cases h3 : host.GetDllExport "hostfxr_get_runtime_delegate" = 0
  · simp [h0, h1, h2, h3, Effect.isTableStore, Effect.isInitialize, Effect.isCreateDirectory]
  by_cases h4 : host.GetDllExport "hostfxr_close" = 0
  · simp [h0, h1, h2, h3, h4, Effect.isTableStore, Effect.isInitialize, Effect.isCreateDirectory]
  by_cases c1 : host.InitializeForRuntimeConfig = 0
  swap
  · simp [h0, h1, h2, h3, h4, c1, Effect.isTableStore, Effect.isInitialize,
      Effect.isCreateDirectory]
  by_cases c2 : host.HostfxrContext = 0
  · simp [h0, h1, h2, h3, h4, c1, c2, Effect.isTableStore, Effect.isInitialize,
      Effect.isCreateDirectory]
  by_cases c3 : host.GetRuntimeDelegate = 0
  swap
  · simp [h0, h1, h2, h3, h4, c1, c2, c3, Effect.isTableStore, Effect.isInitialize,
      Effect.isCreateDirectory]
  by_cases c4 : host.LoadAssemblyAndGetFunctionPointerDelegate = 0
  · simp [h0, h1, h2, h3, h4, c1, c2, c3, c4, Effect.isTableStore, Effect.isInitialize,
      Effect.isCreateDirectory]
  by_cases c5 : host.LoadAssemblyAndGetFunctionPointer = 0
  swap
  · simp [h0, h1, h2, h3, h4, c1, c2, c3, c4, c5, Effect.isTableStore, Effect.isInitialize,
      Effect.isCreateDirectory]
  by_cases c6 : host.InitializePointer = 0
  · simp [h0, h1, h2, h3, h4, c1, c2, c3, c4, c5, c6, Effect.isTableStore, Effect.isInitialize,
      Effect.isCreateDirectory]
  · exact absurd ⟨h0, h1, h2, h3, h4, ⟨c1, c2⟩, ⟨c3, c4⟩, c5, c6⟩ h

theorem initialize_mem_reaches (host : Host) (s : State) (e : Effect)
    (he : e ∈ (Module.StartupModule host s).2) (hi : e.isInitialize = true) :
    host.ReachesInitialize := by
  by_contra h
  have := (startupModule_not_reaches host s h e he).2.1
  rw [this] at hi
  cases hi

theorem beforeTables_kind (host : Host) :
    ∀ e ∈ beforeTables host, e.isTableStore = false ∧ e.isInitialize = false ∧
      e.isCreateDirectory = false := by
  intro e he
  simp only [beforeTables, List.mem_cons, List.mem_singleton, List.not_mem_nil, or_false] at he
  rcases he with h | h | h | h | h | h | h | h | h | h | h | h | h | h | h | h | h <;>
    subst h <;> exact ⟨rfl, rfl, rfl⟩

theorem afterInitialize_kind (host : Host) :
    ∀ e ∈ afterInitialize host, e.isTableStore = false ∧ e.isInitialize = false := by
  intro e he
  unfold afterInitialize ensureUserAssembliesPath at he
  by_cases c7 : host.InitializeResult = 15 <;>
  cases d1 : host.DirectoryExists <;> cases d2 : host.DirectoryExistsAfterCreate <;>
    simp [c7, d1, d2] at he <;>
    (try rcases he with h | h | h | h | h | h | h) <;>
    (try subst h) <;> (try exact ⟨rfl, rfl⟩)

theorem beforeTables_filter (host : Host) (p : Effect → Bool)
    (h : ∀ e ∈ beforeTables host, p e = false) : (beforeTables host).filter p = [] :=
  List.filter_eq_nil_iff.mpr (fun e he => by simp [h e he])

theorem startupModule_succeeds_state (host : Host) (s : State) (h : host.Succeeds) :
    (Module.StartupModule host s).1 =
      { s with Status := StatusType.Idle, HostfxrLibrary := host.GetDllHandle,
               ExecuteAssemblyFunction := host.NativeFunctions 0,
               LoadAssemblyFunction := host.NativeFunctions 1,
               UnloadAssemblies := host.NativeFunctions 2 } := by
  obtain ⟨h0, h1, h2, h3, h4, ⟨c1, c2⟩, ⟨c3, c4⟩, ⟨c5, c6⟩, c7⟩ := h
  unfold Module.StartupModule resolveEntryPoints initializeHost exchangeFunctionTables
  simp [h0, h1, h2, h3, h4, c1, c2, c3, c4, c5, c6, c7]

theorem succeeds_reaches (host : Host) (h : host.Succeeds) : host.ReachesInitialize := by
  obtain ⟨h0, h1, h2, h3, h4, c12, c34, c56, _⟩ := h
  exact ⟨h0, h1, h2, h3, h4, c12, c34, c56⟩

/-- C11 fails as stated: `Initialize` returns `0xF`, the output array holds
null pointers, and `StartupModule` captures a null `UnloadAssemblies`. -/
theorem startupModule_captures_null_handles :
    hostWithEmptyOutput.Succeeds ∧
      (Module.StartupModule hostWithEmptyOutput freshState).1.Status = StatusType.Idle ∧
      (Module.StartupModule hostWithEmptyOutput freshState).1.UnloadAssemblies = 0 := by
  refine ⟨?_, by decide, by decide⟩
  unfold Host.Succeeds
  decide

/-- C11 (amended): whenever `Initialize` returns `0xF`, `StartupModule` sets
`ExecuteAssemblyFunction`, `LoadAssemblyFunction` and `UnloadAssemblies` to the
values at positions 0, 1 and 2 of the output array and sets `Status` to
`Idle`; the pointers are not tested, so each captured handle is non-null
exactly when its slot of the output array is. -/
theorem startupModule_captures_handles (host : Host) (s : State) (h : host.Succeeds) :
    (Module.StartupModule host s).1.ExecuteAssemblyFunction = host.NativeFunctions 0 ∧
      (Module.StartupModule host s).1.LoadAssemblyFunction = host.NativeFunctions 1 ∧
      (Module.StartupModule host s).1.UnloadAssemblies = host.NativeFunctions 2 ∧
      (Module.StartupModule host s).1.Status = StatusType.Idle ∧
      (((Module.StartupModule host s).1.ExecuteAssemblyFunction ≠ 0 ∧
          (Module.StartupModule host s).1.LoadAssemblyFunction ≠ 0 ∧
          (Module.StartupModule host s).1.UnloadAssemblies ≠ 0) ↔
        (host.NativeFunctions 0 ≠ 0 ∧ host.NativeFunctions 1 ≠ 0 ∧
          host.NativeFunctions 2 ≠ 0)) := by
  rw [startupModule_succeeds_state host s h]
  exact ⟨rfl, rfl, rfl, rfl, Iff.rfl⟩

theorem startupModule_captures_handles_witness :
    (Module.StartupModule goodHost freshState).1.ExecuteAssemblyFunction = 10 ∧
      (Module.StartupModule goodHost freshState).1.LoadAssemblyFunction = 11 ∧
      (Module.StartupModule goodHost freshState).1.UnloadAssemblies = 12 :=
  have h := startupModule_captures_handles goodHost freshState
    (by unfold Host.Succeeds; decide)
  ⟨h.1, h.2.1, h.2.2.1⟩

/-- C12: in every run of `StartupModule`, `Initialize` is called at most once;
when it is called, its arguments are the re-entry table, the output table and
the capability groups in this order, all stores into `Shared::Functions`, the
inner group arrays and `Shared::ManagedFunctions` come in one block right
before the call, and no such store is made before that block or after the
call. -/
theorem startupModule_tables_precede_call (host : Host) (s : State) :
    ((Module.StartupModule host s).2.filter Effect.isInitialize).length ≤ 1 ∧
      ∀ e ∈ (Module.StartupModule host s).2, e.isInitialize = true →
        e = Effect.Initialize "Shared::ManagedFunctions" "Shared::NativeFunctions"
              "Shared::Functions" ∧
          ∃ front back,
            (Module.StartupModule host s).2 =
              front ++ (storeGroups 0 frameworkGroups ++ storeManagedFunctions) ++ e :: back ∧
            (∀ x ∈ front, x.isTableStore = false ∧ x.isInitialize = false) ∧
            (∀ x ∈ back, x.isTableStore = false ∧ x.isInitialize = false) := by
  have hg : (storeGroups 0 frameworkGroups).filter Effect.isInitialize = [] :=
    storeGroups_filter _ (fun _ _ => rfl) (fun _ _ _ => rfl) _ _
  have hb : (beforeTables host).filter Effect.isInitialize = [] :=
    beforeTables_filter host _ (fun e he => (beforeTables_kind host e he).2.1)
  have ha : (afterInitialize host).filter Effect.isInitialize = [] :=
    List.filter_eq_nil_iff.mpr (fun e he => by simp [(afterInitialize_kind host e he).2])
  by_cases hr : host.ReachesInitialize
  · have ht := startupModule_reaches host s hr
    constructor
    · rw [ht]
      simp [List.filter_append, hg, hb, ha, storeManagedFunctions, initializeCall,
        Effect.isInitialize, List.filter_cons]
    · intro e he hi
      have hee : e = initializeCall := by
        rw [ht] at he
        simp only [List.mem_append, List.mem_cons] at he
        rcases he with ((he | he | he) | he | he)
        · rw [(beforeTables_kind host e he).2.1] at hi; cases hi
        · rcases mem_storeGroups e _ _ he with ⟨i, a, rfl⟩ | ⟨a, hd, f, rfl⟩ <;> cases hi
        · simp only [storeManagedFunctions, List.mem_cons, List.mem_singleton,
            List.not_mem_nil, or_false] at he
          rcases he with rfl | rfl | rfl <;> cases hi
        · exact he
        · rw [(afterInitialize_kind host e he).2] at hi; cases hi
      subst hee
      refine ⟨rfl, beforeTables host, afterInitialize host, ht, ?_, ?_⟩
      · exact fun x hx => ⟨(beforeTables_kind host x hx).1, (beforeTables_kind host x hx).2.1⟩
      · exact afterInitialize_kind host
  · constructor
    · have : (Module.StartupModule host s).2.filter Effect.isInitialize = [] :=
        List.filter_eq_nil_iff.mpr
          (fun e he => by simp [(startupModule_not_reaches host s hr e he).2.1])
      simp [this]
    · intro e he hi
      rw [(startupModule_not_reaches host s hr e he).2.1] at hi
      cases hi

theorem startupModule_tables_precede_call_witness :
    ∃ front back,
      (Module.StartupModule goodHost freshState).2 =
        front ++ (storeGroups 0 frameworkGroups ++ storeManagedFunctions) ++
          Effect.Initialize "Shared::ManagedFunctions" "Shared::NativeFunctions"
            "Shared::Functions" :: back ∧
      (∀ x ∈ front, x.isTableStore = false ∧ x.isInitialize = false) ∧
      (∀ x ∈ back, x.isTableStore = false ∧ x.isInitialize = false) :=
  ((startupModule_tables_precede_call goodHost freshState).2
    (Effect.Initialize "Shared::ManagedFunctions" "Shared::NativeFunctions" "Shared::Functions")
    (by rw [startupModule_reaches goodHost freshState (by unfold Host.ReachesInitialize; decide)]
        simp [initializeCall])
    rfl).2

/-- C13: when `StartupModule` calls `Initialize`, the first argument is
`Shared::ManagedFunctions`, and the stores into that table made by the run are
exactly three, at the indices 0, 1, 2 with `Invoke`, `Exception`, `Log` in
this order, all made before the call; and `Invoke(f)` consists of one call of
`f`. -/
theorem reentry_table_layout (host : Host) (s : State) :
    (∀ a b c, Effect.Initialize a b c ∈ (Module.StartupModule host s).2 →
        a = "Shared::ManagedFunctions" ∧
        ∃ front back,
          (Module.StartupModule host s).2 =
            front ++
              [Effect.StoreManagedFunctions 0 "UnrealCLR::Module::Invoke",
               Effect.StoreManagedFunctions 1 "UnrealCLR::Module::Exception",
               Effect.StoreManagedFunctions 2 "UnrealCLR::Module::Log",
               Effect.Initialize a b c] ++ back ∧
          (∀ x ∈ front ++ back, x.isStoreManagedFunctions = false)) ∧
      ∀ (f : Ptr) (st : State), Module.Invoke f st = (st, [Effect.ManagedFunction f]) := by
  refine ⟨?_, fun _ _ => rfl⟩
  intro a b c he
  have hr := initialize_mem_reaches host s _ he rfl
  have ht := startupModule_reaches host s hr
  have hee : Effect.Initialize a b c = initializeCall := by
    rw [ht] at he
    simp only [List.mem_append, List.mem_cons] at he
    rcases he with ((he | he | he) | he | he)
    · have := (beforeTables_kind host _ he).2.1
      cases this
    · rcases mem_storeGroups _ _ _ he with ⟨i, a, h⟩ | ⟨a, hd, f, h⟩ <;> cases h
    · simp [storeManagedFunctions] at he
    · exact he
    · have := (afterInitialize_kind host _ he).2
      cases this
  have ha : a = "Shared::ManagedFunctions" := by
    simp only [initializeCall, Effect.Initialize.injEq] at hee
    exact hee.1
  refine ⟨ha, beforeTables host ++ storeGroups 0 frameworkGroups, afterInitialize host, ?_, ?_⟩
  · rw [ht, hee]
    simp [storeManagedFunctions]
  · intro x hx
    simp only [List.mem_append] at hx
    rcases hx with (hx | hx) | hx
    · have := (beforeTables_kind host x hx).1
      cases x <;> first | rfl | cases this
    · rcases mem_storeGroups x _ _ hx with ⟨i, a, rfl⟩ | ⟨a, hd, f, rfl⟩ <;> rfl
    · have := (afterInitialize_kind host x hx).1
      cases x <;> first | rfl | cases this

theorem reentry_table_layout_witness :
    ∃ front back,
      (Module.StartupModule goodHost freshState).2 =
        front ++
          [Effect.StoreManagedFunctions 0 "UnrealCLR::Module::Invoke",
           Effect.StoreManagedFunctions 1 "UnrealCLR::Module::Exception",
           Effect.StoreManagedFunctions 2 "UnrealCLR::Module::Log",
           Effect.Initialize "Shared::ManagedFunctions" "Shared::NativeFunctions"
             "Shared::Functions"] ++ back ∧
      (∀ x ∈ front ++ back, x.isStoreManagedFunctions = false) :=
  ((reentry_table_layout goodHost freshState).1 "Shared::ManagedFunctions"
    "Shared::NativeFunctions" "Shared::Functions"
    (by rw [startupModule_reaches goodHost freshState (by unfold Host.ReachesInitialize; decide)]
        simp [initializeCall])).2

/-- C14 fails on the code for the level `Fatal`: `Log` has branches for
`Display`, `Warning` and `Error` only, so a `Fatal` message is neither written
to the log nor shown on screen.  The other three levels behave as claimed:
one log line at the verbosity of the level, and for `Warning` and `Error` one
on-screen message shown for 10 seconds. -/
theorem log_drops_fatal (Message : String) (s : State) :
    Module.Log LogLevel.Fatal Message s = (s, []) ∧
      Module.Log LogLevel.Display Message s =
        (s, [Effect.LogMessage Verbosity.Display "%s: %s" Message]) ∧
      Module.Log LogLevel.Warning Message s =
        (s, [Effect.LogMessage Verbosity.Warning "%s: %s" Message,
             Effect.AddOnScreenDebugMessage onScreenKey 10 "FColor::Yellow" Message]) ∧
      Module.Log LogLevel.Error Message s =
        (s, [Effect.LogMessage Verbosity.Error "%s: %s" Message,
             Effect.AddOnScreenDebugMessage onScreenKey 10 "FColor::Red" Message]) :=
  ⟨rfl, rfl, rfl, rfl⟩

/-- C15: for every state and message, `Exception` writes the message to the log
at `Error` verbosity, adds exactly one on-screen message, and returns the
state unchanged (`Status`, the tracked world and the three managed handles
included). -/
theorem exception_logs_and_keeps_state (Message : String) (s : State) :
    (Module.Exception Message s).1 = s ∧
      (Module.Exception Message s).2 =
        [Effect.LogMessage Verbosity.Error "%s: %s" Message,
         Effect.AddOnScreenDebugMessage onScreenKey 10 "FColor::Red" Message] ∧
      ((Module.Exception Message s).2.filter Effect.isAddOnScreenDebugMessage).length = 1 :=
  ⟨rfl, rfl, rfl⟩

/-- C16 fails on the code for a null delegate: the delegate getter returns 0
and leaves the delegate null, the test at line 119 looks at the entry point
instead of the delegate, so `StartupModule` closes the context, logs that the
host functions loaded, and only then logs an assembly loading failure;
`Status` stays `Stopped` and the assembly load is not attempted. -/
theorem startupModule_null_delegate :
    hostWithNullDelegate.GetRuntimeDelegate = 0 ∧
      hostWithNullDelegate.LoadAssemblyAndGetFunctionPointerDelegate = 0 ∧
      (Module.StartupModule hostWithNullDelegate freshState).1.Status = StatusType.Stopped ∧
      (Module.StartupModule hostWithNullDelegate freshState).2 =
        [Effect.StoreStatus StatusType.Stopped,
         Effect.AddRaw "OnPreWorldInitialization",
         Effect.AddRaw "OnWorldCleanup",
         Effect.Log Verbosity.Display "%s: Host path set to \"%s\"",
         Effect.GetDllHandle,
         Effect.Log Verbosity.Display "%s: Host library loaded successfuly!",
         Effect.GetDllExport "hostfxr_set_error_writer",
         Effect.GetDllExport "hostfxr_initialize_for_runtime_config",
         Effect.GetDllExport "hostfxr_get_runtime_delegate",
         Effect.GetDllExport "hostfxr_close",
         Effect.HostfxrSetErrorWriter,
         Effect.HostfxrInitializeForRuntimeConfig,
         Effect.HostfxrGetRuntimeDelegate 3,
         Effect.HostfxrClose 3,
         Effect.Log Verbosity.Display "%s: Host functions loaded successfuly!",
         Effect.Log Verbosity.Error "%s: Host runtime assembly loading failed!"] := by
  decide

theorem afterInitialize_startup (host : Host) :
    ∀ e ∈ afterInitialize host, e.isStartupEffect = true ∧ e.isHandshakeCall = false := by
  intro e he
  unfold afterInitialize ensureUserAssembliesPath at he
  by_cases c7 : host.InitializeResult = 15 <;>
  cases d1 : host.DirectoryExists <;> cases d2 : host.DirectoryExistsAfterCreate <;>
    simp [c7, d1, d2] at he <;>
    (try rcases he with h | h | h | h | h | h | h) <;>
    (try subst h) <;> (try exact ⟨rfl, rfl⟩)

theorem exchangeFunctionTables_rest (host : Host) (s : State) (t : List Effect) :
    ∃ rest, (exchangeFunctionTables host s t).2 = t ++ rest ∧
      ∀ e ∈ rest, e.isStartupEffect = true ∧ e ≠ Effect.HostfxrSetErrorWriter ∧
        e ≠ Effect.HostfxrInitializeForRuntimeConfig := by
  by_cases c6 : host.InitializePointer = 0
  · refine ⟨[Effect.Log Verbosity.Error
      "%s: Host runtime assembly unable to load the initialization function!"], ?_, ?_⟩
    · simp [exchangeFunctionTables, c6]
    · intro e he
      simp only [List.mem_singleton] at he
      subst he
      exact ⟨rfl, by simp, by simp⟩
  · refine ⟨storeGroups 0 frameworkGroups ++ storeManagedFunctions ++
      initializeCall :: afterInitialize host, ?_, ?_⟩
    · unfold exchangeFunctionTables afterInitialize initializeCall
      by_cases c7 : host.InitializeResult = 15 <;> simp [c6, c7]
    · intro e he
      simp only [List.mem_append, List.mem_cons] at he
      rcases he with (he | he) | he | he
      · rcases mem_storeGroups e _ _ he with ⟨i, a, rfl⟩ | ⟨a, hd, f, rfl⟩ <;>
          exact ⟨rfl, by simp, by simp⟩
      · simp only [storeManagedFunctions, List.mem_cons, List.mem_singleton,
          List.not_mem_nil, or_false] at he
        rcases he with rfl | rfl | rfl <;> exact ⟨rfl, by simp, by simp⟩
      · subst he
        exact ⟨rfl, by simp [initializeCall], by simp [initializeCall]⟩
      · have h := afterInitialize_startup host e he
        refine ⟨h.1, ?_, ?_⟩ <;> intro hc <;> subst hc <;> cases h.2

theorem initializeHost_shape (host : Host) (s : State) (t : List Effect) :
    ∃ back, (initializeHost host s t).2 =
        t ++ Effect.HostfxrSetErrorWriter :: Effect.HostfxrInitializeForRuntimeConfig :: back ∧
      ∀ e ∈ back, e.isStartupEffect = true ∧ e ≠ Effect.HostfxrSetErrorWriter ∧
        e ≠ Effect.HostfxrInitializeForRuntimeConfig := by
  unfold initializeHost
  by_cases h1 : host.InitializeForRuntimeConfig ≠ 0 ∨ host.HostfxrContext = 0
  · refine ⟨[Effect.Log Verbosity.Error
        "%s: Unable to initialize the host! Please, try to restart the engine.",
      Effect.HostfxrClose host.HostfxrContext], by simp [h1], ?_⟩
    intro e he
    simp only [List.mem_cons, List.mem_singleton, List.not_mem_nil, or_false] at he
    rcases he with rfl | rfl <;> exact ⟨rfl, by simp, by simp⟩
  by_cases h2 : host.GetRuntimeDelegate ≠ 0 ∨ host.GetDllExport "hostfxr_get_runtime_delegate" = 0
  · refine ⟨[Effect.HostfxrGetRuntimeDelegate host.HostfxrContext,
      Effect.Log Verbosity.Error
        "%s: Unable to get hdt_load_assembly_and_get_function_pointer runtime delegate!",
      Effect.HostfxrClose host.HostfxrContext], by simp [h1, h2], ?_⟩
    intro e he
    simp only [List.mem_cons, List.mem_singleton, List.not_mem_nil, or_false] at he
    rcases he with rfl | rfl | rfl <;> exact ⟨rfl, by simp, by simp⟩
  by_cases h3 : host.LoadAssemblyAndGetFunctionPointerDelegate = 0
  · refine ⟨[Effect.HostfxrGetRuntimeDelegate host.HostfxrContext,
      Effect.HostfxrClose host.HostfxrContext,
      Effect.Log Verbosity.Display "%s: Host functions loaded successfuly!",
      Effect.Log Verbosity.Error "%s: Host runtime assembly loading failed!"],
      by simp [h1, h2, h3], ?_⟩
    intro e he
    simp only [List.mem_cons, List.mem_singleton, List.not_mem_nil, or_false] at he
    rcases he with rfl | rfl | rfl | rfl <;> exact ⟨rfl, by simp, by simp⟩
  by_cases h4 : host.LoadAssemblyAndGetFunctionPointer = 0
  · simp only [h1, h2, h3, h4, ne_eq, not_false_eq_true, if_true, if_false]
    obtain ⟨rest, hr, hk⟩ := exchangeFunctionTables_rest host s
      (t ++ [Effect.HostfxrSetErrorWriter, Effect.HostfxrInitializeForRuntimeConfig] ++
          [Effect.HostfxrGetRuntimeDelegate host.HostfxrContext] ++
          [Effect.HostfxrClose host.HostfxrContext,
            Effect.Log Verbosity.Display "%s: Host functions loaded successfuly!"] ++
          [Effect.HostfxrLoadAssemblyAndGetFunctionPointer] ++
          [Effect.Log Verbosity.Display "%s: Host runtime assembly loaded succesfuly!"])
    refine ⟨[Effect.HostfxrGetRuntimeDelegate host.HostfxrContext,
      Effect.HostfxrClose host.HostfxrContext,
      Effect.Log Verbosity.Display "%s: Host functions loaded successfuly!",
      Effect.HostfxrLoadAssemblyAndGetFunctionPointer,
      Effect.Log Verbosity.Display "%s: Host runtime assembly loaded succesfuly!"] ++ rest,
      by rw [hr]; simp, ?_⟩
    intro e he
    simp only [List.cons_append, List.nil_append, List.mem_cons] at he
    rcases he with rfl | rfl | rfl | rfl | rfl | he
    · exact ⟨rfl, by simp, by simp⟩
    · exact ⟨rfl, by simp, by simp⟩
    · exact ⟨rfl, by simp, by simp⟩
    · exact ⟨rfl, by simp, by simp⟩
    · exact ⟨rfl, by simp, by simp⟩
    · exact hk e he
  · refine ⟨[Effect.HostfxrGetRuntimeDelegate host.HostfxrContext,
      Effect.HostfxrClose host.HostfxrContext,
      Effect.Log Verbosity.Display "%s: Host functions loaded successfuly!",
      Effect.HostfxrLoadAssemblyAndGetFunctionPointer,
      Effect.Log Verbosity.Error "%s: Host runtime assembly loading failed!"],
      by simp [h1, h2, h3, h4], ?_⟩
    intro e he
    simp only [List.mem_cons, List.mem_singleton, List.not_mem_nil, or_false] at he
    rcases he with rfl | rfl | rfl | rfl | rfl <;> exact ⟨rfl, by simp, by simp⟩

/-- The effects of `StartupModule` up to the last lookup, when the library
loaded and the four entry points resolved. -/
theorem startupModule_resolved (host : Host) (s : State) (h0 : host.GetDllHandle ≠ 0)
    (h : ∀ name ∈ requiredEntryPoints, host.GetDllExport name ≠ 0) :
    ∃ back, (Module.StartupModule host s).2 =
        [Effect.StoreStatus StatusType.Stopped, Effect.AddRaw "OnPreWorldInitialization",
          Effect.AddRaw "OnWorldCleanup",
          Effect.Log Verbosity.Display "%s: Host path set to \"%s\"", Effect.GetDllHandle,
          Effect.Log Verbosity.Display "%s: Host library loaded successfuly!",
          Effect.GetDllExport "hostfxr_set_error_writer",
          Effect.GetDllExport "hostfxr_initialize_for_runtime_config",
          Effect.GetDllExport "hostfxr_get_runtime_delegate",
          Effect.GetDllExport "hostfxr_close"] ++
        Effect.HostfxrSetErrorWriter :: Effect.HostfxrInitializeForRuntimeConfig :: back ∧
      ∀ e ∈ back, e.isStartupEffect = true ∧ e ≠ Effect.HostfxrSetErrorWriter ∧
        e ≠ Effect.HostfxrInitializeForRuntimeConfig := by
  have h1 := h "hostfxr_set_error_writer" (by simp [requiredEntryPoints])
  have h2 := h "hostfxr_initialize_for_runtime_config" (by simp [requiredEntryPoints])
  have h3 := h "hostfxr_get_runtime_delegate" (by simp [requiredEntryPoints])
  have h4 := h "hostfxr_close" (by simp [requiredEntryPoints])
  unfold Module.StartupModule resolveEntryPoints
  simp only [h0, h1, h2, h3, h4, ne_eq, not_false_eq_true, if_true, if_false]
  obtain ⟨back, hb, hk⟩ := initializeHost_shape host
    { s with Status := StatusType.Stopped, HostfxrLibrary := host.GetDllHandle }
    ([Effect.StoreStatus StatusType.Stopped, Effect.AddRaw "OnPreWorldInitialization",
        Effect.AddRaw "OnWorldCleanup", Effect.Log Verbosity.Display "%s: Host path set to \"%s\"",
        Effect.GetDllHandle] ++
      [Effect.Log Verbosity.Display "%s: Host library loaded successfuly!"] ++
      [Effect.GetDllExport "hostfxr_set_error_writer"] ++
      [Effect.GetDllExport "hostfxr_initialize_for_runtime_config"] ++
      [Effect.GetDllExport "hostfxr_get_runtime_delegate"] ++
      [Effect.GetDllExport "hostfxr_close"])
  exact ⟨back, by rw [hb]; simp, hk⟩

/-- The effects of `StartupModule` when the library did not load or an entry
point did not resolve: lookups and log lines only. -/
theorem startupModule_unresolved (host : Host) (s : State)
    (h : ¬ (host.GetDllHandle ≠ 0 ∧ ∀ name ∈ requiredEntryPoints, host.GetDllExport name ≠ 0)) :
    ∀ e ∈ (Module.StartupModule host s).2,
      e.isStartupEffect = true ∧ e.isHandshakeCall = false := by
  unfold Module.StartupModule resolveEntryPoints
  by_cases h0 : host.GetDllHandle = 0
  · simp [h0, Effect.isStartupEffect, Effect.isHandshakeCall]
  by_cases h1 : host.GetDllExport "hostfxr_set_error_writer" = 0
  · simp [h0, h1, Effect.isStartupEffect, Effect.isHandshakeCall]
  by_cases h2 : host.GetDllExport "hostfxr_initialize_for_runtime_config" = 0
  · simp [h0, h1, h2, Effect.isStartupEffect, Effect.isHandshakeCall]
  by_cases h3 : host.GetDllExport "hostfxr_get_runtime_delegate" = 0
  · simp [h0, h1, h2, h3, Effect.isStartupEffect, Effect.isHandshakeCall]
  by_cases h4 : host.GetDllExport "hostfxr_close" = 0
  · simp [h0, h1, h2, h3, h4, Effect.isStartupEffect, Effect.isHandshakeCall]
  · exfalso
    apply h
    refine ⟨h0, ?_⟩
    intro name hn
    simp only [requiredEntryPoints, List.mem_cons, List.mem_singleton, List.not_mem_nil,
      or_false] at hn
    rcases hn with rfl | rfl | rfl | rfl <;> assumption

/-- C17: in every run of `StartupModule`, the error writer is registered and
the context initializer is called only when the library loaded and the four
entry points resolved; the registration comes after the four lookups, before
any call through an entry point, and immediately before the call of the
context initializer; neither happens a second time.  On the fully successful
path the calls are, in order: set error writer, initialize context, get
delegate, close context, load assembly and get function pointer,
`Initialize`. -/
theorem startupModule_call_order (host : Host) (s : State) :
    (∀ e ∈ (Module.StartupModule host s).2,
        (e = Effect.HostfxrSetErrorWriter ∨ e = Effect.HostfxrInitializeForRuntimeConfig) →
        (host.GetDllHandle ≠ 0 ∧ ∀ name ∈ requiredEntryPoints, host.GetDllExport name ≠ 0) ∧
        ∃ front back,
          (Module.StartupModule host s).2 =
            front ++ Effect.HostfxrSetErrorWriter ::
              Effect.HostfxrInitializeForRuntimeConfig :: back ∧
          (∀ name ∈ requiredEntryPoints, Effect.GetDllExport name ∈ front) ∧
          (∀ x ∈ front, x.isHandshakeCall = false) ∧
          (∀ x ∈ back, x ≠ Effect.HostfxrSetErrorWriter ∧
            x ≠ Effect.HostfxrInitializeForRuntimeConfig)) ∧
      (host.Succeeds →
        (Module.StartupModule host s).2.filter Effect.isHandshakeCall =
          [Effect.HostfxrSetErrorWriter, Effect.HostfxrInitializeForRuntimeConfig,
           Effect.HostfxrGetRuntimeDelegate host.HostfxrContext,
           Effect.HostfxrClose host.HostfxrContext,
           Effect.HostfxrLoadAssemblyAndGetFunctionPointer,
           Effect.Initialize "Shared::ManagedFunctions" "Shared::NativeFunctions"
             "Shared::Functions"]) := by
  constructor
  · intro e he hcall
    by_cases hres : host.GetDllHandle ≠ 0 ∧
        ∀ name ∈ requiredEntryPoints, host.GetDllExport name ≠ 0
    · refine ⟨hres, ?_⟩
      obtain ⟨back, hb, hk⟩ := startupModule_resolved host s hres.1 hres.2
      refine ⟨_, back, hb, ?_, ?_, fun x hx => (hk x hx).2⟩
      · intro name hn
        simp only [requiredEntryPoints, List.mem_cons, List.mem_singleton, List.not_mem_nil,
          or_false] at hn
        rcases hn with rfl | rfl | rfl | rfl <;> simp
      · intro x hx
        simp only [List.mem_cons, List.mem_singleton, List.not_mem_nil, or_false] at hx
        rcases hx with h | h | h | h | h | h | h | h | h | h <;> subst h <;> rfl
    · exfalso
      have := (startupModule_unresolved host s hres e he).2
      rcases hcall with rfl | rfl <;> cases this
  · intro hs
    have c7 : host.InitializeResult = 15 := hs.2.2.2.2.2.2.2.2
    have hg : (storeGroups 0 frameworkGroups).filter Effect.isHandshakeCall = [] :=
      storeGroups_filter _ (fun _ _ => rfl) (fun _ _ _ => rfl) _ _
    have ha : (afterInitialize host).filter Effect.isHandshakeCall = [] :=
      List.filter_eq_nil_iff.mpr (fun e he => by simp [(afterInitialize_startup host e he).2])
    rw [startupModule_reaches host s (succeeds_reaches host hs)]
    simp only [List.filter_append, List.filter_cons, hg, ha]
    simp [beforeTables, storeManagedFunctions, initializeCall, Effect.isHandshakeCall]

theorem startupModule_call_order_witness :
    (Module.StartupModule goodHost freshState).2.filter Effect.isHandshakeCall =
      [Effect.HostfxrSetErrorWriter, Effect.HostfxrInitializeForRuntimeConfig,
       Effect.HostfxrGetRuntimeDelegate goodHost.HostfxrContext,
       Effect.HostfxrClose goodHost.HostfxrContext,
       Effect.HostfxrLoadAssemblyAndGetFunctionPointer,
       Effect.Initialize "Shared::ManagedFunctions" "Shared::NativeFunctions"
         "Shared::Functions"] :=
  (startupModule_call_order goodHost freshState).2 (by unfold Host.Succeeds; decide)

theorem log_not_mem_storeGroups (v : Verbosity) (m : String) (gs : List FunctionGroup)
    (position : Nat) : Effect.Log v m ∉ storeGroups position gs := by
  intro h
  rcases mem_storeGroups _ _ _ h with ⟨i, a, h⟩ | ⟨a, hd, f, h⟩ <;> cases h

/-- C18: a failed creation of the user assemblies folder is not fatal.  When
every handshake step succeeded, `Status` becomes `Idle` whatever the file
system answers; `CreateDirectory` is called once when the folder is absent
and not at all when it exists; and the error about the folder is logged
exactly when the folder is absent before and still absent after the
attempt. -/
theorem startupModule_folder_failure_not_fatal (host : Host) (s : State) (h : host.Succeeds) :
    (Module.StartupModule host s).1.Status = StatusType.Idle ∧
      ((Module.StartupModule host s).2.filter Effect.isCreateDirectory).length =
        (if host.DirectoryExists = true then 0 else 1) ∧
      (Effect.Log Verbosity.Error
            "%s: Unable to create a folder for managed assemblies at %s." ∈
          (Module.StartupModule host s).2 ↔
        host.DirectoryExists = false ∧ host.DirectoryExistsAfterCreate = false) := by
  have c7 : host.InitializeResult = 15 := h.2.2.2.2.2.2.2.2
  have hg : (storeGroups 0 frameworkGroups).filter Effect.isCreateDirectory = [] :=
    storeGroups_filter _ (fun _ _ => rfl) (fun _ _ _ => rfl) _ _
  have hl := log_not_mem_storeGroups Verbosity.Error
    "%s: Unable to create a folder for managed assemblies at %s." frameworkGroups 0
  refine ⟨by rw [startupModule_succeeds_state host s h], ?_, ?_⟩
  · rw [startupModule_reaches host s (succeeds_reaches host h)]
    simp only [List.filter_append, List.filter_cons, hg]
    cases d1 : host.DirectoryExists <;> cases d2 : host.DirectoryExistsAfterCreate <;>
      simp [beforeTables, storeManagedFunctions, initializeCall, afterInitialize,
        ensureUserAssembliesPath, Effect.isCreateDirectory, c7, d1, d2]
  · rw [startupModule_reaches host s (succeeds_reaches host h)]
    simp only [List.mem_append, List.mem_cons, hl]
    cases d1 : host.DirectoryExists <;> cases d2 : host.DirectoryExistsAfterCreate <;>
      simp [beforeTables, storeManagedFunctions, initializeCall, afterInitialize,
        ensureUserAssembliesPath, c7, d1, d2]

theorem startupModule_folder_failure_not_fatal_witness :
    (Module.StartupModule hostWithoutFolder freshState).1.Status = StatusType.Idle ∧
      ((Module.StartupModule hostWithoutFolder freshState).2.filter
          Effect.isCreateDirectory).length =
        (if hostWithoutFolder.DirectoryExists = true then 0 else 1) ∧
      (Effect.Log Verbosity.Error
            "%s: Unable to create a folder for managed assemblies at %s." ∈
          (Module.StartupModule hostWithoutFolder freshState).2 ↔
        hostWithoutFolder.DirectoryExists = false ∧
          hostWithoutFolder.DirectoryExistsAfterCreate = false) :=
  startupModule_folder_failure_not_fatal hostWithoutFolder freshState
    (by unfold Host.Succeeds; decide)

theorem startupModule_effects_kind (host : Host) (s : State) :
    ∀ e ∈ (Module.StartupModule host s).2, e.isStartupEffect = true := by
  intro e he
  by_cases hres : host.GetDllHandle ≠ 0 ∧
      ∀ name ∈ requiredEntryPoints, host.GetDllExport name ≠ 0
  · obtain ⟨back, hb, hk⟩ := startupModule_resolved host s hres.1 hres.2
    rw [hb] at he
    simp only [List.cons_append, List.nil_append, List.mem_cons] at he
    rcases he with h | h | h | h | h | h | h | h | h | h | h | h | h
    all_goals first
      | exact (hk e h).1
      | (subst h; rfl)
  · exact (startupModule_unresolved host s hres e he).1

/-- C19: `ShutdownModule` removes the `OnPreWorldInitialization` callback, then
the `OnWorldCleanup` callback, and then releases the host library handle, once
and as its last action; no other function of the module (`StartupModule`, the
two world hooks, `HostError`, `Invoke`, `Exception`, `Log`) releases it. -/
theorem shutdownModule_releases_library_last (s : State) :
    Module.ShutdownModule s =
        (s, [Effect.Remove "OnPreWorldInitialization", Effect.Remove "OnWorldCleanup",
             Effect.FreeDllHandle s.HostfxrLibrary]) ∧
      (∀ (host : Host) (st : State), ∀ e ∈ (Module.StartupModule host st).2,
        e.isFreeDllHandle = false) ∧
      (∀ (we : Bool) (o : Objects) (W : Ptr) (st st1 : State) (t1 : List Effect),
        Module.OnPreWorldInitialization we o W st = Except.ok (st1, t1) →
        ∀ e ∈ t1, e.isFreeDllHandle = false) ∧
      (∀ (o : Objects) (W : Ptr) (st st1 : State) (t1 : List Effect),
        Module.OnWorldCleanup o W st = Except.ok (st1, t1) →
        ∀ e ∈ t1, e.isFreeDllHandle = false) ∧
      (∀ (f : Ptr) (L : LogLevel) (m : String) (st : State),
        ∀ e ∈ (Module.HostError m st).2 ++ (Module.Invoke f st).2 ++
            (Module.Exception m st).2 ++ (Module.Log L m st).2,
          e.isFreeDllHandle = false) := by
  refine ⟨rfl, ?_, ?_, ?_, ?_⟩
  · intro host st e he
    have := startupModule_effects_kind host st e he
    cases e <;> first | rfl | cases this
  · intro we o W st st1 t1 h e he
    simp only [Module.OnPreWorldInitialization] at h
    split_ifs at h <;> simp at h <;> (obtain ⟨_, rfl⟩ := h) <;> simp at he <;>
      (try rcases he with rfl | rfl) <;> rfl
  · intro o W st st1 t1 h e he
    simp only [Module.OnWorldCleanup] at h
    split_ifs at h <;> simp at h <;> (obtain ⟨_, rfl⟩ := h) <;> simp at he <;>
      (try rcases he with rfl | rfl | rfl) <;> rfl
  · intro f L m st e he
    cases L <;>
      simp [Module.HostError, Module.Invoke, Module.Exception, Module.Log] at he <;>
      (try rcases he with h | h | h | h | h | h | h | h) <;> (try subst h) <;> rfl

theorem shutdownModule_releases_library_last_witness :
    (Effect.StoreWorld 1).isFreeDllHandle = false :=
  (shutdownModule_releases_library_last freshState).2.2.1 true twoHandles 1
    { freshState with Status := StatusType.Idle }
    { freshState with World := 1, Status := StatusType.Running }
    [Effect.StoreWorld 1, Effect.StoreStatus StatusType.Running] rfl
    (Effect.StoreWorld 1) (List.mem_cons_self _ _)

/-! ## Layout of the framework table -/

theorem filterMap_outerStore_storeEntries (array : String) (fs : List String) :
    ∀ head, (storeEntries array head fs).filterMap Effect.outerStore = [] := by
  induction fs with
  | nil => intro head; rfl
  | cons f fs ih => intro head; simp [storeEntries, Effect.outerStore, ih]

theorem filterMap_outerStore_storeGroups (gs : List FunctionGroup) :
    ∀ position, (storeGroups position gs).filterMap Effect.outerStore =
      (gs.map FunctionGroup.array).enumFrom position := by
  induction gs with
  | nil => intro position; rfl
  | cons g gs ih =>
    intro position
    simp [storeGroups, Effect.outerStore, List.filterMap_append,
      filterMap_outerStore_storeEntries, ih, List.enumFrom_cons]

theorem filterMap_innerStore_storeEntries (a array : String) (fs : List String) :
    ∀ head, (storeEntries array head fs).filterMap (Effect.innerStore a) =
      if array = a then fs.enumFrom head else [] := by
  induction fs with
  | nil => intro head; simp [storeEntries]
  | cons f fs ih =>
    intro head
    by_cases h : array = a
    · subst h
      simp [storeEntries, Effect.innerStore, ih, List.enumFrom_cons]
    · simp [storeEntries, Effect.innerStore, ih, h, List.enumFrom_cons]

theorem filterMap_innerStore_storeGroups_of_not_mem (a : String) (gs : List FunctionGroup) :
    ∀ position, a ∉ gs.map FunctionGroup.array →
      (storeGroups position gs).filterMap (Effect.innerStore a) = [] := by
  induction gs with
  | nil => intro position _; rfl
  | cons g gs ih =>
    intro position h
    simp only [List.map_cons, List.mem_cons, not_or] at h
    have hne : ¬ g.array = a := fun hc => h.1 hc.symm
    simp [storeGroups, Effect.innerStore, List.filterMap_append,
      filterMap_innerStore_storeEntries, hne, ih (position + 1) h.2]

theorem filterMap_innerStore_storeGroups (g : FunctionGroup) (gs : List FunctionGroup) :
    ∀ position, (gs.map FunctionGroup.array).Nodup → g ∈ gs →
      (storeGroups position gs).filterMap (Effect.innerStore g.array) = g.entries.enum := by
  induction gs with
  | nil => intro position _ h; cases h
  | cons g1 gs ih =>
    intro position hnd hg
    simp only [List.map_cons, List.nodup_cons] at hnd
    simp only [List.mem_cons] at hg
    rcases hg with rfl | hg
    · simp [storeGroups, Effect.innerStore, List.filterMap_append,
        filterMap_innerStore_storeEntries,
        filterMap_innerStore_storeGroups_of_not_mem _ gs (position + 1) hnd.1, List.enum]
    · have hne : ¬ g1.array = g.array := by
        intro hc
        exact hnd.1 (hc ▸ List.mem_map_of_mem _ hg)
      simp [storeGroups, Effect.innerStore, List.filterMap_append,
        filterMap_innerStore_storeEntries, hne, ih (position + 1) hnd.2 hg]

theorem frameworkGroups_nodup : (frameworkGroups.map FunctionGroup.array).Nodup := by
  decide

theorem store_none_of_not_tableStore (e : Effect) (h : e.isTableStore = false) :
    e.outerStore = none ∧ ∀ a, e.innerStore a = none := by
  cases e <;> first | exact ⟨rfl, fun _ => rfl⟩ | cases h

theorem startupModule_filterMap_stores (host : Host) (s : State)
    (hr : host.ReachesInitialize) (f : Effect → Option (Nat × String))
    (hf : ∀ e, e.isTableStore = false → f e = none)
    (hm : ∀ i n, f (Effect.StoreManagedFunctions i n) = none) :
    (Module.StartupModule host s).2.filterMap f =
      (storeGroups 0 frameworkGroups).filterMap f := by
  have hb : (beforeTables host).filterMap f = [] :=
    List.filterMap_eq_nil_iff.mpr (fun e he => hf e (beforeTables_kind host e he).1)
  have ha : (afterInitialize host).filterMap f = [] :=
    List.filterMap_eq_nil_iff.mpr (fun e he => hf e (afterInitialize_kind host e he).1)
  rw [startupModule_reaches host s hr]
  simp [List.filterMap_append, hb, ha, storeManagedFunctions, hm, initializeCall,
    hf _ (rfl : (Effect.Initialize "Shared::ManagedFunctions" "Shared::NativeFunctions"
      "Shared::Functions").isTableStore = false)]

/-- C20: on the path that reaches `Initialize`, the stores into
`Shared::Functions` made by `StartupModule` are at the indices 0, 1, ..., 41,
one store per index, the group at index `i` being the `i`-th of the 42
pairwise different groups in source order (`AssertFunctions`,
`CommandLineFunctions`, `DebugFunctions`, `ObjectFunctions`, ...,
`MaterialInstanceDynamicFunctions`); and for every group the stores into its
inner array are at the indices 0, 1, ..., n-1, one store per index, with the
functions in statement order. -/
theorem framework_table_layout (host : Host) (s : State)
    (h : ∃ a b c, Effect.Initialize a b c ∈ (Module.StartupModule host s).2) :
    frameworkGroups.length = 42 ∧
      (Module.StartupModule host s).2.filterMap Effect.outerStore =
        (frameworkGroups.map FunctionGroup.array).enum ∧
      ((Module.StartupModule host s).2.filterMap Effect.outerStore).map Prod.fst =
        List.range 42 ∧
      (frameworkGroups.map FunctionGroup.array).Nodup ∧
      (frameworkGroups.map FunctionGroup.array).take 4 =
        ["AssertFunctions", "CommandLineFunctions", "DebugFunctions", "ObjectFunctions"] ∧
      (frameworkGroups.map FunctionGroup.array).getLast? =
        some "MaterialInstanceDynamicFunctions" ∧
      ∀ g ∈ frameworkGroups,
        (Module.StartupModule host s).2.filterMap (Effect.innerStore g.array) =
          g.entries.enum := by
  obtain ⟨a, b, c, he⟩ := h
  have hr := initialize_mem_reaches host s _ he rfl
  have houter : (Module.StartupModule host s).2.filterMap Effect.outerStore =
      (frameworkGroups.map FunctionGroup.array).enum := by
    rw [startupModule_filterMap_stores host s hr _
      (fun e h => (store_none_of_not_tableStore e h).1) (fun _ _ => rfl),
      filterMap_outerStore_storeGroups]
    rfl
  refine ⟨rfl, houter, ?_, frameworkGroups_nodup, rfl, rfl, ?_⟩
  · rw [houter]
    decide
  · intro g hg
    rw [startupModule_filterMap_stores host s hr _
      (fun e h => (store_none_of_not_tableStore e h).2 g.array) (fun _ _ => rfl)]
    exact filterMap_innerStore_storeGroups g frameworkGroups 0 frameworkGroups_nodup hg

theorem framework_table_layout_witness :
    (Module.StartupModule goodHost freshState).2.filterMap
        (Effect.innerStore "CommandLineFunctions") =
      [(0, "UnrealCLRFramework::CommandLine::Get"), (1, "UnrealCLRFramework::CommandLine::Set"),
       (2, "UnrealCLRFramework::CommandLine::Append")] :=
  (framework_table_layout goodHost freshState
    ⟨"Shared::ManagedFunctions", "Shared::NativeFunctions", "Shared::Functions",
      by rw [startupModule_reaches goodHost freshState
          (by unfold Host.ReachesInitialize; decide)]
         simp [initializeCall]⟩).2.2.2.2.2.2
    ⟨"CommandLineFunctions",
      ["UnrealCLRFramework::CommandLine::Get", "UnrealCLRFramework::CommandLine::Set",
       "UnrealCLRFramework::CommandLine::Append"]⟩
    (by simp [frameworkGroups])

/-! ## World tracking -/

/-- C21: `OnPreWorldInitialization(W)` stores `W` as the tracked world exactly
when `W` is a game world and no world is tracked; in every other case (`W` is
not a game world, or some world, the same or another, is tracked) it returns
the state unchanged, tracked world and `Status` included, and has no effect,
so no notification. -/
theorem preWorldInitialization_tracks_iff (we : Bool) (o : Objects) (W : Ptr) (s : State)
    (hW : W ≠ 0) :
    (o.IsGameWorld W = true ∧ s.World = 0 →
        ∃ s1 t1, Module.OnPreWorldInitialization we o W s = Except.ok (s1, t1) ∧
          s1.World = W ∧ Effect.StoreWorld W ∈ t1) ∧
      (¬ (o.IsGameWorld W = true ∧ s.World = 0) →
        Module.OnPreWorldInitialization we o W s = Except.ok (s, [])) := by
  constructor
  · rintro ⟨hg, hw⟩
    by_cases hs : s.Status = StatusType.Stopped
    · exact ⟨{ s with World := W }, _,
        by simp [Module.OnPreWorldInitialization, hW, hg, hw, hs]; rfl, rfl,
        List.mem_cons_self _ _⟩
    · exact ⟨{ s with World := W, Status := StatusType.Running }, _,
        by simp [Module.OnPreWorldInitialization, hW, hg, hw, hs]; rfl, rfl,
        List.mem_cons_self _ _⟩
  · intro h
    have : (o.IsGameWorld W && s.World == 0) = false := by
      by_cases hg : o.IsGameWorld W = true
      · have hw : s.World ≠ 0 := fun hw => h ⟨hg, hw⟩
        simp [hg, hw]
      · simp [hg]
    simp [Module.OnPreWorldInitialization, hW, this]

theorem preWorldInitialization_tracks_iff_witness :
    Module.OnPreWorldInitialization true twoHandles 2
        { freshState with World := 1, Status := StatusType.Running } =
      Except.ok ({ freshState with World := 1, Status := StatusType.Running }, []) :=
  (preWorldInitialization_tracks_iff true twoHandles 2
    { freshState with World := 1, Status := StatusType.Running } (by decide)).2 (by decide)

/-- C23: `OnWorldCleanup` does not test the tracked world for null.  For a game
world arriving while no world is tracked the handler reads the full name
through the null reference (the fault of the embedding); for a world that is
not a game world the tracked world is not read and the state is returned
unchanged; the handler returns for every world only in states that track a
world, namely exactly in the states that track a world and, unless `Status`
is `Stopped`, hold a non-null `UnloadAssemblies` handle. -/
theorem worldCleanup_needs_tracked_world (s : State) :
    (∀ (o : Objects) (W : Ptr), W ≠ 0 → o.IsGameWorld W = true → s.World = 0 →
        Module.OnWorldCleanup o W s = Except.error Fault.NullDereference) ∧
      (∀ (o : Objects) (W : Ptr), W ≠ 0 → o.IsGameWorld W = false →
        Module.OnWorldCleanup o W s = Except.ok (s, [])) ∧
      ((∀ (o : Objects) (W : Ptr), W ≠ 0 → ∃ r, Module.OnWorldCleanup o W s = Except.ok r) →
        s.World ≠ 0) ∧
      ((∀ (o : Objects) (W : Ptr), W ≠ 0 → ∃ r, Module.OnWorldCleanup o W s = Except.ok r) ↔
        s.World ≠ 0 ∧ (s.Status ≠ StatusType.Stopped → s.UnloadAssemblies ≠ 0)) := by
  have hworld : (∀ (o : Objects) (W : Ptr), W ≠ 0 →
      ∃ r, Module.OnWorldCleanup o W s = Except.ok r) → s.World ≠ 0 := by
    intro h hw
    obtain ⟨r, hr⟩ := h ⟨fun _ => true, fun _ => ""⟩ 1 (by decide)
    simp [Module.OnWorldCleanup, hw] at hr
  refine ⟨?_, ?_, hworld, ?_, ?_⟩
  · intro o W hW hg hw
    simp [Module.OnWorldCleanup, hW, hg, hw]
  · intro o W hW hg
    simp [Module.OnWorldCleanup, hW, hg]
  · intro h
    refine ⟨hworld h, fun hs hu => ?_⟩
    obtain ⟨r, hr⟩ := h ⟨fun _ => true, fun _ => ""⟩ 1 (by decide)
    simp [Module.OnWorldCleanup, hworld h, hs, hu] at hr
  · rintro ⟨hw, hU⟩ o W hW
    simp only [Module.OnWorldCleanup, hW, hw, if_false]
    by_cases hs : s.Status = StatusType.Stopped
    · simp only [hs, ne_eq, not_true_eq_false, if_false]
      split_ifs <;> exact ⟨_, rfl⟩
    · have hu := hU hs
      simp only [hs, hu, ne_eq, not_false_eq_true, if_true, if_false]
      split_ifs <;> exact ⟨_, rfl⟩

theorem worldCleanup_needs_tracked_world_witness :
    Module.OnWorldCleanup twoHandles 1 freshState = Except.error Fault.NullDereference :=
  (worldCleanup_needs_tracked_world freshState).1 twoHandles 1 (by decide) (by decide) rfl

/-- C26: world tracking does not depend on `Status`.  With `Status = Stopped`
and no tracked world, `OnPreWorldInitialization` for a game world `W` records
`W`; a repeated call changes nothing and has no effect, so no further
notification; and the `OnWorldCleanup` of a game world with the full name of
`W` clears the tracked world, with no call of `UnloadAssemblies` and `Status`
still `Stopped`, which gives back the state before the first call. -/
theorem stopped_world_tracking (we : Bool) (o : Objects) (W : Ptr) (s : State)
    (hs : s.Status = StatusType.Stopped) (hw : s.World = 0) (hW : W ≠ 0)
    (hg : o.IsGameWorld W = true) :
    (∃ t1, Module.OnPreWorldInitialization we o W s = Except.ok ({ s with World := W }, t1) ∧
        Effect.StoreWorld W ∈ t1) ∧
      (∀ o1, Module.OnPreWorldInitialization we o1 W { s with World := W } =
        Except.ok ({ s with World := W }, [])) ∧
      (∀ (o2 : Objects) (W2 : Ptr), W2 ≠ 0 → o2.IsGameWorld W2 = true →
        o2.GetFullName W2 = o2.GetFullName W →
        Module.OnWorldCleanup o2 W2 { s with World := W } =
          Except.ok (s, [Effect.StoreWorld 0])) := by
  refine ⟨?_, ?_, ?_⟩
  · exact ⟨_, by simp [Module.OnPreWorldInitialization, hW, hg, hw, hs]; rfl,
      List.mem_cons_self _ _⟩
  · intro o1
    simp [Module.OnPreWorldInitialization, hW]
  · intro o2 W2 hW2 hg2 hn
    cases s
    simp_all [Module.OnWorldCleanup]

theorem stopped_world_tracking_witness :
    Module.OnWorldCleanup twoHandles 2 { freshState with World := 1 } =
      Except.ok (freshState, [Effect.StoreWorld 0]) :=
  (stopped_world_tracking true twoHandles 1 freshState rfl rfl (by decide) (by decide)).2.2
    twoHandles 2 (by decide) (by decide) (by decide)

/-! ## Invariants of the reachable states -/

theorem startupModule_fails_state (host : Host) (s : State) (h : ¬ host.Succeeds) :
    (Module.StartupModule host s).1 =
      { s with Status := StatusType.Stopped, HostfxrLibrary := host.GetDllHandle } := by
  unfold Host.Succeeds at h
  unfold Module.StartupModule resolveEntryPoints initializeHost exchangeFunctionTables
  by_cases h0 : host.GetDllHandle = 0
  · simp [h0]
  by_cases h1 : host.GetDllExport "hostfxr_set_error_writer" = 0
  · simp [h0, h1]
  by_cases h2 : host.GetDllExport "hostfxr_initialize_for_runtime_config" = 0
  · simp [h0, h1, h2]
  by_cases h3 : host.GetDllExport "hostfxr_get_runtime_delegate" = 0
  · simp [h0, h1, h2, h3]
  by_cases h4 : host.GetDllExport "hostfxr_close" = 0
  · simp [h0, h1, h2, h3, h4]
  by_cases c1 : host.InitializeForRuntimeConfig = 0
  swap
  · simp [h0, h1, h2, h3, h4, c1]
  by_cases c2 : host.HostfxrContext = 0
  · simp [h0, h1, h2, h3, h4, c1, c2]
  by_cases c3 : host.GetRuntimeDelegate = 0
  swap
  · simp [h0, h1, h2, h3, h4, c1, c2, c3]
  by_cases c4 : host.LoadAssemblyAndGetFunctionPointerDelegate = 0
  · simp [h0, h1, h2, h3, h4, c1, c2, c3, c4]
  by_cases c5 : host.LoadAssemblyAndGetFunctionPointer = 0
  swap
  · simp [h0, h1, h2, h3, h4, c1, c2, c3, c4, c5]
  by_cases c6 : host.InitializePointer = 0
  · simp [h0, h1, h2, h3, h4, c1, c2, c3, c4, c5, c6]
  by_cases c7 : host.InitializeResult = 15
  · exact absurd ⟨h0, h1, h2, h3, h4, ⟨c1, c2⟩, ⟨c3, c4⟩, ⟨c5, c6⟩, c7⟩ h
  · simp [h0, h1, h2, h3, h4, c1, c2, c3, c4, c5, c6, c7]

theorem startupModule_world (host : Host) (s : State) :
    (Module.StartupModule host s).1.World = s.World := by
  by_cases h : host.Succeeds
  · rw [startupModule_succeeds_state host s h]
  · rw [startupModule_fails_state host s h]

theorem hook_keeps_handles (we : Bool) (ev : Event) (s s1 : State) (t1 : List Effect)
    (hh : ev.isHook = true) (h : step we ev s = Except.ok (s1, t1)) :
    s1.ExecuteAssemblyFunction = s.ExecuteAssemblyFunction ∧
      s1.LoadAssemblyFunction = s.LoadAssemblyFunction ∧
      s1.UnloadAssemblies = s.UnloadAssemblies ∧
      (s1.Status ≠ StatusType.Stopped → s.Status ≠ StatusType.Stopped) ∧
      ∀ p, Effect.UnloadAssemblies p ∈ t1 →
        p = s.UnloadAssemblies ∧ s.Status ≠ StatusType.Stopped := by
  cases ev with
  | StartupModule host => simp [Event.isHook] at hh
  | OnPreWorldInitialization o W =>
    simp only [step, Module.OnPreWorldInitialization] at h
    split_ifs at h <;> simp at h <;> obtain ⟨rfl, rfl⟩ := h <;> simp_all
  | OnWorldCleanup o W =>
    simp only [step, Module.OnWorldCleanup] at h
    split_ifs at h <;> simp at h <;> obtain ⟨rfl, rfl⟩ := h <;> simp_all

theorem hook_keeps_tracking_invariant (we : Bool) (ev : Event) (s s1 : State)
    (t1 : List Effect) (hh : ev.isHook = true) (h : step we ev s = Except.ok (s1, t1))
    (hi : s.Status = StatusType.Running ↔ s.Status ≠ StatusType.Stopped ∧ s.World ≠ 0) :
    (s1.Status = StatusType.Running ↔ s1.Status ≠ StatusType.Stopped ∧ s1.World ≠ 0) := by
  cases ev with
  | StartupModule host => simp [Event.isHook] at hh
  | OnPreWorldInitialization o W =>
    simp only [step, Module.OnPreWorldInitialization] at h
    split_ifs at h <;> simp at h <;> obtain ⟨rfl, _⟩ := h <;> simp_all
  | OnWorldCleanup o W =>
    simp only [step, Module.OnWorldCleanup] at h
    split_ifs at h <;> simp at h <;> obtain ⟨rfl, _⟩ := h <;> simp_all

theorem states_tracking_invariant (we : Bool) (evs : List Event) :
    ∀ s : State, (∀ ev ∈ evs, ev.isHook = true) →
      (s.Status = StatusType.Running ↔ s.Status ≠ StatusType.Stopped ∧ s.World ≠ 0) →
      ∀ st ∈ states we evs s,
        (st.Status = StatusType.Running ↔ st.Status ≠ StatusType.Stopped ∧ st.World ≠ 0) := by
  induction evs with
  | nil => intro s _ _ st h; simp [states] at h
  | cons ev evs ih =>
    intro s hooks hi st hst
    unfold states at hst
    cases hstep : step we ev s with
    | error f => simp [hstep] at hst
    | ok r =>
      obtain ⟨s1, t1⟩ := r
      simp only [hstep, List.mem_cons] at hst
      have h1 := hook_keeps_tracking_invariant we ev s s1 t1
        (hooks ev (List.mem_cons_self _ _)) hstep hi
      rcases hst with rfl | hst
      · exact h1
      · exact ih s1 (fun e he => hooks e (List.mem_cons_of_mem _ he)) h1 st hst

theorem states_length_of_delivered (we : Bool) (evs : List Event) :
    ∀ s : State, (∀ ev ∈ evs, ev.isHook = true) → Delivered we s evs →
      (s.Status ≠ StatusType.Stopped → s.UnloadAssemblies ≠ 0) →
      (states we evs s).length = evs.length := by
  induction evs with
  | nil => intro s _ _ _; rfl
  | cons ev evs ih =>
    intro s hooks hd hU
    obtain ⟨he, hrest⟩ := hd
    have hh := hooks ev (List.mem_cons_self _ _)
    obtain ⟨s1, t1, h1⟩ := hook_expected_ok we ev s hh he hU
    obtain ⟨_, _, k3, k4, _⟩ := hook_keeps_handles we ev s s1 t1 hh h1
    have hU1 : s1.Status ≠ StatusType.Stopped → s1.UnloadAssemblies ≠ 0 :=
      fun hne => by rw [k3]; exact hU (k4 hne)
    simp [states, h1,
      ih s1 (fun e he => hooks e (List.mem_cons_of_mem _ he)) (hrest s1 t1 h1) hU1]

/-- C24: tracking invariant.  Let the state before `StartupModule` track no
world (the static initial value).  In every state reached by `StartupModule`
followed by any sequence of `OnPreWorldInitialization` and `OnWorldCleanup`
calls, `Status = Running` holds exactly when `Status` is not `Stopped` and a
world is tracked; so `Running` implies a tracked world and `Idle` implies
none.  When every cleanup of a game world arrives while a world is tracked
and a successful startup read a non-null `UnloadAssemblies` from the output
array, no call faults and every call of the sequence yields such a state. -/
theorem tracking_invariant (we : Bool) (host : Host) (evs : List Event) (s0 : State)
    (h0 : s0.World = 0) (hooks : ∀ ev ∈ evs, ev.isHook = true) :
    (∀ st ∈ states we (Event.StartupModule host :: evs) s0,
        (st.Status = StatusType.Running ↔ st.Status ≠ StatusType.Stopped ∧ st.World ≠ 0) ∧
        (st.Status = StatusType.Running → st.World ≠ 0) ∧
        (st.Status = StatusType.Idle → st.World = 0)) ∧
      (Delivered we s0 (Event.StartupModule host :: evs) →
        (host.Succeeds → host.NativeFunctions 2 ≠ 0) →
        (states we (Event.StartupModule host :: evs) s0).length = evs.length + 1) := by
  have hw : (Module.StartupModule host s0).1.World = 0 := by
    rw [startupModule_world, h0]
  have hi : ((Module.StartupModule host s0).1.Status = StatusType.Running ↔
      (Module.StartupModule host s0).1.Status ≠ StatusType.Stopped ∧
        (Module.StartupModule host s0).1.World ≠ 0) := by
    rcases (startupModule_status_cases host s0).2 with h | h <;> simp [h, hw]
  constructor
  · intro st hst
    have hinv : (st.Status = StatusType.Running ↔
        st.Status ≠ StatusType.Stopped ∧ st.World ≠ 0) := by
      simp only [states, step, List.mem_cons] at hst
      rcases hst with rfl | hst
      · exact hi
      · exact states_tracking_invariant we evs _ hooks hi st hst
    refine ⟨hinv, fun hr => (hinv.mp hr).2, fun hidle => ?_⟩
    by_contra hne
    have := hinv.mpr ⟨by rw [hidle]; decide, hne⟩
    rw [hidle] at this
    cases this
  · intro hd hnf
    obtain ⟨_, hrest⟩ := hd
    have hd1 := hrest (Module.StartupModule host s0).1 (Module.StartupModule host s0).2 rfl
    have hU : (Module.StartupModule host s0).1.Status ≠ StatusType.Stopped →
        (Module.StartupModule host s0).1.UnloadAssemblies ≠ 0 := by
      intro hne
      by_cases hsucc : host.Succeeds
      · rw [startupModule_succeeds_state host s0 hsucc]
        exact hnf hsucc
      · rw [startupModule_fails_state host s0 hsucc] at hne
        exact absurd rfl hne
    have hlen := states_length_of_delivered we evs _ hooks hd1 hU
    simp only [states, step, List.length_cons, hlen]

theorem tracking_invariant_witness :
    (runningState.Status = StatusType.Running ↔
        runningState.Status ≠ StatusType.Stopped ∧ runningState.World ≠ 0) ∧
      (states true [Event.StartupModule goodHost,
        Event.OnPreWorldInitialization twoHandles 1, Event.OnWorldCleanup twoHandles 2]
        freshState).length = 3 :=
  ⟨((tracking_invariant true goodHost
      [Event.OnPreWorldInitialization twoHandles 1, Event.OnWorldCleanup twoHandles 2]
      freshState rfl (by decide)).1 runningState (by decide)).1,
    (tracking_invariant true goodHost
      [Event.OnPreWorldInitialization twoHandles 1, Event.OnWorldCleanup twoHandles 2]
      freshState rfl (by decide)).2
      (by simp [Delivered, Event.Expected, step, Module.OnPreWorldInitialization,
        Module.OnWorldCleanup, Module.StartupModule, resolveEntryPoints, initializeHost,
        exchangeFunctionTables, twoHandles, freshState, goodHost])
      (fun _ => by decide)⟩

theorem assignedBy_mono (hs hs1 : List Host) (st : State) (h : AssignedBy hs st)
    (hsub : ∀ x ∈ hs, x ∈ hs1) : AssignedBy hs1 st := by
  obtain ⟨x, hx, hrest⟩ := h
  exact ⟨x, hsub x hx, hrest⟩

theorem step_keeps_assigned (we : Bool) (ev : Event) (s s1 : State) (t1 : List Effect)
    (hs : List Host) (h : step we ev s = Except.ok (s1, t1))
    (hj : s.Status ≠ StatusType.Stopped → AssignedBy hs s) :
    (s1.Status ≠ StatusType.Stopped → AssignedBy (hs ++ hostsOf [ev]) s1) ∧
      ∀ p, Effect.UnloadAssemblies p ∈ t1 →
        ∃ x ∈ hs, x.Succeeds ∧ p = x.NativeFunctions 2 := by
  cases ev with
  | StartupModule host =>
    simp only [step, Except.ok.injEq] at h
    have e1 : s1 = (Module.StartupModule host s).1 := by rw [h]
    have e2 : t1 = (Module.StartupModule host s).2 := by rw [h]
    constructor
    · intro hne
      by_cases hsucc : host.Succeeds
      · rw [e1, startupModule_succeeds_state host s hsucc]
        exact ⟨host, by simp [hostsOf], hsucc, rfl, rfl, rfl⟩
      · rw [e1, startupModule_fails_state host s hsucc] at hne
        exact absurd rfl hne
    · intro p hp
      rw [e2] at hp
      have := startupModule_effects_kind host s _ hp
      cases this
  | OnPreWorldInitialization o W =>
    obtain ⟨k1, k2, k3, k4, k5⟩ :=
      hook_keeps_handles we (Event.OnPreWorldInitialization o W) s s1 t1 rfl h
    constructor
    · intro hne
      obtain ⟨x, hx, hsucc, a1, a2, a3⟩ := hj (k4 hne)
      exact ⟨x, by simp [hostsOf, hx], hsucc, by rw [k1, a1], by rw [k2, a2], by rw [k3, a3]⟩
    · intro p hp
      obtain ⟨x, hx, hsucc, _, _, a3⟩ := hj (k5 p hp).2
      exact ⟨x, hx, hsucc, by rw [(k5 p hp).1, a3]⟩
  | OnWorldCleanup o W =>
    obtain ⟨k1, k2, k3, k4, k5⟩ :=
      hook_keeps_handles we (Event.OnWorldCleanup o W) s s1 t1 rfl h
    constructor
    · intro hne
      obtain ⟨x, hx, hsucc, a1, a2, a3⟩ := hj (k4 hne)
      exact ⟨x, by simp [hostsOf, hx], hsucc, by rw [k1, a1], by rw [k2, a2], by rw [k3, a3]⟩
    · intro p hp
      obtain ⟨x, hx, hsucc, _, _, a3⟩ := hj (k5 p hp).2
      exact ⟨x, hx, hsucc, by rw [(k5 p hp).1, a3]⟩

theorem hostsOf_cons (ev : Event) (evs : List Event) :
    hostsOf (ev :: evs) = hostsOf [ev] ++ hostsOf evs := by
  cases ev <;> simp [hostsOf]

theorem states_assigned (we : Bool) (evs : List Event) :
    ∀ (s : State) (hs : List Host), (s.Status ≠ StatusType.Stopped → AssignedBy hs s) →
      ∀ st ∈ states we evs s, st.Status ≠ StatusType.Stopped →
        AssignedBy (hs ++ hostsOf evs) st := by
  induction evs with
  | nil => intro s hs _ st h; simp [states] at h
  | cons ev evs ih =>
    intro s hs hj st hst hne
    unfold states at hst
    cases hstep : step we ev s with
    | error f => simp [hstep] at hst
    | ok r =>
      obtain ⟨s1, t1⟩ := r
      simp only [hstep, List.mem_cons] at hst
      have h1 := (step_keeps_assigned we ev s s1 t1 hs hstep hj).1
      rw [hostsOf_cons, ← List.append_assoc]
      rcases hst with rfl | hst
      · exact assignedBy_mono _ _ _ (h1 hne) (fun x hx => List.mem_append_left _ hx)
      · exact ih s1 _ h1 st hst hne

theorem run_unloads_assigned (we : Bool) (evs : List Event) :
    ∀ (s s2 : State) (t : List Effect) (hs : List Host),
      (s.Status ≠ StatusType.Stopped → AssignedBy hs s) →
      run we evs s = Except.ok (s2, t) →
      ∀ p, Effect.UnloadAssemblies p ∈ t →
        ∃ x ∈ hs ++ hostsOf evs, x.Succeeds ∧ p = x.NativeFunctions 2 := by
  induction evs with
  | nil =>
    intro s s2 t hs _ h p hp
    simp only [run, Except.ok.injEq, Prod.mk.injEq] at h
    rw [← h.2] at hp
    cases hp
  | cons ev evs ih =>
    intro s s2 t hs hj h p hp
    unfold run at h
    cases hstep : step we ev s with
    | error f => simp [hstep] at h
    | ok r =>
      obtain ⟨s1, t1⟩ := r
      simp only [hstep] at h
      cases hrun : run we evs s1 with
      | error f => simp [hrun] at h
      | ok r2 =>
        obtain ⟨s3, t3⟩ := r2
        simp only [hrun, Except.ok.injEq, Prod.mk.injEq] at h
        have hk := step_keeps_assigned we ev s s1 t1 hs hstep hj
        rw [← h.2, List.mem_append] at hp
        rw [hostsOf_cons, ← List.append_assoc]
        rcases hp with hp | hp
        · obtain ⟨x, hx, hrest⟩ := hk.2 p hp
          exact ⟨x, List.mem_append_left _ (List.mem_append_left _ hx), hrest⟩
        · exact ih s1 s3 t3 _ hk.1 hrun p hp

/-- C25: the managed handles are assigned before they are used.  In every
state reached by a call sequence that starts with `StartupModule`, if `Status`
is not `Stopped` then the three handles hold the values that a `StartupModule`
of the sequence, with `Initialize` returning `0xF`, read from slots 0, 1, 2 of
the output array; every pointer called as `UnloadAssemblies` in such a run is
slot 2 of such a startup; and a `StartupModule` run that fails changes only
`Status` and `HostfxrLibrary`, so it leaves the three handles as they were. -/
theorem handles_assigned_before_use (we : Bool) (host : Host) (evs : List Event)
    (s0 : State) :
    (∀ st ∈ states we (Event.StartupModule host :: evs) s0,
        st.Status ≠ StatusType.Stopped → AssignedBy (host :: hostsOf evs) st) ∧
      (∀ (s2 : State) (t : List Effect),
        run we (Event.StartupModule host :: evs) s0 = Except.ok (s2, t) →
        ∀ p, Effect.UnloadAssemblies p ∈ t →
          ∃ x ∈ host :: hostsOf evs, x.Succeeds ∧ p = x.NativeFunctions 2) ∧
      (¬ host.Succeeds →
        (Module.StartupModule host s0).1 =
          { s0 with Status := StatusType.Stopped, HostfxrLibrary := host.GetDllHandle }) := by
  have hj : (Module.StartupModule host s0).1.Status ≠ StatusType.Stopped →
      AssignedBy [host] (Module.StartupModule host s0).1 := by
    intro hne
    by_cases hsucc : host.Succeeds
    · rw [startupModule_succeeds_state host s0 hsucc]
      exact ⟨host, List.mem_singleton_self _, hsucc, rfl, rfl, rfl⟩
    · rw [startupModule_fails_state host s0 hsucc] at hne
      exact absurd rfl hne
  refine ⟨?_, ?_, startupModule_fails_state host s0⟩
  · intro st hst hne
    simp only [states, step, List.mem_cons] at hst
    rcases hst with rfl | hst
    · exact assignedBy_mono _ _ _ (hj hne) (fun x hx => by
        rw [List.mem_singleton] at hx
        rw [hx]
        exact List.mem_cons_self _ _)
    · exact states_assigned we evs _ [host] hj st hst hne
  · intro s2 t hrun p hp
    unfold run at hrun
    simp only [step] at hrun
    cases hrest : run we evs (Module.StartupModule host s0).1 with
    | error f => simp [hrest] at hrun
    | ok r2 =>
      obtain ⟨s3, t3⟩ := r2
      simp only [hrest, Except.ok.injEq, Prod.mk.injEq] at hrun
      rw [← hrun.2, List.mem_append] at hp
      rcases hp with hp | hp
      · have := startupModule_effects_kind host s0 _ hp
        cases this
      · exact run_unloads_assigned we evs _ s3 t3 [host] hj hrest p hp

theorem handles_assigned_before_use_witness :
    AssignedBy (goodHost :: hostsOf [Event.OnPreWorldInitialization twoHandles 1])
      { Status := StatusType.Running, World := 1, ExecuteAssemblyFunction := 10,
        LoadAssemblyFunction := 11, UnloadAssemblies := 12, HostfxrLibrary := 1 } :=
  (handles_assigned_before_use true goodHost [Event.OnPreWorldInitialization twoHandles 1]
    freshState).1 _ (by decide) (by decide)

/-! ## Marshalling structs -/

/-- C22: the marshalling structs copy field by field.  For `Color`, `Vector2`,
`Vector3`, `Quaternion` and `LinearColor`, building the struct from an engine
value copies every field to the field of the same name (for `Color` too,
whose fields are declared in the order `B, G, R, A`), and converting back
gives the engine value again; `Transform` built from an engine transform holds
its rotation, translation and scale, and converts back to it. -/
theorem marshalling_structs_copy (F : Type) :
    (∀ v : FColor, (Color.fromFColor v).toFColor = v ∧
        (Color.fromFColor v).R = v.R ∧ (Color.fromFColor v).G = v.G ∧
        (Color.fromFColor v).B = v.B ∧ (Color.fromFColor v).A = v.A) ∧
      (∀ v : FVector2D F, (Vector2.fromFVector2D v).toFVector2D = v ∧
        (Vector2.fromFVector2D v).X = v.X ∧ (Vector2.fromFVector2D v).Y = v.Y) ∧
      (∀ v : FVector F, (Vector3.fromFVector v).toFVector = v ∧
        (Vector3.fromFVector v).X = v.X ∧ (Vector3.fromFVector v).Y = v.Y ∧
        (Vector3.fromFVector v).Z = v.Z) ∧
      (∀ v : FQuat F, (Quaternion.fromFQuat v).toFQuat = v ∧
        (Quaternion.fromFQuat v).X = v.X ∧ (Quaternion.fromFQuat v).Y = v.Y ∧
        (Quaternion.fromFQuat v).Z = v.Z ∧ (Quaternion.fromFQuat v).W = v.W) ∧
      (∀ v : FLinearColor F, (LinearColor.fromFLinearColor v).toFLinearColor = v ∧
        (LinearColor.fromFLinearColor v).R = v.R ∧ (LinearColor.fromFLinearColor v).G = v.G ∧
        (LinearColor.fromFLinearColor v).B = v.B ∧ (LinearColor.fromFLinearColor v).A = v.A) ∧
      (∀ v : FTransform F,
        (Transform.fromFTransform v).Rotation.toFQuat = v.GetRotation ∧
        (Transform.fromFTransform v).Location.toFVector = v.GetTranslation ∧
        (Transform.fromFTransform v).Scale.toFVector = v.GetScale3D ∧
        (Transform.fromFTransform v).toFTransform = v) :=
  ⟨fun _ => ⟨rfl, rfl, rfl, rfl, rfl⟩, fun _ => ⟨rfl, rfl, rfl⟩,
    fun _ => ⟨rfl, rfl, rfl, rfl⟩, fun _ => ⟨rfl, rfl, rfl, rfl, rfl⟩,
    fun _ => ⟨rfl, rfl, rfl, rfl, rfl⟩, fun _ => ⟨rfl, rfl, rfl, rfl⟩⟩

/-! ## String helpers -/


theorem copyLoop_spec (tail : List Nat) :
    ∀ (more destination source : Nat) (S : List Nat) (stores : List (Nat × Nat)),
      (∀ c ∈ S, c ≠ 0) →
      Utility.copyLoop more destination source (S ++ 0 :: tail) stores =
        if S.length ≤ more then
          Except.ok { length := more + 1 - S.length, destination := destination + S.length + 1,
                      source := source + S.length + 1, rest := tail,
                      stores := stores ++ S.enumFrom destination ++
                        [(destination + S.length, 0)] }
        else
          Except.ok { length := 0, destination := destination + more + 1,
                      source := source + more + 1,
                      rest := S.drop (more + 1) ++ 0 :: tail,
                      stores := stores ++ (S.take (more + 1)).enumFrom destination } := by
  intro more
  induction more with
  | zero =>
    intro destination source S stores hS
    cases S with
    | nil => simp [Utility.copyLoop]
    | cons c S =>
      have hc : c ≠ 0 := hS c (List.mem_cons_self _ _)
      simp [Utility.copyLoop, hc, List.enumFrom_cons]
  | succ more ih =>
    intro destination source S stores hS
    cases S with
    | nil => simp [Utility.copyLoop]
    | cons c S =>
      have hc : c ≠ 0 := hS c (List.mem_cons_self _ _)
      have hS1 : ∀ x ∈ S, x ≠ 0 := fun x hx => hS x (List.mem_cons_of_mem _ hx)
      simp only [List.cons_append, Utility.copyLoop, hc, if_false, List.append_eq]
      rw [ih (destination + 1) (source + 1) S (stores ++ [(destination, c)]) hS1]
      by_cases hle : S.length ≤ more
      · have hle1 : (c :: S).length ≤ more + 1 := by simpa using hle
        rw [if_pos hle, if_pos hle1]
        simp only [List.length_cons, List.enumFrom_cons, List.append_assoc, List.singleton_append,
          Except.ok.injEq, StrcpyLocals.mk.injEq, List.cons_append]
        refine ⟨by omega, by omega, by omega, trivial, ?_⟩
        rw [show destination + 1 + S.length = destination + (S.length + 1) by omega]
        rfl
      · have hle1 : ¬ (c :: S).length ≤ more + 1 := by simpa using hle
        rw [if_neg hle, if_neg hle1]
        simp only [List.enumFrom_cons, List.append_assoc, List.singleton_append,
          Except.ok.injEq, StrcpyLocals.mk.injEq, List.take_succ_cons, List.drop_succ_cons]
        exact ⟨trivial, by omega, by omega, trivial, trivial⟩

theorem scanLoop_spec (tail : List Nat) :
    ∀ (S : List Nat) (source : Nat), (∀ c ∈ S, c ≠ 0) →
      Utility.scanLoop (S ++ 0 :: tail) source = Except.ok (source + S.length + 1) := by
  intro S
  induction S with
  | nil => intro source _; simp [Utility.scanLoop]
  | cons c S ih =>
    intro source hS
    have hc : c ≠ 0 := hS c (List.mem_cons_self _ _)
    have hS1 : ∀ x ∈ S, x ≠ 0 := fun x hx => hS x (List.mem_cons_of_mem _ hx)
    simp [Utility.scanLoop, hc, ih (source + 1) hS1]
    omega

theorem strcpy_spec (S tail : List Nat) (Length : Nat) (hS : ∀ c ∈ S, c ≠ 0) :
    Utility.Strcpy (S ++ 0 :: tail) Length =
      Except.ok (S.length,
        if Length = 0 then []
        else (S.take (Length - 1)).enum ++ [(min S.length (Length - 1), 0)]) := by
  match Length with
  | 0 =>
    simp only [Utility.Strcpy, scanLoop_spec tail S 0 hS]
    simp
  | 1 =>
    simp only [Utility.Strcpy, scanLoop_spec tail S 0 hS]
    simp [List.enum]
  | more + 2 =>
    simp only [Utility.Strcpy, copyLoop_spec tail more 0 0 S [] hS]
    by_cases hle : S.length ≤ more
    · have hne : more + 1 - S.length ≠ 0 := by omega
      simp only [if_pos hle, hne, if_false]
      have htake : S.take (more + 1) = S := List.take_of_length_le (by omega)
      have hmin : min S.length (more + 1) = S.length := by omega
      simp [htake, hmin, List.enum]
    · have hdrop : ∀ c ∈ S.drop (more + 1), c ≠ 0 :=
        fun c hc => hS c (List.mem_of_mem_drop hc)
      simp only [if_neg hle, if_true, scanLoop_spec tail _ _ hdrop]
      have hmin : min S.length (more + 1) = more + 1 := by omega
      simp [hmin, List.enum]
      omega

theorem stored_append_singleton (Destination : Nat → Nat) (stores : List (Nat × Nat))
    (j v : Nat) :
    stored Destination (stores ++ [(j, v)]) = Function.update (stored Destination stores) j v := by
  simp [stored, List.foldl_append]

theorem stored_enum (Destination : Nat → Nat) (l : List Nat) :
    ∀ i, stored Destination l.enum i = (l[i]?).getD (Destination i) := by
  induction l using List.reverseRecOn with
  | nil => intro i; rfl
  | append_singleton l x ih =>
    intro i
    have he : (l ++ [x]).enum = l.enum ++ [(l.length, x)] := by
      simp [List.enum_append, List.enumFrom_cons]
    rw [he, stored_append_singleton]
    by_cases hi : i = l.length
    · subst hi
      simp
    · rw [Function.update_noteq hi, ih i]
      by_cases hlt : i < l.length
      · rw [List.getElem?_append_left hlt]
      · have h1 : l.length ≤ i := by omega
        have h2 : (l ++ [x]).length ≤ i := by simp; omega
        rw [List.getElem?_eq_none h1, List.getElem?_eq_none h2]

/-- C27: for every NUL-terminated source (the bytes `S`, none of them zero,
then a NUL, then whatever follows) and every `Length`, zero and one included,
`Strcpy` returns the number of bytes of `S`; the destination is not an input
of the result.  The copy is cut short, that is, the stores are not all of `S`
followed by the NUL, exactly when the returned value is at least `Length`. -/
theorem strcpy_returns_source_length (S tail : List Nat) (Length : Nat)
    (hS : ∀ c ∈ S, c ≠ 0) :
    ∃ stores, Utility.Strcpy (S ++ 0 :: tail) Length = Except.ok (S.length, stores) ∧
      (stores ≠ S.enum ++ [(S.length, 0)] ↔ Length ≤ S.length) := by
  refine ⟨_, strcpy_spec S tail Length hS, ?_⟩
  by_cases h0 : Length = 0
  · simp [h0]
  · simp only [h0, if_false]
    by_cases hlt : S.length < Length
    · have htake : S.take (Length - 1) = S := List.take_of_length_le (by omega)
      have hmin : min S.length (Length - 1) = S.length := by omega
      simp only [htake, hmin, ne_eq, not_true_eq_false, false_iff]
      omega
    · have hlen : ((S.take (Length - 1)).enum ++ [(min S.length (Length - 1), 0)]).length ≠
          (S.enum ++ [(S.length, 0)]).length := by
        simp [List.enum, List.length_take]
        omega
      constructor
      · intro _
        omega
      · intro _ heq
        exact hlen (by rw [heq])

theorem strcpy_returns_source_length_witness :
    ∃ stores, Utility.Strcpy ([104, 105] ++ 0 :: [7]) 2 = Except.ok ([104, 105].length, stores) ∧
      (stores ≠ [104, 105].enum ++ [([104, 105].length, 0)] ↔ 2 ≤ [104, 105].length) :=
  strcpy_returns_source_length [104, 105] [7] 2 (by decide)

/-- C28: for every NUL-terminated source with the bytes `S` before the NUL and
every `Length > 0`, with `k = min (length of S) (Length - 1)`: after `Strcpy`
the destination holds the first `k` bytes of `S` at the offsets below `k` and
a NUL at offset `k`, every byte at an offset above `k` is as before, and every
store is at an offset below `Length`; for `Length = 0` there is no store. -/
theorem strcpy_destination (Destination : Nat → Nat) (S tail : List Nat) (Length : Nat)
    (hS : ∀ c ∈ S, c ≠ 0) :
    ∃ stores, Utility.Strcpy (S ++ 0 :: tail) Length = Except.ok (S.length, stores) ∧
      (Length = 0 → stores = []) ∧
      (0 < Length →
        (∀ i, i < min S.length (Length - 1) →
          S[i]? = some (stored Destination stores i)) ∧
        stored Destination stores (min S.length (Length - 1)) = 0 ∧
        (∀ i, min S.length (Length - 1) < i →
          stored Destination stores i = Destination i) ∧
        (∀ w ∈ stores, w.1 ≤ min S.length (Length - 1) ∧ w.1 < Length)) := by
  refine ⟨_, strcpy_spec S tail Length hS, fun h0 => by simp [h0], fun hpos => ?_⟩
  have h0 : Length ≠ 0 := by omega
  have hk : (S.take (Length - 1)).length = min S.length (Length - 1) := by
    rw [List.length_take, Nat.min_comm]
  simp only [h0, if_false, stored_append_singleton]
  refine ⟨?_, by simp, ?_, ?_⟩
  · intro i hi
    have hne : i ≠ min S.length (Length - 1) := by omega
    have hlt : i < (S.take (Length - 1)).length := by omega
    rw [Function.update_noteq hne, stored_enum, List.getElem?_take_of_lt (by omega)]
    have hi2 : i < S.length := by omega
    simp [List.getElem?_eq_getElem hi2]
  · intro i hi
    have hne : i ≠ min S.length (Length - 1) := by omega
    rw [Function.update_noteq hne, stored_enum, List.getElem?_eq_none (by omega)]
    rfl
  · intro w hw
    simp only [List.mem_append, List.mem_singleton] at hw
    rcases hw with hw | hw
    · have := List.fst_lt_of_mem_enum hw
      omega
    · subst hw
      simp only
      omega

theorem strcpy_destination_witness :
    ∃ stores, Utility.Strcpy ([104, 105, 33] ++ 0 :: [7]) 3 =
        Except.ok ([104, 105, 33].length, stores) ∧
      (3 = 0 → stores = []) ∧
      (0 < 3 →
        (∀ i, i < min [104, 105, 33].length (3 - 1) →
          [104, 105, 33][i]? = some (stored (fun _ => 9) stores i)) ∧
        stored (fun _ => 9) stores (min [104, 105, 33].length (3 - 1)) = 0 ∧
        (∀ i, min [104, 105, 33].length (3 - 1) < i →
          stored (fun _ => 9) stores i = (fun _ => 9) i) ∧
        (∀ w ∈ stores, w.1 ≤ min [104, 105, 33].length (3 - 1) ∧ w.1 < 3)) :=
  strcpy_destination (fun _ => 9) [104, 105, 33] [7] 3 (by decide)

theorem strlen_spec (tail : List Nat) :
    ∀ S : List Nat, (∀ c ∈ S, c ≠ 0) → strlen (S ++ 0 :: tail) = Except.ok S.length := by
  intro S
  induction S with
  | nil => intro _; simp [strlen]
  | cons c S ih =>
    intro hS
    have hc : c ≠ 0 := hS c (List.mem_cons_self _ _)
    have hS1 : ∀ x ∈ S, x ≠ 0 := fun x hx => hS x (List.mem_cons_of_mem _ hx)
    simp [strlen, hc, ih hS1]

/-- C29: for every NUL-terminated source with the bytes `S` before the NUL,
`Strlen` returns the number of bytes of `S` plus one, so at least 1; this is
the value `Strcpy` returns for the same source plus one; and `Strcpy` stores
all of `S` followed by the NUL exactly for the `Length` values from that
number on, so it is the smallest `Length` without truncation. -/
theorem strlen_counts_terminator (S tail : List Nat) (hS : ∀ c ∈ S, c ≠ 0) :
    Utility.Strlen (S ++ 0 :: tail) = Except.ok (S.length + 1) ∧
      1 ≤ S.length + 1 ∧
      ∀ Length, ∃ stores,
        Utility.Strcpy (S ++ 0 :: tail) Length = Except.ok (S.length, stores) ∧
        (stores = S.enum ++ [(S.length, 0)] ↔ S.length + 1 ≤ Length) := by
  refine ⟨by simp [Utility.Strlen, strlen_spec tail S hS], by omega, fun Length => ?_⟩
  refine ⟨_, strcpy_spec S tail Length hS, ?_⟩
  by_cases h0 : Length = 0
  · simp [h0]
  · simp only [h0, if_false]
    by_cases hlt : S.length < Length
    · have htake : S.take (Length - 1) = S := List.take_of_length_le (by omega)
      have hmin : min S.length (Length - 1) = S.length := by omega
      simp only [htake, hmin, true_iff]
      omega
    · have hlen : ((S.take (Length - 1)).enum ++ [(min S.length (Length - 1), 0)]).length ≠
          (S.enum ++ [(S.length, 0)]).length := by
        simp [List.enum, List.length_take]
        omega
      constructor
      · intro heq
        exact absurd (by rw [heq]) hlen
      · intro _
        omega

theorem strlen_counts_terminator_witness :
    Utility.Strlen ([104, 105] ++ 0 :: [7]) = Except.ok ([104, 105].length + 1) :=
  (strlen_counts_terminator [104, 105] [7] (by decide)).1

/-! ## The framework table against the header -/

set_option maxHeartbeats 1000000 in
theorem frameworkGroups_undeclared :
    frameworkGroups.flatMap FunctionGroup.undeclared =
      ["UnrealCLRFramework::Engine::RequestExit",
       "UnrealCLRFramework::HeadMountedDisplay::IsEnabled",
       "UnrealCLRFramework::Actor::AttachToActor",
       "UnrealCLRFramework::AnimationInstance::MontagePlay",
       "UnrealCLRFramework::AnimationInstance::MontagePause",
       "UnrealCLRFramework::AnimationInstance::MontageResume"] := by
  decide

set_option maxHeartbeats 1000000 in
theorem frameworkGroups_have_namespace :
    frameworkGroups.all (fun g => (namespaceOf g.array).isSome) = true := by
  decide

set_option maxHeartbeats 1000000 in
theorem frameworkGroups_declared_in_order :
    frameworkGroups.all FunctionGroup.declaredInOrder = true := by
  decide

theorem requestExit_in_table :
    Effect.StoreGroup "EngineFunctions" 17 "UnrealCLRFramework::Engine::RequestExit" ∈
      storeGroups 0 frameworkGroups := by
  decide

/-- C30 fails on the code: six functions whose addresses `StartupModule`
stores into a capability group are not declared in the namespace of that group
in `UnrealCLRFramework.h` (`Engine::RequestExit`, `HeadMountedDisplay::IsEnabled`,
`Actor::AttachToActor`, `AnimationInstance::MontagePlay`, `MontagePause`,
`MontageResume`), and a run on which every step succeeds makes the store
`Shared::EngineFunctions[17] = &UnrealCLRFramework::Engine::RequestExit`.
Every group array is named after a namespace of the header, and the entries
that are declared come in the order of their declarations. -/
theorem table_entries_missing_from_header :
    frameworkGroups.flatMap FunctionGroup.undeclared =
        ["UnrealCLRFramework::Engine::RequestExit",
         "UnrealCLRFramework::HeadMountedDisplay::IsEnabled",
         "UnrealCLRFramework::Actor::AttachToActor",
         "UnrealCLRFramework::AnimationInstance::MontagePlay",
         "UnrealCLRFramework::AnimationInstance::MontagePause",
         "UnrealCLRFramework::AnimationInstance::MontageResume"] ∧
      Effect.StoreGroup "EngineFunctions" 17 "UnrealCLRFramework::Engine::RequestExit" ∈
        (Module.StartupModule goodHost freshState).2 ∧
      frameworkGroups.all (fun g => (namespaceOf g.array).isSome) = true ∧
      frameworkGroups.all FunctionGroup.declaredInOrder = true := by
  refine ⟨frameworkGroups_undeclared, ?_, frameworkGroups_have_namespace,
    frameworkGroups_declared_in_order⟩
  rw [startupModule_reaches goodHost freshState (by unfold Host.ReachesInitialize; decide)]
  simp [requestExit_in_table]

end UnrealCLR
